import Mathlib

/-!
# Domain permission gate (`internal/db/bundb/domain.go`)

A shallow embedding of the domain permission functions of `domainDB`.

Go results are kept in Go shape: a function returning `(bool, error)` is modelled as
returning `Bool × Option Err` (`none` is the `nil` error), a function returning `error`
as returning `Option Err`. The receiver `d *domainDB` (database handle, caches) and the
global configuration are gathered in an explicit `State` that every operation takes and
returns.

Collaborators that are not part of `domain.go`:

* `util.Punify` is a parameter `Punify : String → String × Option Err` of every
  operation that calls it;
* the storage engine is a pair of tables with a query log and a schedule of failures,
  so that any query may fail;
* the set cache (`Caches.DB.DomainAllow`, `Caches.DB.DomainBlock`) follows section 4.1
  of the specification.
-/

namespace Bundb

/-! ## Storage engine -/

/-- The two tables the permission gate reads and writes, and the tables of permission
drafts and permission subscriptions. -/
inductive Table
  | domain_allows
  | domain_blocks
  | domain_permission_drafts
  | domain_permission_subscriptions
  deriving DecidableEq, Repr

/-- Queries issued by `domain.go`: on the allow and block tables an insert of a row, a
delete and a select by domain, and the select of the domain column; on the draft and
subscription tables a select of one row by ID and the paged select of IDs. -/
inductive Query
  | insert (t : Table) (domain : String)
  | delete (t : Table) (domain : String)
  | selectDomains (t : Table)
  | selectByDomain (t : Table) (domain : String)
  | selectByID (t : Table) (id : String)
  | selectIDs (t : Table)
  deriving DecidableEq, Repr

/-- Error values: a rejected domain (from `util.Punify`), a failed query, the
`unrecognized federation mode: %s` error built in `IsDomainBlocked`, `db.ErrNoEntries`,
and an error wrapped with a message by `gtserror.Newf("...: %w", err)`. -/
inductive Err
  | invalidDomain (detail : String)
  | storage (q : Query)
  | unrecognizedMode (mode : String)
  | noEntries
  | wrapped (msg : String) (inner : Err)
  deriving DecidableEq, Repr

/-- Row of `domain_allows`: only the columns `domain.go` reads or writes. -/
structure DomainAllow where
  ID : String
  Domain : String
  deriving DecidableEq, Repr

/-- Row of `domain_blocks`: only the columns `domain.go` reads or writes. -/
structure DomainBlock where
  ID : String
  Domain : String
  deriving DecidableEq, Repr

/-- Storage: the rows of both tables, the log of every query issued so far, and a
schedule telling, for each of the coming queries in turn, whether the engine fails it
(`true`); once the schedule is exhausted queries succeed. -/
structure DB where
  domainAllows : List DomainAllow
  domainBlocks : List DomainBlock
  faults : List Bool
  log : List Query
  deriving DecidableEq, Repr

/-- Issue one query: it is logged, consumes one entry of the failure schedule, and
fails with a storage error when that entry says so. -/
def DB.exec (db : DB) (q : Query) : Option Err × DB :=
  let db' : DB := { db with faults := db.faults.tail, log := db.log ++ [q] }
  if db.faults.headD false then (some (Err.storage q), db') else (none, db')

/-- `NewInsert().Model(allow).Exec(ctx)`. -/
def DB.insertDomainAllow (db : DB) (allow : DomainAllow) : Option Err × DB :=
  match db.exec (Query.insert Table.domain_allows allow.Domain) with
  | (some err, db') => (some err, db')
  | (none, db') => (none, { db' with domainAllows := db'.domainAllows ++ [allow] })

/-- `NewInsert().Model(block).Exec(ctx)`. -/
def DB.insertDomainBlock (db : DB) (block : DomainBlock) : Option Err × DB :=
  match db.exec (Query.insert Table.domain_blocks block.Domain) with
  | (some err, db') => (some err, db')
  | (none, db') => (none, { db' with domainBlocks := db'.domainBlocks ++ [block] })

/-- `NewDelete().Model((*gtsmodel.DomainAllow)(nil)).Where("domain = ?", domain).Exec(ctx)`;
deleting zero rows is a success. -/
def DB.deleteDomainAllow (db : DB) (domain : String) : Option Err × DB :=
  match db.exec (Query.delete Table.domain_allows domain) with
  | (some err, db') => (some err, db')
  | (none, db') =>
    (none, { db' with domainAllows := db'.domainAllows.filter (fun a => a.Domain != domain) })

/-- `NewDelete().Model((*gtsmodel.DomainBlock)(nil)).Where("domain = ?", domain).Exec(ctx)`;
deleting zero rows is a success. -/
def DB.deleteDomainBlock (db : DB) (domain : String) : Option Err × DB :=
  match db.exec (Query.delete Table.domain_blocks domain) with
  | (some err, db') => (some err, db')
  | (none, db') =>
    (none, { db' with domainBlocks := db'.domainBlocks.filter (fun b => b.Domain != domain) })

/-- The loader closure of the allow lookup in `IsDomainBlocked`:
`NewSelect().Table("domain_allows").Column("domain")` scanned into `[]string`;
on a scan error it returns `nil, err`. -/
def DB.scanDomainAllows (db : DB) : (List String × Option Err) × DB :=
  match db.exec (Query.selectDomains Table.domain_allows) with
  | (some err, db') => (([], some err), db')
  | (none, db') => ((db'.domainAllows.map (fun a => a.Domain), none), db')

/-- The loader closure of the block lookup in `IsDomainBlocked`:
`NewSelect().Table("domain_blocks").Column("domain")` scanned into `[]string`;
on a scan error it returns `nil, err`. -/
def DB.scanDomainBlocks (db : DB) : (List String × Option Err) × DB :=
  match db.exec (Query.selectDomains Table.domain_blocks) with
  | (some err, db') => (([], some err), db')
  | (none, db') => ((db'.domainBlocks.map (fun b => b.Domain), none), db')

/-! ## Permission-set cache -/

/-- Modelled from the spec: the set cache type behind `Caches.DB.DomainAllow` and
`Caches.DB.DomainBlock` (package `internal/cache/domain`) is not among the sources.
Section 4.1: a read-through cache of the complete membership list of one set, hydrated
lazily from storage. `entries = none` is the cleared (unhydrated) state; `lookups`
counts the `Matches` calls made on this cache. -/
structure Cache where
  entries : Option (List String)
  lookups : Nat
  deriving DecidableEq, Repr

/-- Modelled from the spec: `Cache.Clear` is not among the sources. Section 4.1:
"`Clear()` atomically invalidates the entire set". -/
def Cache.Clear (c : Cache) : Cache :=
  { c with entries := none }

/-- Modelled from the spec: `Cache.Matches` is not among the sources. Section 4.1:
"Looks up whether `domain` is a member of a named set. On cache miss, invokes
`loader()` to pull the complete current membership list from storage, populates the
cache, then evaluates membership against the freshly loaded list." A loader error is
returned as `(false, err)` and leaves the cache unhydrated. -/
def Cache.Matches (c : Cache) (domain : String)
    (load : DB → (List String × Option Err) × DB) (db : DB) :
    (Bool × Option Err) × Cache × DB :=
  let c : Cache := { c with lookups := c.lookups + 1 }
  match c.entries with
  | some domains => ((domains.contains domain, none), c, db)
  | none =>
    match load db with
    | ((_, some err), db') => ((false, some err), c, db')
    | ((domains, none), db') =>
      ((domains.contains domain, none), { c with entries := some domains }, db')

/-! ## Configuration and state -/

/-- Modelled from the spec: the constant `config.InstanceFederationModeBlocklist` is
not among the sources; section 6 names the two values of the federation policy. -/
def InstanceFederationModeBlocklist : String := "blocklist"

/-- Modelled from the spec: the constant `config.InstanceFederationModeAllowlist` is
not among the sources; section 6 names the two values of the federation policy. -/
def InstanceFederationModeAllowlist : String := "allowlist"

/-- The configuration values read by `domain.go`: `config.GetHost()`,
`config.GetAccountDomain()` and `config.GetInstanceFederationMode()`. -/
structure Config where
  Host : String
  AccountDomain : String
  InstanceFederationMode : String
  deriving DecidableEq, Repr

/-- `d.state.Caches.DB`: the two set caches. -/
structure Caches where
  DomainAllow : Cache
  DomainBlock : Cache
  deriving DecidableEq, Repr

/-- Everything a `domainDB` method can read or change. -/
structure State where
  config : Config
  db : DB
  caches : Caches
  deriving DecidableEq, Repr

section Operations

variable (Punify : String → String × Option Err)

/-- `domainDB.CreateDomainAllow`. Returns the error, the caller's record as the call
leaves it (its `Domain` is overwritten with the first result of `util.Punify` before
the error check), and the state. -/
def CreateDomainAllow (s : State) (allow : DomainAllow) : Option Err × DomainAllow × State :=
  let r := Punify allow.Domain
  let allow : DomainAllow := { allow with Domain := r.1 }
  match r.2 with
  | some err => (some err, allow, s)
  | none =>
    match s.db.insertDomainAllow allow with
    | (some err, db') => (some err, allow, { s with db := db' })
    | (none, db') =>
      (none, allow,
        { s with db := db', caches := { s.caches with DomainAllow := s.caches.DomainAllow.Clear } })

/-- `domainDB.DeleteDomainAllow`. -/
def DeleteDomainAllow (s : State) (domain : String) : Option Err × State :=
  match Punify domain with
  | (_, some err) => (some err, s)
  | (domain, none) =>
    match s.db.deleteDomainAllow domain with
    | (some err, db') => (some err, { s with db := db' })
    | (none, db') =>
      (none,
        { s with db := db', caches := { s.caches with DomainAllow := s.caches.DomainAllow.Clear } })

/-- `domainDB.CreateDomainBlock`. Returns the error, the caller's record as the call
leaves it (its `Domain` is overwritten with the first result of `util.Punify` before
the error check), and the state. -/
def CreateDomainBlock (s : State) (block : DomainBlock) : Option Err × DomainBlock × State :=
  let r := Punify block.Domain
  let block : DomainBlock := { block with Domain := r.1 }
  match r.2 with
  | some err => (some err, block, s)
  | none =>
    match s.db.insertDomainBlock block with
    | (some err, db') => (some err, block, { s with db := db' })
    | (none, db') =>
      (none, block,
        { s with db := db', caches := { s.caches with DomainBlock := s.caches.DomainBlock.Clear } })

/-- `domainDB.DeleteDomainBlock`. -/
def DeleteDomainBlock (s : State) (domain : String) : Option Err × State :=
  match Punify domain with
  | (_, some err) => (some err, s)
  | (domain, none) =>
    match s.db.deleteDomainBlock domain with
    | (some err, db') => (some err, { s with db := db' })
    | (none, db') =>
      (none,
        { s with db := db', caches := { s.caches with DomainBlock := s.caches.DomainBlock.Clear } })

/-- `domainDB.IsDomainBlocked`. -/
def IsDomainBlocked (s : State) (domain : String) : (Bool × Option Err) × State :=
  match Punify domain with
  | (_, some err) => ((false, some err), s)
  | (domain, none) =>
    if domain = "" ∨ domain = s.config.AccountDomain ∨ domain = s.config.Host then
      ((false, none), s)
    else
      match s.caches.DomainAllow.Matches domain DB.scanDomainAllows s.db with
      | ((_, some err), c, db') =>
        ((false, some err), { s with db := db', caches := { s.caches with DomainAllow := c } })
      | ((explicitAllow, none), c, db') =>
        let s : State := { s with db := db', caches := { s.caches with DomainAllow := c } }
        match s.caches.DomainBlock.Matches domain DB.scanDomainBlocks s.db with
        | ((_, some err), c, db') =>
          ((false, some err), { s with db := db', caches := { s.caches with DomainBlock := c } })
        | ((explicitBlock, none), c, db') =>
          let s : State := { s with db := db', caches := { s.caches with DomainBlock := c } }
          let mode := s.config.InstanceFederationMode
          if mode = InstanceFederationModeBlocklist then
            ((!(explicitAllow || !explicitBlock), none), s)
          else if mode = InstanceFederationModeAllowlist then
            ((explicitBlock || !explicitAllow, none), s)
          else
            ((false, some (Err.unrecognizedMode mode)), s)

/-- `domainDB.AreDomainsBlocked`: the `for ... range domains` loop. -/
def AreDomainsBlocked (s : State) : List String → (Bool × Option Err) × State
  | [] => ((false, none), s)
  | domain :: domains =>
    match IsDomainBlocked Punify s domain with
    | ((_, some err), s') => ((false, some err), s')
    | ((blocked, none), s') =>
      if blocked then ((blocked, none), s') else AreDomainsBlocked s' domains

variable {URL : Type} (Hostname : URL → String)

/-- `domainDB.IsURIBlocked`; `Hostname` is `(*url.URL).Hostname` of the standard library. -/
def IsURIBlocked (s : State) (uri : URL) : (Bool × Option Err) × State :=
  IsDomainBlocked Punify s (Hostname uri)

/-- `domainDB.AreURIsBlocked`: the `for ... range uris` loop. -/
def AreURIsBlocked (s : State) : List URL → (Bool × Option Err) × State
  | [] => ((false, none), s)
  | uri :: uris =>
    match IsDomainBlocked Punify s (Hostname uri) with
    | ((_, some err), s') => ((false, some err), s')
    | ((blocked, none), s') =>
      if blocked then ((blocked, none), s') else AreURIsBlocked s' uris

end Operations

/-! ## A sample normaliser and sample states -/

/-- Modelled from the spec: `util.Punify` is not among the sources. Glossary: "canonical
ASCII encoding of internationalized domain names, required so domain comparisons are
spelling-invariant"; section 4.2: "fail with a validation error on malformed input".
This instance covers host names written in ASCII only: it lower-cases the letters and
reports every input holding a character other than a letter, a digit, `-` or `.` as
malformed. It serves to evaluate the operations on concrete inputs; the theorems
below hold for every normaliser. -/
def PunifyASCII (domain : String) : String × Option Err :=
  let cs := domain.data.map Char.toLower
  if cs.all (fun c => c.isAlphanum || c == '-' || c == '.') then (String.mk cs, none)
  else ("", some (Err.invalidDomain domain))

/-- An instance `local.example` in blocklist mode with empty tables and cleared caches. -/
def sampleState : State :=
  { config := { Host := "local.example", AccountDomain := "local.example",
                InstanceFederationMode := InstanceFederationModeBlocklist },
    db := { domainAllows := [], domainBlocks := [], faults := [], log := [] },
    caches := { DomainAllow := { entries := none, lookups := 0 },
                DomainBlock := { entries := none, lookups := 0 } } }

/-- The sample instance after `Evil.Example` has been blocked and both caches have been
hydrated by one check. -/
def sampleBlocked : State :=
  (IsDomainBlocked PunifyASCII
    (CreateDomainBlock PunifyASCII sampleState { ID := "01", Domain := "Evil.Example" }).2.2
    "evil.example").2

/-- The sample instance switched to allowlist mode. -/
def sampleAllowlist : State :=
  { sampleState with
    config := { sampleState.config with InstanceFederationMode := InstanceFederationModeAllowlist } }

/-- The sample instance with a federation mode outside the enumeration. -/
def sampleBadMode : State :=
  { sampleState with config := { sampleState.config with InstanceFederationMode := "open" } }

/-- The sample instance whose tables and hydrated caches both (erroneously) hold the
instance's own host. -/
def sampleSelfBlocked : State :=
  { sampleState with
    db := { domainAllows := [], domainBlocks := [{ ID := "02", Domain := "local.example" }],
            faults := [true], log := [] },
    caches := { DomainAllow := { entries := none, lookups := 0 },
                DomainBlock := { entries := some ["local.example"], lookups := 0 } } }

/-- The sample instance after one check has hydrated both caches with empty lists. -/
def sampleHydrated : State :=
  (IsDomainBlocked PunifyASCII sampleState "evil.example").2

/-- The sample instance after `Example.COM` has been blocked. -/
def sampleExampleBlocked : State :=
  (CreateDomainBlock PunifyASCII sampleState { ID := "05", Domain := "Example.COM" }).2.2

section Checks

variable (Punify : String → String × Option Err)

/-- State reached once every domain of the list has been checked in turn. -/
def stateAfterChecks (s : State) (domains : List String) : State :=
  domains.foldl (fun s domain => (IsDomainBlocked Punify s domain).2) s

/-- Every domain of the list, checked in turn (each in the state its predecessors
left), comes out as `(false, nil)`: not blocked and no error. -/
def allClear (s : State) : List String → Bool
  | [] => true
  | domain :: domains =>
    decide ((IsDomainBlocked Punify s domain).1 = (false, none))
      && allClear (IsDomainBlocked Punify s domain).2 domains

end Checks

/-! ## Reads by domain, permission drafts and subscriptions -/

/-- `q.Scan(ctx)` of `GetDomainAllow`: the row of `domain_allows` whose domain column
equals `domain`; the database layer reports no row as `db.ErrNoEntries`. -/
def DB.selectDomainAllow (db : DB) (domain : String) : Except Err DomainAllow × DB :=
  match db.exec (Query.selectByDomain Table.domain_allows domain) with
  | (some err, db') => (.error err, db')
  | (none, db') =>
    match db'.domainAllows.find? (fun a => a.Domain == domain) with
    | some allow => (.ok allow, db')
    | none => (.error Err.noEntries, db')

/-- `q.Scan(ctx)` of `GetDomainBlock`: the row of `domain_blocks` whose domain column
equals `domain`; the database layer reports no row as `db.ErrNoEntries`. -/
def DB.selectDomainBlock (db : DB) (domain : String) : Except Err DomainBlock × DB :=
  match db.exec (Query.selectByDomain Table.domain_blocks domain) with
  | (some err, db') => (.error err, db')
  | (none, db') =>
    match db'.domainBlocks.find? (fun b => b.Domain == domain) with
    | some block => (.ok block, db')
    | none => (.error Err.noEntries, db')

/-- `gtsmodel.Account`, as far as the draft and subscription functions use it. -/
structure Account where
  ID : String
  deriving DecidableEq, Repr

/-- `gtsmodel.DomainPermissionDraft`: the fields `domain.go` reads or writes. -/
structure DomainPermissionDraft where
  ID : String
  PermissionType : String
  Domain : String
  CreatedByAccountID : String
  CreatedByAccount : Option Account
  SubscriptionID : String
  deriving DecidableEq, Repr

/-- `gtsmodel.DomainPermissionSubscription`: the fields `domain.go` reads or writes. -/
structure DomainPermissionSubscription where
  ID : String
  PermissionType : String
  CreatedByAccountID : String
  CreatedByAccount : Option Account
  URI : String
  deriving DecidableEq, Repr

/-- The state of the draft and subscription functions: the state of the permission
gate (configuration, storage engine, set caches), the rows of the two further tables,
and the records held by the keyed caches `Caches.DB.DomainPermissionDraft` and
`Caches.DB.DomainPermissionSubscription`. -/
structure PermStore where
  state : State
  domainPermissionDrafts : List DomainPermissionDraft
  domainPermissionSubscriptions : List DomainPermissionSubscription
  draftCache : List DomainPermissionDraft
  subscriptionCache : List DomainPermissionSubscription
  deriving DecidableEq, Repr

/-- Issue one query through the storage engine of the permission gate. -/
def PermStore.exec (st : PermStore) (q : Query) : Option Err × PermStore :=
  match st.state.db.exec q with
  | (err, db') => (err, { st with state := { st.state with db := db' } })

/-- Lookup in a keyed cache (library `structr`) whose one index is `ID`: the cached
record whose ID is the key, for the lookup `"ID"`; a miss for any other lookup. -/
def cacheLookup {α : Type} (idOf : α → String) (cache : List α) (lookup : String)
    (keyParts : List String) : Option α :=
  if lookup = "ID" then cache.find? (fun v => decide ([idOf v] = keyParts)) else none

/-- Put a record in a keyed cache, in place of a cached record with the same ID. -/
def cachePut {α : Type} (idOf : α → String) (cache : List α) (v : α) : List α :=
  v :: cache.filter (fun w => idOf w != idOf v)

/-- `Caches.DB.DomainPermissionDraft.LoadOne(lookup, load, keyParts...)`: a cached
record is returned without calling `load` ("Only called if not cached."); otherwise
`load` runs, and a record it returns is cached. -/
def PermStore.draftLoadOne (st : PermStore) (lookup : String)
    (load : PermStore → Except Err DomainPermissionDraft × PermStore)
    (keyParts : List String) : Except Err DomainPermissionDraft × PermStore :=
  match cacheLookup (fun d : DomainPermissionDraft => d.ID) st.draftCache lookup keyParts with
  | some permDraft => (.ok permDraft, st)
  | none =>
    match load st with
    | (.error err, st') => (.error err, st')
    | (.ok permDraft, st') =>
      (.ok permDraft,
        { st' with draftCache :=
            cachePut (fun d : DomainPermissionDraft => d.ID) st'.draftCache permDraft })

/-- `Caches.DB.DomainPermissionSubscription.LoadOne(lookup, load, keyParts...)`: as for
drafts. -/
def PermStore.subscriptionLoadOne (st : PermStore) (lookup : String)
    (load : PermStore → Except Err DomainPermissionSubscription × PermStore)
    (keyParts : List String) : Except Err DomainPermissionSubscription × PermStore :=
  match cacheLookup (fun d : DomainPermissionSubscription => d.ID) st.subscriptionCache
      lookup keyParts with
  | some permSub => (.ok permSub, st)
  | none =>
    match load st with
    | (.error err, st') => (.error err, st')
    | (.ok permSub, st') =>
      (.ok permSub,
        { st' with subscriptionCache :=
            (cachePut (fun d : DomainPermissionSubscription => d.ID) st'.subscriptionCache
              permSub) })

/-- The select of one draft by ID: the function `GetDomainPermissionDraftByID` passes as
`dbQuery`; the database layer reports no row as `db.ErrNoEntries`. -/
def PermStore.selectDraftByID (id : String) (st : PermStore) :
    Except Err DomainPermissionDraft × PermStore :=
  match st.exec (Query.selectByID Table.domain_permission_drafts id) with
  | (some err, st') => (.error err, st')
  | (none, st') =>
    match st'.domainPermissionDrafts.find? (fun d => d.ID == id) with
    | some permDraft => (.ok permDraft, st')
    | none => (.error Err.noEntries, st')

/-- The select of one subscription by ID: the function
`GetDomainPermissionSubscriptionByID` passes as `dbQuery`. -/
def PermStore.selectSubscriptionByID (id : String) (st : PermStore) :
    Except Err DomainPermissionSubscription × PermStore :=
  match st.exec (Query.selectByID Table.domain_permission_subscriptions id) with
  | (some err, st') => (.error err, st')
  | (none, st') =>
    match st'.domainPermissionSubscriptions.find? (fun d => d.ID == id) with
    | some permSub => (.ok permSub, st')
    | none => (.error Err.noEntries, st')

/-- `paging.Order`. -/
inductive Order
  | OrderAscending
  | OrderDescending
  deriving DecidableEq, Repr

/-- `paging.Page`, by what `GetMin`, `GetMax`, `GetLimit` and `GetOrder` return. -/
structure Page where
  Min : String
  Max : String
  Limit : Nat
  Order : Order
  deriving DecidableEq, Repr

/-- The paged select of IDs that `GetDomainPermissionDrafts` and
`GetDomainPermissionSubscriptions` build: the bounds on the ID (`""` for none), the
optional filters, the limit (`0` for none) and the direction of `ORDER BY id`. -/
structure IDSelect where
  table : Table
  maxID : String
  minID : String
  permType : Option String
  permSubID : String
  domain : String
  limit : Nat
  ascending : Bool
  deriving DecidableEq, Repr

/-- The `for _, id := range ...` loop of `GetDomainPermissionDrafts` and of
`GetDomainPermissionSubscriptions`: each ID is looked up in turn, a failed lookup is
logged and skipped, a record found is appended. -/
def loadEach {α : Type} (load : PermStore → String → Except Err α × PermStore) :
    PermStore → List String → List α → List α × PermStore
  | st, [], acc => (acc, st)
  | st, id :: rest, acc =>
    match load st id with
    | (.error _, st') => loadEach load st' rest acc
    | (.ok v, st') => loadEach load st' rest (acc ++ [v])

section Drafts

variable (Punify : String → String × Option Err)
variable (GetAccountByID : String → Except Err Account)
variable (scanIDs : PermStore → IDSelect → List String)

/-- `domainDB.GetDomainAllow`. -/
def GetDomainAllow (s : State) (domain : String) : Except Err DomainAllow × State :=
  match Punify domain with
  | (_, some err) => (.error err, s)
  | (domain, none) =>
    if domain = "" ∨ domain = s.config.AccountDomain ∨ domain = s.config.Host then
      (.error Err.noEntries, s)
    else
      match s.db.selectDomainAllow domain with
      | (r, db') => (r, { s with db := db' })

/-- `domainDB.GetDomainBlock`. -/
def GetDomainBlock (s : State) (domain : String) : Except Err DomainBlock × State :=
  match Punify domain with
  | (_, some err) => (.error err, s)
  | (domain, none) =>
    if domain = "" ∨ domain = s.config.AccountDomain ∨ domain = s.config.Host then
      (.error Err.noEntries, s)
    else
      match s.db.selectDomainBlock domain with
      | (r, db') => (r, { s with db := db' })

/-- `domainDB.getDomainPermissionDraft`. `barebones` is `gtscontext.Barebones(ctx)`;
`dbQuery` is only called if the record is not cached; `GetAccountByID` is
`d.state.DB.GetAccountByID`. -/
def getDomainPermissionDraft (barebones : Bool) (st : PermStore) (lookup : String)
    (dbQuery : PermStore → Except Err DomainPermissionDraft × PermStore)
    (keyParts : List String) : Except Err DomainPermissionDraft × PermStore :=
  match st.draftLoadOne lookup dbQuery keyParts with
  | (.error err, st') => (.error err, st')
  | (.ok permDraft, st') =>
    if barebones then (.ok permDraft, st')
    else
      match permDraft.CreatedByAccount with
      | some _ => (.ok permDraft, st')
      | none =>
        match GetAccountByID permDraft.CreatedByAccountID with
        | .error err =>
          (.error (Err.wrapped "error populating created by account" err), st')
        | .ok account => (.ok { permDraft with CreatedByAccount := some account }, st')

/-- `domainDB.GetDomainPermissionDraftByID`. -/
def GetDomainPermissionDraftByID (barebones : Bool) (st : PermStore) (id : String) :
    Except Err DomainPermissionDraft × PermStore :=
  getDomainPermissionDraft GetAccountByID barebones st "ID" (PermStore.selectDraftByID id) [id]

/-- `domainDB.GetDomainPermissionDrafts`. `scanIDs` is the answer of the storage engine
to the paged select of IDs. -/
def GetDomainPermissionDrafts (barebones : Bool) (st : PermStore)
    (permType : Option String) (permSubID : String) (domain : String) (page : Page) :
    (List DomainPermissionDraft × Option Err) × PermStore :=
  match (if domain ≠ "" then Punify domain else (domain, none)) with
  | (domain, some err) =>
    (([], some (Err.wrapped ("error punifying domain " ++ domain) err)), st)
  | (domain, none) =>
    let q : IDSelect :=
      { table := Table.domain_permission_drafts, maxID := page.Max, minID := page.Min,
        permType := permType, permSubID := permSubID, domain := domain,
        limit := page.Limit, ascending := decide (page.Order = Order.OrderAscending) }
    match st.exec (Query.selectIDs Table.domain_permission_drafts) with
    | (some err, st) => (([], some err), st)
    | (none, st) =>
      let permDraftIDs := scanIDs st q
      if permDraftIDs.length = 0 then (([], some Err.noEntries), st)
      else
        let permDraftIDs :=
          if page.Order = Order.OrderAscending then permDraftIDs.reverse else permDraftIDs
        match loadEach (GetDomainPermissionDraftByID GetAccountByID barebones) st
            permDraftIDs [] with
        | (permDrafts, st) => ((permDrafts, none), st)

/-- `domainDB.PutDomainPermissionDraft`. Returns the error, the caller's record as the
call leaves it, and the state. `Caches.DB.DomainPermissionDraft.Store` runs the insert
and, when it returns no error, caches the record. -/
def PutDomainPermissionDraft (st : PermStore) (permDraft : DomainPermissionDraft) :
    Option Err × DomainPermissionDraft × PermStore :=
  let r := Punify permDraft.Domain
  let permDraft : DomainPermissionDraft := { permDraft with Domain := r.1 }
  match r.2 with
  | some err =>
    (some (Err.wrapped ("error punifying domain " ++ permDraft.Domain) err), permDraft, st)
  | none =>
    match st.exec (Query.insert Table.domain_permission_drafts permDraft.Domain) with
    | (some err, st') => (some err, permDraft, st')
    | (none, st') =>
      (none, permDraft,
        { st' with
          domainPermissionDrafts := st'.domainPermissionDrafts ++ [permDraft],
          draftCache :=
            cachePut (fun d : DomainPermissionDraft => d.ID) st'.draftCache permDraft })

/-- `domainDB.getDomainPermissionSubscription`. -/
def getDomainPermissionSubscription (barebones : Bool) (st : PermStore) (lookup : String)
    (dbQuery : PermStore → Except Err DomainPermissionSubscription × PermStore)
    (keyParts : List String) : Except Err DomainPermissionSubscription × PermStore :=
  match st.subscriptionLoadOne lookup dbQuery keyParts with
  | (.error err, st') => (.error err, st')
  | (.ok permDraft, st') =>
    if barebones then (.ok permDraft, st')
    else
      match permDraft.CreatedByAccount with
      | some _ => (.ok permDraft, st')
      | none =>
        match GetAccountByID permDraft.CreatedByAccountID with
        | .error err =>
          (.error (Err.wrapped "error populating created by account" err), st')
        | .ok account => (.ok { permDraft with CreatedByAccount := some account }, st')

/-- `domainDB.GetDomainPermissionSubscriptionByID`. -/
def GetDomainPermissionSubscriptionByID (barebones : Bool) (st : PermStore) (id : String) :
    Except Err DomainPermissionSubscription × PermStore :=
  getDomainPermissionSubscription GetAccountByID barebones st "ID"
    (PermStore.selectSubscriptionByID id) [id]

/-- `domainDB.GetDomainPermissionSubscriptions`. -/
def GetDomainPermissionSubscriptions (barebones : Bool) (st : PermStore)
    (permType : Option String) (page : Page) :
    (List DomainPermissionSubscription × Option Err) × PermStore :=
  let q : IDSelect :=
    { table := Table.domain_permission_subscriptions, maxID := page.Max, minID := page.Min,
      permType := permType, permSubID := "", domain := "",
      limit := page.Limit, ascending := decide (page.Order = Order.OrderAscending) }
  match st.exec (Query.selectIDs Table.domain_permission_subscriptions) with
  | (some err, st) => (([], some err), st)
  | (none, st) =>
    let permSubIDs := scanIDs st q
    if permSubIDs.length = 0 then (([], some Err.noEntries), st)
    else
      let permSubIDs :=
        if page.Order = Order.OrderAscending then permSubIDs.reverse else permSubIDs
      match loadEach (GetDomainPermissionSubscriptionByID GetAccountByID barebones) st
          permSubIDs [] with
      | (permSubs, st) => ((permSubs, none), st)

end Drafts

/-- The IDs whose lookup succeeds, in the order of the list, each lookup made in the
state the lookups before it left. -/
def succeededIDs {α : Type} (load : PermStore → String → Except Err α × PermStore) :
    PermStore → List String → List String
  | _, [] => []
  | st, id :: rest =>
    match load st id with
    | (.error _, st') => succeededIDs load st' rest
    | (.ok _, st') => id :: succeededIDs load st' rest

/-- The records whose lookup succeeds, in the order of the list of IDs, each lookup made
in the state the lookups before it left. -/
def loadedRecords {α : Type} (load : PermStore → String → Except Err α × PermStore) :
    PermStore → List String → List α
  | _, [] => []
  | st, id :: rest =>
    match load st id with
    | (.error _, st') => loadedRecords load st' rest
    | (.ok v, st') => v :: loadedRecords load st' rest

/-- The list of IDs in descending order that the paged functions go through: the
answer of storage, reversed when paging up. -/
def descendingIDs (page : Page) (ids : List String) : List String :=
  if page.Order = Order.OrderAscending then ids.reverse else ids

/-- The paged select `GetDomainPermissionDrafts` builds for the given filters, `domain`
being the normalised domain (`""` for none). -/
def draftIDSelect (permType : Option String) (permSubID domain : String) (page : Page) :
    IDSelect :=
  { table := Table.domain_permission_drafts, maxID := page.Max, minID := page.Min,
    permType := permType, permSubID := permSubID, domain := domain,
    limit := page.Limit, ascending := decide (page.Order = Order.OrderAscending) }

/-- The paged select `GetDomainPermissionSubscriptions` builds for the given filter. -/
def subscriptionIDSelect (permType : Option String) (page : Page) : IDSelect :=
  { table := Table.domain_permission_subscriptions, maxID := page.Max, minID := page.Min,
    permType := permType, permSubID := "", domain := "",
    limit := page.Limit, ascending := decide (page.Order = Order.OrderAscending) }

/-- The answer of storage is in the order asked for: ascending when paging up,
descending otherwise. -/
def inRequestedOrder (page : Page) (ids : List String) : Prop :=
  if page.Order = Order.OrderAscending then ids.Pairwise (fun a b => a ≤ b)
  else ids.Pairwise (fun a b => b ≤ a)

/-- Sample state for drafts and subscriptions: three drafts, of which `01B` is cached,
and the next query to storage succeeds, the one after fails. -/
def samplePermStore : PermStore :=
  { state := { sampleState with
      db := { domainAllows := [], domainBlocks := [], faults := [false, false, true], log := [] } },
    domainPermissionDrafts :=
      [{ ID := "01A", PermissionType := "block", Domain := "a.example",
         CreatedByAccountID := "01ADMIN", CreatedByAccount := none, SubscriptionID := "" },
       { ID := "01B", PermissionType := "block", Domain := "b.example",
         CreatedByAccountID := "01ADMIN", CreatedByAccount := none, SubscriptionID := "" },
       { ID := "01C", PermissionType := "block", Domain := "c.example",
         CreatedByAccountID := "01ADMIN", CreatedByAccount := none, SubscriptionID := "" }],
    domainPermissionSubscriptions :=
      [{ ID := "01S", PermissionType := "block", CreatedByAccountID := "01ADMIN",
         CreatedByAccount := none, URI := "https://lists.example/blocks.csv" }],
    draftCache :=
      [{ ID := "01B", PermissionType := "block", Domain := "b.example",
         CreatedByAccountID := "01ADMIN", CreatedByAccount := none, SubscriptionID := "" }],
    subscriptionCache := [] }

/-- Sample answer of the storage engine to the paged select: every ID of the table, in
the order asked for (the sample tables hold their rows by ascending ID). -/
def sampleScanIDs (st : PermStore) (q : IDSelect) : List String :=
  let ids :=
    if q.table = Table.domain_permission_drafts then st.domainPermissionDrafts.map (fun d => d.ID)
    else st.domainPermissionSubscriptions.map (fun d => d.ID)
  if q.ascending then ids else ids.reverse

/-- Paging up, at most twenty items. -/
def pageUp : Page := { Min := "", Max := "", Limit := 20, Order := Order.OrderAscending }

/-- Paging down, at most twenty items. -/
def pageDown : Page := { Min := "", Max := "", Limit := 20, Order := Order.OrderDescending }

/-- Sample account lookup: only the administrator exists. -/
def sampleGetAccountByID (id : String) : Except Err Account :=
  if id = "01ADMIN" then .ok { ID := "01ADMIN" } else .error Err.noEntries

end Bundb

/-!
# Activity dispatcher (`internal/federation/federatingdb/create.go`, `block.go`)

A shallow embedding of `federatingDB.Create`, `federatingDB.Block` and the handlers they
dispatch to. A handler returning `error` is modelled as returning `Option Error` together
with the state it leaves; `createNote`, which dereferences the `id` property of a Note
without a nil check, and its callers end in an `Outcome`: returned, or panicked.

Collaborators that are not part of these two files:

* the ActivityStreams vocabulary (`vocab.Type` and its properties) is a small family of
  data types holding what the handlers inspect;
* the type converter, the identifier generators, `marshalItem` and the log level are
  fields of an `Env` passed to every handler;
* the `Put...` operations of the database follow section 6 of the specification, with a
  schedule of failures so that any put may fail with any error;
* `Workers.EnqueueFederator` appends to a queue held in the state.

Log output is not part of the state.
-/

namespace Federatingdb

/-! ## Errors -/

/-- Go `error` values, by the way they are built: a package-level sentinel such as
`db.ErrAlreadyExists`; `errors.New(msg)` or `fmt.Errorf(msg)`; `fmt.Errorf("msg: %w", inner)`,
which wraps `inner`; `fmt.Errorf("msg: %s", inner)`, which only formats the text of
`inner`; and the combination of the errors gathered in a `gtserror.MultiError`. -/
inductive Error
  | sentinel (name : String)
  | new (msg : String)
  | wrap (msg : String) (inner : Error)
  | text (msg : String) (inner : Error)
  | multi (errs : List Error)
  deriving Repr

mutual
/-- Decidable equality of errors. -/
def Error.decEq : (a b : Error) → Decidable (a = b)
  | .sentinel a, .sentinel b =>
    if h : a = b then isTrue (by rw [h]) else isFalse (fun h' => h (by cases h'; rfl))
  | .new a, .new b =>
    if h : a = b then isTrue (by rw [h]) else isFalse (fun h' => h (by cases h'; rfl))
  | .wrap a x, .wrap b y =>
    if h : a = b then
      match Error.decEq x y with
      | isTrue h' => isTrue (by rw [h, h'])
      | isFalse h' => isFalse (fun h'' => h' (by cases h''; rfl))
    else isFalse (fun h' => h (by cases h'; rfl))
  | .text a x, .text b y =>
    if h : a = b then
      match Error.decEq x y with
      | isTrue h' => isTrue (by rw [h, h'])
      | isFalse h' => isFalse (fun h'' => h' (by cases h''; rfl))
    else isFalse (fun h' => h (by cases h'; rfl))
  | .multi xs, .multi ys =>
    match Error.decEqList xs ys with
    | isTrue h => isTrue (by rw [h])
    | isFalse h => isFalse (fun h' => h (by cases h'; rfl))
  | .sentinel _, .new _ => isFalse (fun h => by cases h)
  | .sentinel _, .wrap _ _ => isFalse (fun h => by cases h)
  | .sentinel _, .text _ _ => isFalse (fun h => by cases h)
  | .sentinel _, .multi _ => isFalse (fun h => by cases h)
  | .new _, .sentinel _ => isFalse (fun h => by cases h)
  | .new _, .wrap _ _ => isFalse (fun h => by cases h)
  | .new _, .text _ _ => isFalse (fun h => by cases h)
  | .new _, .multi _ => isFalse (fun h => by cases h)
  | .wrap _ _, .sentinel _ => isFalse (fun h => by cases h)
  | .wrap _ _, .new _ => isFalse (fun h => by cases h)
  | .wrap _ _, .text _ _ => isFalse (fun h => by cases h)
  | .wrap _ _, .multi _ => isFalse (fun h => by cases h)
  | .text _ _, .sentinel _ => isFalse (fun h => by cases h)
  | .text _ _, .new _ => isFalse (fun h => by cases h)
  | .text _ _, .wrap _ _ => isFalse (fun h => by cases h)
  | .text _ _, .multi _ => isFalse (fun h => by cases h)
  | .multi _, .sentinel _ => isFalse (fun h => by cases h)
  | .multi _, .new _ => isFalse (fun h => by cases h)
  | .multi _, .wrap _ _ => isFalse (fun h => by cases h)
  | .multi _, .text _ _ => isFalse (fun h => by cases h)
/-- Decidable equality of lists of errors. -/
def Error.decEqList : (as bs : List Error) → Decidable (as = bs)
  | [], [] => isTrue rfl
  | [], _ :: _ => isFalse (fun h => by cases h)
  | _ :: _, [] => isFalse (fun h => by cases h)
  | a :: as, b :: bs =>
    match Error.decEq a b with
    | isTrue h =>
      match Error.decEqList as bs with
      | isTrue h' => isTrue (by rw [h, h'])
      | isFalse h' => isFalse (fun h'' => h' (by cases h''; rfl))
    | isFalse h => isFalse (fun h' => h (by cases h'; rfl))
end

instance : DecidableEq Error := Error.decEq

/-- Modelled from the spec: the sentinel `db.ErrAlreadyExists` is not among the sources.
Section 6: "a distinguishable "already exists" condition (not a generic error)". -/
def ErrAlreadyExists : Error := Error.sentinel "already exists"

mutual
/-- `errors.Is(err, target)` of the standard library: `err` is `target`, or wraps (with
`%w`, or as a member of a combined error) an error that is. -/
def errorsIs (target : Error) : Error → Bool
  | .sentinel name => decide (Error.sentinel name = target)
  | .new msg => decide (Error.new msg = target)
  | .wrap msg inner => decide (Error.wrap msg inner = target) || errorsIs target inner
  | .text msg inner => decide (Error.text msg inner = target)
  | .multi errs => decide (Error.multi errs = target) || errorsIsAny target errs
/-- `errors.Is` over the members of a combined error. -/
def errorsIsAny (target : Error) : List Error → Bool
  | [] => false
  | err :: errs => errorsIs target err || errorsIsAny target errs
end

/-! ## Accounts, records and wire objects -/

/-- `*url.URL`, held by its `String()` form. -/
structure URL where
  str : String
  deriving DecidableEq, Repr

/-- `gtsmodel.Account`: the fields the handlers read. -/
structure Account where
  ID : String
  URI : String
  deriving DecidableEq, Repr

/-- `gtsmodel.Block`: identifier and remote-derived identity. -/
structure gtsmodel.Block where
  ID : String
  URI : String
  deriving DecidableEq, Repr

/-- `gtsmodel.Status`: identifier, remote-derived identity, claimed creation time. -/
structure gtsmodel.Status where
  ID : String
  URI : String
  CreatedAt : Nat
  Content : String
  deriving DecidableEq, Repr

/-- `gtsmodel.FollowRequest`: identifier and remote-derived identity. -/
structure gtsmodel.FollowRequest where
  ID : String
  URI : String
  deriving DecidableEq, Repr

/-- `gtsmodel.StatusFave`: identifier and remote-derived identity. -/
structure gtsmodel.StatusFave where
  ID : String
  URI : String
  deriving DecidableEq, Repr

/-- `gtsmodel.Report`: identifier and remote-derived identity. -/
structure gtsmodel.Report where
  ID : String
  URI : String
  deriving DecidableEq, Repr

/-- One entry of an `attributedTo` property: an IRI, or an embedded object. -/
inductive AttributedToEntry
  | iri (u : URL)
  | object (typeName : String)
  deriving DecidableEq, Repr

/-- `iter.IsIRI()`. -/
def AttributedToEntry.IsIRI : AttributedToEntry → Bool
  | .iri _ => true
  | .object _ => false

/-- `iter.GetIRI()`: `nil` for an entry that is not an IRI. -/
def AttributedToEntry.GetIRI : AttributedToEntry → Option URL
  | .iri u => some u
  | .object _ => none

/-- `vocab.JSONLDIdProperty`, the `id` property of an object: `iri` is its IRI, `none`
when the property holds a value that is not an IRI. -/
structure JSONLDIdProperty where
  iri : Option URL
  deriving DecidableEq, Repr

/-- `id.IsIRI()`. -/
def JSONLDIdProperty.IsIRI (id : JSONLDIdProperty) : Bool := id.iri.isSome

/-- `id.GetIRI()`: `nil` for a property that is not an IRI. -/
def JSONLDIdProperty.GetIRI (id : JSONLDIdProperty) : Option URL := id.iri

/-- `vocab.ActivityStreamsNote`: `id` is what `GetJSONLDId()` returns and
`attributedTo` what `GetActivityStreamsAttributedTo()` returns, each `none` (nil) when
the Note has no such property. -/
structure Note where
  id : Option JSONLDIdProperty
  attributedTo : Option (List AttributedToEntry)
  content : String
  deriving DecidableEq, Repr

/-- One entry of the `object` property of a Create: an entry that is not a typed object
(`iter.GetType()` is `nil`), a Note, or a typed object with another type name. -/
inductive ObjectEntry
  | untyped
  | note (n : Note)
  | other (typeName : String)
  deriving DecidableEq, Repr

/-- `vocab.ActivityStreamsCreate`: `object` is `none` when the property is absent. -/
structure ASCreate where
  object : Option (List ObjectEntry)
  deriving DecidableEq, Repr

/-- `vocab.ActivityStreamsFollow`. -/
structure ASFollow where
  id : String
  actor : String
  object : String
  deriving DecidableEq, Repr

/-- `vocab.ActivityStreamsLike`. -/
structure ASLike where
  id : String
  actor : String
  object : String
  deriving DecidableEq, Repr

/-- `vocab.ActivityStreamsFlag`. -/
structure ASFlag where
  id : String
  actor : String
  object : String
  deriving DecidableEq, Repr

/-- `vocab.ActivityStreamsBlock`. -/
structure ASBlock where
  id : String
  actor : String
  object : String
  deriving DecidableEq, Repr

/-- `vocab.Type` as the handlers receive it: a value of one of the five activity types
they assert to, or a value of any other implementation with the type name it reports. -/
inductive Activity
  | create (c : ASCreate)
  | follow (f : ASFollow)
  | like (l : ASLike)
  | flag (f : ASFlag)
  | block (b : ASBlock)
  | other (typeName : String)
  deriving DecidableEq, Repr

/-- `ap.ActivityCreate`. -/
def ActivityCreate : String := "Create"
/-- `ap.ActivityFollow`. -/
def ActivityFollow : String := "Follow"
/-- `ap.ActivityLike`. -/
def ActivityLike : String := "Like"
/-- `ap.ActivityFlag`. -/
def ActivityFlag : String := "Flag"
/-- `ap.ActivityBlock`. -/
def ActivityBlock : String := "Block"
/-- `ap.ObjectNote`. -/
def ObjectNote : String := "Note"

/-- `asType.GetTypeName()`. -/
def Activity.GetTypeName : Activity → String
  | .create _ => ActivityCreate
  | .follow _ => ActivityFollow
  | .like _ => ActivityLike
  | .flag _ => ActivityFlag
  | .block _ => ActivityBlock
  | .other typeName => typeName

/-! ## Side-effect messages -/

/-- What the handlers put in the `GTSModel` field (an `interface{}`) of a message. -/
inductive Model
  | block (b : gtsmodel.Block)
  | wireBlock (b : ASBlock)
  | status (s : gtsmodel.Status)
  | followRequest (f : gtsmodel.FollowRequest)
  | fave (f : gtsmodel.StatusFave)
  | report (r : gtsmodel.Report)
  deriving DecidableEq, Repr

/-- `messages.FromFederator`: a `nil` payload field is `none`. -/
structure FromFederator where
  APObjectType : String
  APActivityType : String
  APIri : Option URL
  APObjectModel : Option Note
  GTSModel : Option Model
  ReceivingAccount : Account
  deriving DecidableEq, Repr

/-- Number of payload fields (`APIri`, `APObjectModel`, `GTSModel`) that are populated. -/
def FromFederator.payloadCount (m : FromFederator) : Nat :=
  (if m.APIri.isSome then 1 else 0) + (if m.APObjectModel.isSome then 1 else 0)
    + (if m.GTSModel.isSome then 1 else 0)

/-! ## Collaborators, storage and state -/

/-- The collaborators of the dispatcher that are not in `create.go` or `block.go`:
`debug` is `log.Level() >= level.DEBUG`; `marshalItem` gives the error of
`marshalItem(asType)`; the five converters are those of `f.typeConverter` (section 2 of
the specification: "pure mapping functions wire-activity → internal record");
`NewULID n` is the identifier `id.NewULID()` returns on its `n`-th call;
`NewULIDFromTime` is `id.NewULIDFromTime`. -/
structure Env where
  debug : Bool
  marshalItem : Activity → Option Error
  ASBlockToBlock : ASBlock → Except Error gtsmodel.Block
  ASStatusToStatus : Note → Except Error gtsmodel.Status
  ASFollowToFollowRequest : ASFollow → Except Error gtsmodel.FollowRequest
  ASLikeToFave : ASLike → Except Error gtsmodel.StatusFave
  ASFlagToReport : ASFlag → Except Error gtsmodel.Report
  NewULID : Nat → String
  NewULIDFromTime : Nat → Except Error String

/-- Storage behind `f.state.DB`: the rows of the five tables the handlers write, and a
schedule telling, for each of the coming puts in turn, whether the engine fails it and
with which error (`some err`); once the schedule is exhausted no put is failed. -/
structure DB where
  blocks : List gtsmodel.Block
  statuses : List gtsmodel.Status
  followRequests : List gtsmodel.FollowRequest
  statusFaves : List gtsmodel.StatusFave
  reports : List gtsmodel.Report
  faults : List (Option Error)
  deriving DecidableEq, Repr

/-- Modelled from the spec: the `Put...` functions of the database are not among the
sources. Section 6: "`Put<Entity>(record) → error`, returning a distinguishable "already
exists" condition (not a generic error) when a uniqueness constraint on the
remote-derived identity is violated." A put consumes one entry of the failure
schedule; when not failed by it, it reports `ErrAlreadyExists` if a row with the same
identity (`key`) is stored, and stores the row otherwise. -/
def putRow {α : Type} (key : α → String) (rows : List α) (row : α)
    (faults : List (Option Error)) : Option Error × List α × List (Option Error) :=
  match faults.headD none with
  | some err => (some err, rows, faults.tail)
  | none =>
    if rows.any (fun r => key r == key row) then (some ErrAlreadyExists, rows, faults.tail)
    else (none, rows ++ [row], faults.tail)

/-- Modelled from the spec: `DB.PutBlock` is not among the sources; see `putRow`. -/
def DB.PutBlock (db : DB) (block : gtsmodel.Block) : Option Error × DB :=
  match putRow (fun r => r.URI) db.blocks block db.faults with
  | (err, rows, faults) => (err, { db with blocks := rows, faults := faults })

/-- Modelled from the spec: `DB.PutStatus` is not among the sources; see `putRow`. -/
def DB.PutStatus (db : DB) (status : gtsmodel.Status) : Option Error × DB :=
  match putRow (fun r => r.URI) db.statuses status db.faults with
  | (err, rows, faults) => (err, { db with statuses := rows, faults := faults })

/-- Modelled from the spec: `DB.PutFollowRequest` is not among the sources; see `putRow`. -/
def DB.PutFollowRequest (db : DB) (followRequest : gtsmodel.FollowRequest) :
    Option Error × DB :=
  match putRow (fun r => r.URI) db.followRequests followRequest db.faults with
  | (err, rows, faults) => (err, { db with followRequests := rows, faults := faults })

/-- Modelled from the spec: `DB.PutStatusFave` is not among the sources; see `putRow`. -/
def DB.PutStatusFave (db : DB) (fave : gtsmodel.StatusFave) : Option Error × DB :=
  match putRow (fun r => r.URI) db.statusFaves fave db.faults with
  | (err, rows, faults) => (err, { db with statusFaves := rows, faults := faults })

/-- Modelled from the spec: `DB.PutReport` is not among the sources; see `putRow`. -/
def DB.PutReport (db : DB) (report : gtsmodel.Report) : Option Error × DB :=
  match putRow (fun r => r.URI) db.reports report db.faults with
  | (err, rows, faults) => (err, { db with reports := rows, faults := faults })

/-- What a handler can read or change through `f.state`: storage, the federator queue
of `f.state.Workers`, the number of calls made to the type converter, and the number
of identifiers drawn from `id.NewULID()`. -/
structure State where
  db : DB
  queue : List FromFederator
  conversions : Nat
  ulids : Nat
  deriving DecidableEq, Repr

/-- `f.state.Workers.EnqueueFederator(ctx, msg)`: it returns nothing. -/
def State.EnqueueFederator (s : State) (msg : FromFederator) : State :=
  { s with queue := s.queue ++ [msg] }

/-- What `extractFromCtx(ctx)` yields: the receiving account, `none` when it was not
set on the context, and the requesting account. The handlers dereference the requesting
account without a nil check; it is held as a value. -/
structure Context where
  receivingAccount : Option Account
  requestingAccount : Account
  deriving DecidableEq, Repr

/-- How a call ends that can dereference a nil pointer: it returns its `error` (`none`
is nil) and leaves a state, or it panics, leaving the state reached until then. -/
inductive Outcome
  | returned (err : Option Error) (s : State)
  | panicked (s : State)
  deriving DecidableEq, Repr

/-- The state a call leaves, whether it returned or panicked. -/
@[simp] def Outcome.state : Outcome → State
  | .returned _ s => s
  | .panicked s => s

/-- The error a call returns: `some none` is a nil error, `some (some err)` the error
`err`; a call that panics returns nothing. -/
@[simp] def Outcome.returns : Outcome → Option (Option Error)
  | .returned err _ => some err
  | .panicked _ => none

/-- The outcome of a call that cannot panic. -/
@[simp] def Outcome.ofReturn (r : Option Error × State) : Outcome :=
  Outcome.returned r.1 r.2

/-! ## Handlers -/

/-- `federatingDB.activityBlock`. -/
def activityBlock (env : Env) (s : State) (asType : Activity)
    (receiving : Account) (_requestingAccount : Account) : Option Error × State :=
  match asType with
  | .block blockable =>
    let s : State := { s with conversions := s.conversions + 1 }
    match env.ASBlockToBlock blockable with
    | .error _ =>
      (some (Error.new "activityBlock: could not convert Block to gts model block"), s)
    | .ok block =>
      let block : gtsmodel.Block := { block with ID := env.NewULID s.ulids }
      let s : State := { s with ulids := s.ulids + 1 }
      match s.db.PutBlock block with
      | (some err, db') =>
        (some (Error.text "activityBlock: database error inserting block" err),
          { s with db := db' })
      | (none, db') =>
        (none, State.EnqueueFederator { s with db := db' }
          { APObjectType := ActivityBlock, APActivityType := ActivityCreate,
            APIri := none, APObjectModel := none,
            GTSModel := some (Model.block block), ReceivingAccount := receiving })
  | _ => (some (Error.new "activityBlock: could not convert type to block"), s)

/-- The loop of `createNote` that computes `forward`: it starts `true` and becomes
`false` at the first entry that is an IRI whose `String()` equals `requestingAccount.URI`. -/
def forward (requestingAccount : Account) : List AttributedToEntry → Bool
  | [] => true
  | entry :: rest =>
    if !entry.IsIRI then forward requestingAccount rest
    else
      match entry.GetIRI with
      | some iri =>
        if iri.str = requestingAccount.URI then false else forward requestingAccount rest
      | none => forward requestingAccount rest

/-- `federatingDB.createNote`. On the forwarded path `id := note.GetJSONLDId()` is
used without a nil check: `id.IsIRI()` on a Note without an `id` property dereferences
nil and panics. -/
def createNote (env : Env) (s : State) (note : Note)
    (receivingAccount : Account) (requestingAccount : Account) : Outcome :=
  match note.attributedTo with
  | none => .returned (some (Error.new "createNote: note had no attributedTo")) s
  | some noteAttributedTo =>
    if forward requestingAccount noteAttributedTo then
      match note.id with
      | none => .panicked s
      | some id =>
        if !id.IsIRI then .returned none s
        else
          .returned none (s.EnqueueFederator
            { APObjectType := ObjectNote, APActivityType := ActivityCreate,
              APIri := id.GetIRI, APObjectModel := none, GTSModel := none,
              ReceivingAccount := receivingAccount })
    else
      let s : State := { s with conversions := s.conversions + 1 }
      match env.ASStatusToStatus note with
      | .error err =>
        .returned (some (Error.wrap "createNote: error converting note to status" err)) s
      | .ok status =>
        match env.NewULIDFromTime status.CreatedAt with
        | .error err =>
          .returned (some (Error.wrap "createNote: error creating id for note" err)) s
        | .ok statusID =>
          let status : gtsmodel.Status := { status with ID := statusID }
          match s.db.PutStatus status with
          | (some err, db') =>
            if errorsIs ErrAlreadyExists err then .returned none { s with db := db' }
            else
              .returned (some (Error.wrap "createNote: database error inserting status" err))
                { s with db := db' }
          | (none, db') =>
            .returned none (State.EnqueueFederator { s with db := db' }
              { APObjectType := ObjectNote, APActivityType := ActivityCreate,
                APIri := none, APObjectModel := some note,
                GTSModel := some (Model.status status),
                ReceivingAccount := receivingAccount })

/-- The `for iter := object.Begin(); ...` loop of `activityCreate` and the statements
behind it: `errs` is the `gtserror.MultiError` gathered so far; once the objects are
exhausted the gathered errors decide what is returned. A panic of `createNote` ends
the call where it happens. -/
def activityCreateLoop (env : Env) (receivingAccount requestingAccount : Account) :
    State → List ObjectEntry → List Error → Outcome
  | s, [], errs =>
    if errs.length != 0 then
      .returned (some (Error.wrap "activityCreate: one or more errors while processing activity"
        (Error.multi errs))) s
    else .returned none s
  | s, .untyped :: rest, errs =>
    activityCreateLoop env receivingAccount requestingAccount s rest
      (errs ++ [Error.new "object of Create was not a Type"])
  | s, .note n :: rest, errs =>
    match createNote env s n receivingAccount requestingAccount with
    | .returned (some err) s' =>
      activityCreateLoop env receivingAccount requestingAccount s' rest (errs ++ [err])
    | .returned none s' =>
      activityCreateLoop env receivingAccount requestingAccount s' rest errs
    | .panicked s' => .panicked s'
  | s, .other _ :: rest, errs =>
    activityCreateLoop env receivingAccount requestingAccount s rest errs

/-- `federatingDB.activityCreate`. -/
def activityCreate (env : Env) (s : State) (asType : Activity)
    (receivingAccount : Account) (requestingAccount : Account) : Outcome :=
  match asType with
  | .create create =>
    match create.object with
    | none => .returned (some (Error.new "Create had no Object")) s
    | some object => activityCreateLoop env receivingAccount requestingAccount s object []
  | _ => .returned (some (Error.new "activityCreate: could resolve %T to Create")) s

/-- `federatingDB.activityFollow`. -/
def activityFollow (env : Env) (s : State) (asType : Activity)
    (receivingAccount : Account) (_requestingAccount : Account) : Option Error × State :=
  match asType with
  | .follow follow =>
    let s : State := { s with conversions := s.conversions + 1 }
    match env.ASFollowToFollowRequest follow with
    | .error err =>
      (some (Error.text "activityFollow: could not convert Follow to follow request" err), s)
    | .ok followRequest =>
      let followRequest : gtsmodel.FollowRequest :=
        { followRequest with ID := env.NewULID s.ulids }
      let s : State := { s with ulids := s.ulids + 1 }
      match s.db.PutFollowRequest followRequest with
      | (some err, db') =>
        (some (Error.text "activityFollow: database error inserting follow request" err),
          { s with db := db' })
      | (none, db') =>
        (none, State.EnqueueFederator { s with db := db' }
          { APObjectType := ActivityFollow, APActivityType := ActivityCreate,
            APIri := none, APObjectModel := none,
            GTSModel := some (Model.followRequest followRequest),
            ReceivingAccount := receivingAccount })
  | _ => (some (Error.new "activityFollow: could not convert type to follow"), s)

/-- `federatingDB.activityLike`. -/
def activityLike (env : Env) (s : State) (asType : Activity)
    (receivingAccount : Account) (_requestingAccount : Account) : Option Error × State :=
  match asType with
  | .like like =>
    let s : State := { s with conversions := s.conversions + 1 }
    match env.ASLikeToFave like with
    | .error err => (some (Error.wrap "activityLike: could not convert Like to fave" err), s)
    | .ok fave =>
      let fave : gtsmodel.StatusFave := { fave with ID := env.NewULID s.ulids }
      let s : State := { s with ulids := s.ulids + 1 }
      match s.db.PutStatusFave fave with
      | (some err, db') =>
        if errorsIs ErrAlreadyExists err then (none, { s with db := db' })
        else
          (some (Error.wrap "activityLike: database error inserting fave" err),
            { s with db := db' })
      | (none, db') =>
        (none, State.EnqueueFederator { s with db := db' }
          { APObjectType := ActivityLike, APActivityType := ActivityCreate,
            APIri := none, APObjectModel := none,
            GTSModel := some (Model.fave fave), ReceivingAccount := receivingAccount })
  | _ => (some (Error.new "activityLike: could not convert type to like"), s)

/-- `federatingDB.activityFlag`. -/
def activityFlag (env : Env) (s : State) (asType : Activity)
    (receivingAccount : Account) (_requestingAccount : Account) : Option Error × State :=
  match asType with
  | .flag flag =>
    let s : State := { s with conversions := s.conversions + 1 }
    match env.ASFlagToReport flag with
    | .error err => (some (Error.wrap "activityFlag: could not convert Flag to report" err), s)
    | .ok report =>
      let report : gtsmodel.Report := { report with ID := env.NewULID s.ulids }
      let s : State := { s with ulids := s.ulids + 1 }
      match s.db.PutReport report with
      | (some err, db') =>
        (some (Error.wrap "activityFlag: database error inserting report" err),
          { s with db := db' })
      | (none, db') =>
        (none, State.EnqueueFederator { s with db := db' }
          { APObjectType := ActivityFlag, APActivityType := ActivityCreate,
            APIri := none, APObjectModel := none,
            GTSModel := some (Model.report report), ReceivingAccount := receivingAccount })
  | _ => (some (Error.new "activityFlag: could not convert type to flag"), s)

/-- `federatingDB.Create`. With the log level at debug the activity is first marshalled
for the trace entry, and a marshalling error is returned before anything else. -/
def Create (env : Env) (s : State) (ctx : Context) (asType : Activity) : Outcome :=
  match (if env.debug then env.marshalItem asType else none) with
  | some err => .returned (some err) s
  | none =>
    match ctx.receivingAccount with
    | none => .returned none s
    | some receivingAccount =>
      let typeName := asType.GetTypeName
      if typeName = ActivityCreate then
        activityCreate env s asType receivingAccount ctx.requestingAccount
      else if typeName = ActivityFollow then
        Outcome.ofReturn (activityFollow env s asType receivingAccount ctx.requestingAccount)
      else if typeName = ActivityLike then
        Outcome.ofReturn (activityLike env s asType receivingAccount ctx.requestingAccount)
      else if typeName = ActivityFlag then
        Outcome.ofReturn (activityFlag env s asType receivingAccount ctx.requestingAccount)
      else .returned none s

/-- `federatingDB.Block` (`block.go`). The message it enqueues carries the wire object
`block` in its `GTSModel` field. -/
def Block (env : Env) (s : State) (ctx : Context) (block : ASBlock) : Option Error × State :=
  match ctx.receivingAccount with
  | none => (none, s)
  | some receivingAccount =>
    let s : State := { s with conversions := s.conversions + 1 }
    match env.ASBlockToBlock block with
    | .error _ => (some (Error.new "Block: could not convert Block to gts model block"), s)
    | .ok gtsBlock =>
      let gtsBlock : gtsmodel.Block := { gtsBlock with ID := env.NewULID s.ulids }
      let s : State := { s with ulids := s.ulids + 1 }
      match s.db.PutBlock gtsBlock with
      | (some err, db') =>
        (some (Error.text "Block: database error inserting block" err), { s with db := db' })
      | (none, db') =>
        (none, State.EnqueueFederator { s with db := db' }
          { APObjectType := ActivityBlock, APActivityType := ActivityCreate,
            APIri := none, APObjectModel := none,
            GTSModel := some (Model.wireBlock block),
            ReceivingAccount := receivingAccount })

/-! ## The handlers with the queue operation left open

`f.state.Workers.EnqueueFederator(ctx, msg)` is called as a statement: it hands nothing
back to the handler. In the definitions of this section what the call does to the state
is a parameter `enqueue`, and the handlers are otherwise those above. -/

/-- Modelled from the spec: the worker queue behind `Workers.EnqueueFederator` is not
among the sources. Section 9: "model as a bounded message channel with an explicit
capacity and an explicit policy for what happens when full". A queue of the given
capacity: a message offered while the queue is full is rejected and the queue keeps
its content. -/
def enqueueBounded (capacity : Nat) (s : State) (msg : FromFederator) : State :=
  if s.queue.length < capacity then { s with queue := s.queue ++ [msg] } else s

/-- `federatingDB.activityBlock` with the queue operation left open: `enqueue` stands for
`f.state.Workers.EnqueueFederator`. -/
def activityBlockVia (enqueue : State → FromFederator → State) (env : Env) (s : State) (asType : Activity)
    (receiving : Account) (_requestingAccount : Account) : Option Error × State :=
  match asType with
  | .block blockable =>
    let s : State := { s with conversions := s.conversions + 1 }
    match env.ASBlockToBlock blockable with
    | .error _ =>
      (some (Error.new "activityBlock: could not convert Block to gts model block"), s)
    | .ok block =>
      let block : gtsmodel.Block := { block with ID := env.NewULID s.ulids }
      let s : State := { s with ulids := s.ulids + 1 }
      match s.db.PutBlock block with
      | (some err, db') =>
        (some (Error.text "activityBlock: database error inserting block" err),
          { s with db := db' })
      | (none, db') =>
        (none, enqueue { s with db := db' }
          { APObjectType := ActivityBlock, APActivityType := ActivityCreate,
            APIri := none, APObjectModel := none,
            GTSModel := some (Model.block block), ReceivingAccount := receiving })
  | _ => (some (Error.new "activityBlock: could not convert type to block"), s)

/-- `federatingDB.createNote` with the queue operation left open: `enqueue` stands for
`f.state.Workers.EnqueueFederator`. -/
def createNoteVia (enqueue : State → FromFederator → State) (env : Env) (s : State) (note : Note)
    (receivingAccount : Account) (requestingAccount : Account) : Outcome :=
  match note.attributedTo with
  | none => .returned (some (Error.new "createNote: note had no attributedTo")) s
  | some noteAttributedTo =>
    if forward requestingAccount noteAttributedTo then
      match note.id with
      | none => .panicked s
      | some id =>
        if !id.IsIRI then .returned none s
        else
          .returned none (enqueue s
            { APObjectType := ObjectNote, APActivityType := ActivityCreate,
              APIri := id.GetIRI, APObjectModel := none, GTSModel := none,
              ReceivingAccount := receivingAccount })
    else
      let s : State := { s with conversions := s.conversions + 1 }
      match env.ASStatusToStatus note with
      | .error err =>
        .returned (some (Error.wrap "createNote: error converting note to status" err)) s
      | .ok status =>
        match env.NewULIDFromTime status.CreatedAt with
        | .error err =>
          .returned (some (Error.wrap "createNote: error creating id for note" err)) s
        | .ok statusID =>
          let status : gtsmodel.Status := { status with ID := statusID }
          match s.db.PutStatus status with
          | (some err, db') =>
            if errorsIs ErrAlreadyExists err then .returned none { s with db := db' }
            else
              .returned (some (Error.wrap "createNote: database error inserting status" err))
                { s with db := db' }
          | (none, db') =>
            .returned none (enqueue { s with db := db' }
              { APObjectType := ObjectNote, APActivityType := ActivityCreate,
                APIri := none, APObjectModel := some note,
                GTSModel := some (Model.status status),
                ReceivingAccount := receivingAccount })

/-- `federatingDB.activityFollow` with the queue operation left open: `enqueue` stands for
`f.state.Workers.EnqueueFederator`. -/
def activityFollowVia (enqueue : State → FromFederator → State) (env : Env) (s : State) (asType : Activity)
    (receivingAccount : Account) (_requestingAccount : Account) : Option Error × State :=
  match asType with
  | .follow follow =>
    let s : State := { s with conversions := s.conversions + 1 }
    match env.ASFollowToFollowRequest follow with
    | .error err =>
      (some (Error.text "activityFollow: could not convert Follow to follow request" err), s)
    | .ok followRequest =>
      let followRequest : gtsmodel.FollowRequest :=
        { followRequest with ID := env.NewULID s.ulids }
      let s : State := { s with ulids := s.ulids + 1 }
      match s.db.PutFollowRequest followRequest with
      | (some err, db') =>
        (some (Error.text "activityFollow: database error inserting follow request" err),
          { s with db := db' })
      | (none, db') =>
        (none, enqueue { s with db := db' }
          { APObjectType := ActivityFollow, APActivityType := ActivityCreate,
            APIri := none, APObjectModel := none,
            GTSModel := some (Model.followRequest followRequest),
            ReceivingAccount := receivingAccount })
  | _ => (some (Error.new "activityFollow: could not convert type to follow"), s)

/-- `federatingDB.activityLike` with the queue operation left open: `enqueue` stands for
`f.state.Workers.EnqueueFederator`. -/
def activityLikeVia (enqueue : State → FromFederator → State) (env : Env) (s : State) (asType : Activity)
    (receivingAccount : Account) (_requestingAccount : Account) : Option Error × State :=
  match asType with
  | .like like =>
    let s : State := { s with conversions := s.conversions + 1 }
    match env.ASLikeToFave like with
    | .error err => (some (Error.wrap "activityLike: could not convert Like to fave" err), s)
    | .ok fave =>
      let fave : gtsmodel.StatusFave := { fave with ID := env.NewULID s.ulids }
      let s : State := { s with ulids := s.ulids + 1 }
      match s.db.PutStatusFave fave with
      | (some err, db') =>
        if errorsIs ErrAlreadyExists err then (none, { s with db := db' })
        else
          (some (Error.wrap "activityLike: database error inserting fave" err),
            { s with db := db' })
      | (none, db') =>
        (none, enqueue { s with db := db' }
          { APObjectType := ActivityLike, APActivityType := ActivityCreate,
            APIri := none, APObjectModel := none,
            GTSModel := some (Model.fave fave), ReceivingAccount := receivingAccount })
  | _ => (some (Error.new "activityLike: could not convert type to like"), s)

/-- `federatingDB.activityFlag` with the queue operation left open: `enqueue` stands for
`f.state.Workers.EnqueueFederator`. -/
def activityFlagVia (enqueue : State → FromFederator → State) (env : Env) (s : State) (asType : Activity)
    (receivingAccount : Account) (_requestingAccount : Account) : Option Error × State :=
  match asType with
  | .flag flag =>
    let s : State := { s with conversions := s.conversions + 1 }
    match env.ASFlagToReport flag with
    | .error err => (some (Error.wrap "activityFlag: could not convert Flag to report" err), s)
    | .ok report =>
      let report : gtsmodel.Report := { report with ID := env.NewULID s.ulids }
      let s : State := { s with ulids := s.ulids + 1 }
      match s.db.PutReport report with
      | (some err, db') =>
        (some (Error.wrap "activityFlag: database error inserting report" err),
          { s with db := db' })
      | (none, db') =>
        (none, enqueue { s with db := db' }
          { APObjectType := ActivityFlag, APActivityType := ActivityCreate,
            APIri := none, APObjectModel := none,
            GTSModel := some (Model.report report), ReceivingAccount := receivingAccount })
  | _ => (some (Error.new "activityFlag: could not convert type to flag"), s)

/-- `federatingDB.Block` with the queue operation left open: `enqueue` stands for
`f.state.Workers.EnqueueFederator`. -/
def BlockVia (enqueue : State → FromFederator → State) (env : Env) (s : State) (ctx : Context) (block : ASBlock) : Option Error × State :=
  match ctx.receivingAccount with
  | none => (none, s)
  | some receivingAccount =>
    let s : State := { s with conversions := s.conversions + 1 }
    match env.ASBlockToBlock block with
    | .error _ => (some (Error.new "Block: could not convert Block to gts model block"), s)
    | .ok gtsBlock =>
      let gtsBlock : gtsmodel.Block := { gtsBlock with ID := env.NewULID s.ulids }
      let s : State := { s with ulids := s.ulids + 1 }
      match s.db.PutBlock gtsBlock with
      | (some err, db') =>
        (some (Error.text "Block: database error inserting block" err), { s with db := db' })
      | (none, db') =>
        (none, enqueue { s with db := db' }
          { APObjectType := ActivityBlock, APActivityType := ActivityCreate,
            APIri := none, APObjectModel := none,
            GTSModel := some (Model.wireBlock block),
            ReceivingAccount := receivingAccount })

/-! ## Derived notions used in the statements -/

/-- The message of the forwarded-Note path: only the IRI of the Note. -/
def dereferenceMessage (iri : URL) (receivingAccount : Account) : FromFederator :=
  { APObjectType := ObjectNote, APActivityType := ActivityCreate,
    APIri := some iri, APObjectModel := none, GTSModel := none,
    ReceivingAccount := receivingAccount }

/-- The message of the non-forwarded-Note path: the wire Note and the stored Status. -/
def statusMessage (note : Note) (status : gtsmodel.Status) (receivingAccount : Account) :
    FromFederator :=
  { APObjectType := ObjectNote, APActivityType := ActivityCreate,
    APIri := none, APObjectModel := some note, GTSModel := some (Model.status status),
    ReceivingAccount := receivingAccount }

/-- The payload of the message is only the IRI: wire object and internal model empty. -/
def FromFederator.iriOnly (m : FromFederator) : Bool :=
  m.APIri.isSome && m.APObjectModel.isNone && m.GTSModel.isNone

/-- The payload of the message is only the `GTSModel` field: IRI and wire object empty. -/
def FromFederator.modelOnly (m : FromFederator) : Bool :=
  m.APIri.isNone && m.APObjectModel.isNone && m.GTSModel.isSome

/-- The payload of the message is the wire object together with the `GTSModel` field,
the IRI empty. -/
def FromFederator.wireAndModel (m : FromFederator) : Bool :=
  m.APIri.isNone && m.APObjectModel.isSome && m.GTSModel.isSome

/-- A message about a Note: object type Note, activity type Create, and as payload only
the IRI or the wire object together with the internal model. -/
def FromFederator.noteMessage (m : FromFederator) : Bool :=
  decide (m.APObjectType = ObjectNote) && decide (m.APActivityType = ActivityCreate)
    && (m.iriOnly || m.wireAndModel)

/-- A message about a record of the given object type: that object type, activity type
Create, and as payload only the `GTSModel` field. -/
def FromFederator.recordMessage (objectType : String) (m : FromFederator) : Bool :=
  decide (m.APObjectType = objectType) && decide (m.APActivityType = ActivityCreate)
    && m.modelOnly

/-- A message as `Create` can enqueue it, by the type name of the activity it is given:
for a Create activity a message about a Note, for a Follow, Like or Flag a message about
a record of that type; for other type names none. -/
def FromFederator.messageOf (typeName : String) (m : FromFederator) : Bool :=
  if typeName = ActivityCreate then m.noteMessage
  else if typeName = ActivityFollow then m.recordMessage ActivityFollow
  else if typeName = ActivityLike then m.recordMessage ActivityLike
  else if typeName = ActivityFlag then m.recordMessage ActivityFlag
  else false

/-- The queue of `s'` is the queue of `s` followed by messages that all satisfy `p`. -/
def enqueuesOnly (p : FromFederator → Bool) (s s' : State) : Prop :=
  ∃ added : List FromFederator, s'.queue = s.queue ++ added ∧ ∀ m ∈ added, p m = true

/-! ## Sample collaborators and inputs -/

/-- A converter that takes the identity of each record from the wire object, with quiet
logging. -/
def sampleEnv : Env :=
  { debug := false,
    marshalItem := fun _ => none,
    ASBlockToBlock := fun b => .ok { ID := "", URI := b.id },
    ASStatusToStatus := fun n =>
      match n.id.bind JSONLDIdProperty.GetIRI with
      | some u => .ok { ID := "", URI := u.str, CreatedAt := 1700000000, Content := n.content }
      | none => .error (Error.new "note has no id"),
    ASFollowToFollowRequest := fun f => .ok { ID := "", URI := f.id },
    ASLikeToFave := fun l => .ok { ID := "", URI := l.id },
    ASFlagToReport := fun f => .ok { ID := "", URI := f.id },
    NewULID := fun n => "01H" ++ String.mk (List.replicate n 'Z'),
    NewULIDFromTime := fun t =>
      if t = 0 then .error (Error.new "time out of range") else .ok "01HF7YAT00" }

/-- The sample collaborators with debug logging and a `marshalItem` that fails. -/
def sampleDebugEnv : Env :=
  { sampleEnv with debug := true, marshalItem := fun _ => some (Error.new "marshal failed") }

/-- The sample collaborators with converters that all fail. -/
def sampleFailingEnv : Env :=
  { sampleEnv with
    ASBlockToBlock := fun _ => .error (Error.new "bad block"),
    ASStatusToStatus := fun _ => .error (Error.new "bad note"),
    ASFollowToFollowRequest := fun _ => .error (Error.new "bad follow"),
    ASLikeToFave := fun _ => .error (Error.new "bad like"),
    ASFlagToReport := fun _ => .error (Error.new "bad flag") }

/-- The remote, requesting account. -/
def alice : Account := { ID := "01ALICE", URI := "https://remote.example/users/alice" }

/-- The local, receiving account. -/
def bob : Account := { ID := "01BOB", URI := "https://local.example/users/bob" }

/-- Empty storage, empty queue. -/
def emptyState : State :=
  { db := { blocks := [], statuses := [], followRequests := [], statusFaves := [],
            reports := [], faults := [] },
    queue := [], conversions := 0, ulids := 0 }

/-- Empty storage whose next put fails with a connection error. -/
def failingState : State :=
  { emptyState with db := { emptyState.db with faults := [some (Error.new "connection lost")] } }

/-- Context of a delivery from `alice` to `bob`. -/
def sampleCtx : Context := { receivingAccount := some bob, requestingAccount := alice }

/-- Context of an activity that did not come through the API. -/
def internalCtx : Context := { receivingAccount := none, requestingAccount := alice }

/-- A Note by `alice`. -/
def sampleNote : Note :=
  { id := some { iri := some { str := "https://remote.example/statuses/1" } },
    attributedTo := some [AttributedToEntry.iri { str := "https://remote.example/users/alice" }],
    content := "hello" }

/-- A Note by `carol`, with an IRI as id. -/
def forwardedNote : Note :=
  { id := some { iri := some { str := "https://other.example/statuses/7" } },
    attributedTo := some [AttributedToEntry.iri { str := "https://other.example/users/carol" }],
    content := "relayed" }

/-- A Note by `carol` whose `id` property is present but is not an IRI. -/
def forwardedNoteWithoutIRI : Note :=
  { forwardedNote with id := some { iri := none } }

/-- A Note by `carol` without an `id` property. -/
def forwardedNoteWithoutId : Note :=
  { forwardedNote with id := none }

/-- A Create bundling the Note by `carol` without an `id` property and the Note by
`alice`. -/
def batchWithoutId : Activity :=
  Activity.create
    { object := some [ObjectEntry.note forwardedNoteWithoutId, ObjectEntry.note sampleNote] }

/-- A Create bundling an object that is not a typed object, a Note without
`attributedTo`, and the Note by `alice`. -/
def batchWithFailures : Activity :=
  Activity.create
    { object := some [ObjectEntry.untyped,
                      ObjectEntry.note { sampleNote with attributedTo := none },
                      ObjectEntry.note sampleNote] }

/-- A Follow of `bob` by `alice`. -/
def sampleFollow : ASFollow :=
  { id := "https://remote.example/follows/1",
    actor := "https://remote.example/users/alice",
    object := "https://local.example/users/bob" }

/-- A Like by `alice`. -/
def sampleLike : ASLike :=
  { id := "https://remote.example/likes/1",
    actor := "https://remote.example/users/alice",
    object := "https://local.example/statuses/3" }

/-- A Flag by `alice`. -/
def sampleFlag : ASFlag :=
  { id := "https://remote.example/flags/1",
    actor := "https://remote.example/users/alice",
    object := "https://local.example/users/bob" }

/-- A Block of `bob` by `alice`. -/
def sampleASBlock : ASBlock :=
  { id := "https://remote.example/blocks/1",
    actor := "https://remote.example/users/alice",
    object := "https://local.example/users/bob" }

/-- Empty storage with one message waiting on the queue. -/
def busyState : State :=
  { emptyState with
    queue := [dereferenceMessage { str := "https://other.example/statuses/7" } bob] }

/-- Storage that already holds the records of the sample Follow, Like, Flag, Block and
Note. -/
def replayState : State :=
  { emptyState with
    db := { blocks := [{ ID := "01OLD", URI := "https://remote.example/blocks/1" }],
            statuses := [{ ID := "01OLD", URI := "https://remote.example/statuses/1",
                           CreatedAt := 1700000000, Content := "hello" }],
            followRequests := [{ ID := "01OLD", URI := "https://remote.example/follows/1" }],
            statusFaves := [{ ID := "01OLD", URI := "https://remote.example/likes/1" }],
            reports := [{ ID := "01OLD", URI := "https://remote.example/flags/1" }],
            faults := [] } }

end Federatingdb

/-!
# Run counting of the ffmpeg and ffprobe modules (`internal/media/ffmpeg`)

A shallow embedding of `Ffmpeg` and `Ffprobe`: the section they run under their mutex
(count the run, recompile the WebAssembly module past 500 runs) and what follows it.
The mutex makes that section atomic, so it is a function on the package variables.
The section calls `Close` on the package variable without a nil check; on a variable
that holds no module the call panics, with the mutex still held.
-/

namespace MediaFfmpeg

/-- Errors the two functions can return. -/
inductive Error
  | close
  | compile
  | cancelled
  | instantiate (detail : String)
  deriving DecidableEq, Repr

/-- Go `int` arithmetic on a 64-bit platform: the value wrapped into the signed 64-bit
range. -/
def wrapInt (x : Int) : Int :=
  (x + 9223372036854775808) % 18446744073709551616 - 9223372036854775808

/-- The package variables of one binary: whether `ffmpeg` (or `ffprobe`) holds a
compiled module (`false` when it is nil); `ffmpegRunCount` (or `ffprobeRunCount`); and,
kept for the statements, how many times the locked section has compiled a module into
the variable and how many times it has closed the module. -/
structure Compiled where
  loaded : Bool
  runCount : Int
  compilations : Nat
  closes : Nat
  deriving DecidableEq, Repr

/-- The package variables of both binaries, and for each of the coming calls to
`Close` or `CompileModule` in turn whether it fails (`true`); once the schedule is
exhausted they succeed. -/
structure State where
  ffmpeg : Compiled
  ffprobe : Compiled
  faults : List Bool
  deriving DecidableEq, Repr

/-- `ffmpeg.Close(ctx)` on a variable that holds a module: the variable keeps the
module it held. -/
def close (m : Compiled) (faults : List Bool) : Option Error × Compiled × List Bool :=
  if faults.headD false then (some Error.close, m, faults.tail)
  else (none, { m with closes := m.closes + 1 }, faults.tail)

/-- `compileFfmpeg` (and `compileFfprobe`): `ffmpeg, err = runtime.CompileModule(...)`
assigns the result to the package variable whether or not the compilation failed; a
failed compilation yields no module, so the variable is left nil. -/
def compile (m : Compiled) (faults : List Bool) : Option Error × Compiled × List Bool :=
  if faults.headD false then (some Error.compile, { m with loaded := false }, faults.tail)
  else (none, { m with loaded := true, compilations := m.compilations + 1 }, faults.tail)

/-- How the locked section ends: the mutex is released with an error or none, or the
section panics with the mutex held. Either way the package variables and the rest of
the failure schedule are left. -/
inductive Locked
  | unlocked (err : Option Error) (m : Compiled) (faults : List Bool)
  | panicked (m : Compiled) (faults : List Bool)
  deriving DecidableEq, Repr

/-- The package variables the locked section leaves. -/
@[simp] def Locked.vars : Locked → Compiled
  | .unlocked _ m _ => m
  | .panicked m _ => m

/-- The section between `ffmpegM.Lock()` and `ffmpegM.Unlock()` (the same text in
`Ffprobe` on its own variables): count the run and, past 500, close and recompile the
module and reset the count. `Close` is called on the package variable as it is: when
the variable is nil the call panics. An error of `Close` or of the compilation is
returned with the count left as incremented. -/
def lockedSection (m : Compiled) (faults : List Bool) : Locked :=
  let m : Compiled := { m with runCount := wrapInt (m.runCount + 1) }
  if m.runCount > 500 then
    if !m.loaded then .panicked m faults
    else
      match close m faults with
      | (some err, m, faults) => .unlocked (some err) m faults
      | (none, m, faults) =>
        match compile m faults with
        | (some err, m, faults) => .unlocked (some err) m faults
        | (none, m, faults) => .unlocked none { m with runCount := 0 } faults
  else .unlocked none m faults

/-- What `runtime.InstantiateModule` ends with: a `*sys.ExitError` carrying an exit code,
another error, or no error. -/
inductive Outcome
  | exit (code : Nat)
  | failed (detail : String)
  | done
  deriving DecidableEq, Repr

/-- The end of the function passed to the runner: "Try extract exit code". -/
def Outcome.result : Outcome → Nat × Option Error
  | .exit code => (code, none)
  | .failed detail => (0, some (Error.instantiate detail))
  | .done => (0, none)

/-- How a call of `Ffmpeg` or `Ffprobe` ends: it returns an exit code and an error, or
it panics in its locked section. -/
inductive Run
  | returned (code : Nat) (err : Option Error) (s : State)
  | panicked (s : State)
  deriving DecidableEq, Repr

/-- The package variables a call leaves. -/
@[simp] def Run.state : Run → State
  | .returned _ _ s => s
  | .panicked s => s

/-- `Ffmpeg`. `acquired` tells whether `ffmpegRunner.Run` (not among the sources) gets to
call the function it is given: when the context is done first, the function is not
called. `outcome` is what instantiating the module ends with. -/
def Ffmpeg (s : State) (acquired : Bool) (outcome : Outcome) : Run :=
  if acquired then
    match lockedSection s.ffmpeg s.faults with
    | .unlocked (some err) m faults =>
      .returned 0 (some err) { s with ffmpeg := m, faults := faults }
    | .unlocked none m faults =>
      .returned outcome.result.1 outcome.result.2 { s with ffmpeg := m, faults := faults }
    | .panicked m faults => .panicked { s with ffmpeg := m, faults := faults }
  else .returned 0 (some Error.cancelled) s

/-- `Ffprobe`: as `Ffmpeg`, on the variables of ffprobe. -/
def Ffprobe (s : State) (acquired : Bool) (outcome : Outcome) : Run :=
  if acquired then
    match lockedSection s.ffprobe s.faults with
    | .unlocked (some err) m faults =>
      .returned 0 (some err) { s with ffprobe := m, faults := faults }
    | .unlocked none m faults =>
      .returned outcome.result.1 outcome.result.2 { s with ffprobe := m, faults := faults }
    | .panicked m faults => .panicked { s with ffprobe := m, faults := faults }
  else .returned 0 (some Error.cancelled) s

/-- The package variables and the rest of the failure schedule after `k` runs of the
locked section in a row that all end without error; `none` when one of them returns an
error or panics. -/
def errorFreeRuns (m : Compiled) (faults : List Bool) : Nat → Option (Compiled × List Bool)
  | 0 => some (m, faults)
  | k + 1 =>
    match errorFreeRuns m faults k with
    | none => none
    | some (m', faults') =>
      match lockedSection m' faults' with
      | .unlocked none m'' faults'' => some (m'', faults'')
      | _ => none

/-- The package variables as `InitFfmpeg` leaves them: compiled, never run. -/
def initial : Compiled := { loaded := true, runCount := 0, compilations := 0, closes := 0 }

/-- The package variables after a recompilation that failed past the 500th run: no
module, the count left at 501. -/
def afterFailedCompile : Compiled :=
  { loaded := false, runCount := 501, compilations := 0, closes := 1 }

end MediaFfmpeg

/-!
# Tag timeline (`internal/processing/timeline/tag.go`)

A shallow embedding of `Processor.TagTimelineGet`, `getTag` and `packageTagResponse`.
The database, the visibility filter, the converter and the hashtag normaliser are
fields of an `Env`; `util.PackagePageableResponse` is not among the sources, and a
response is held as the parameters handed to it.
-/

namespace Timeline

/-- Errors of the collaborators: `db.ErrNoEntries` (or an error wrapping it, which
`errors.Is` treats alike), or any other error. -/
inductive Err
  | noEntries
  | other (detail : String)
  deriving DecidableEq, Repr

/-- `errors.Is(err, db.ErrNoEntries)`. -/
def Err.isNoEntries : Err → Bool
  | .noEntries => true
  | .other _ => false

/-- `gtserror.WithCode`: the three kinds built in `tag.go`. -/
inductive WithCode
  | badRequest (detail : String)
  | notFound (detail : String)
  | internalError (cause : Err)
  deriving DecidableEq, Repr

/-- `gtsmodel.Account`. -/
structure Account where
  ID : String
  deriving DecidableEq, Repr

/-- `gtsmodel.Status`. -/
structure Status where
  ID : String
  Content : String
  deriving DecidableEq, Repr

/-- `apimodel.Status`. -/
structure APIStatus where
  ID : String
  Content : String
  deriving DecidableEq, Repr

/-- `gtsmodel.Tag`; `Useable` and `Listable` are the values behind the two pointers. -/
structure Tag where
  ID : String
  Name : String
  Useable : Bool
  Listable : Bool
  deriving DecidableEq, Repr

/-- `util.PageableResponseParams` as `packageTagResponse` fills it. -/
structure PageableResponseParams where
  Items : List APIStatus
  Path : String
  NextMaxIDValue : String
  PrevMinIDValue : String
  Limit : Int
  ExtraQueryParams : List String
  deriving DecidableEq, Repr

/-- What `packageTagResponse` returns on success: `util.EmptyPageableResponse()`, or the
result of `util.PackagePageableResponse` on the given parameters. -/
inductive Response
  | empty
  | packaged (params : PageableResponseParams)
  deriving DecidableEq, Repr

/-- Result of a function returning `(*apimodel.PageableResponse, gtserror.WithCode)`; a
run-time panic (index out of range) is a result of its own. -/
inductive Outcome
  | value (r : Response)
  | error (e : WithCode)
  | panic
  deriving DecidableEq, Repr

/-- The collaborators of the tag timeline: `text.NormalizeHashtag`,
`p.state.DB.GetTagByName`, `p.state.DB.GetTagTimeline`,
`p.filter.StatusTagTimelineable` and `p.converter.StatusToAPIStatus`. -/
structure Env where
  NormalizeHashtag : String → String × Bool
  GetTagByName : String → Option Tag × Option Err
  GetTagTimeline : List String → String → String → String → Int → List Status × Option Err
  StatusTagTimelineable : Option Account → Status → Bool × Option Err
  StatusToAPIStatus : Status → Option Account → Except Err APIStatus

/-- `Processor.getTag`: the tag (possibly `nil`) or an error with code. -/
def getTag (env : Env) (tagName : String) : Option Tag × Option WithCode :=
  match env.NormalizeHashtag tagName with
  | (_, false) =>
    (none, some (WithCode.badRequest
      ("string '" ++ tagName ++ "' could not be normalized to a valid hashtag")))
  | (tagNameNormal, true) =>
    match env.GetTagByName tagNameNormal with
    | (tag, none) => (tag, none)
    | (tag, some err) =>
      if !err.isNoEntries then (none, some (WithCode.internalError err)) else (tag, none)

/-- The `for _, s := range statuses` loop of `packageTagResponse`; `items` is the slice
gathered so far. -/
def itemsLoop (env : Env) (requestingAcct : Option Account) :
    List Status → List APIStatus → List APIStatus
  | [], items => items
  | s :: rest, items =>
    match env.StatusTagTimelineable requestingAcct s with
    | (_, some _) => itemsLoop env requestingAcct rest items
    | (timelineable, none) =>
      if !timelineable then itemsLoop env requestingAcct rest items
      else
        match env.StatusToAPIStatus s requestingAcct with
        | .error _ => itemsLoop env requestingAcct rest items
        | .ok apiStatus => itemsLoop env requestingAcct rest (items ++ [apiStatus])

/-- `Processor.packageTagResponse`. `tagNames[0]` on an empty slice panics. -/
def packageTagResponse (env : Env) (requestingAcct : Option Account)
    (statuses : List Status) (limit : Int) (tagNames : List String) : Outcome :=
  match statuses with
  | [] => Outcome.value Response.empty
  | first :: others =>
    let nextMaxIDValue := ((first :: others).getLast (List.cons_ne_nil first others)).ID
    let prevMinIDValue := first.ID
    let items := itemsLoop env requestingAcct (first :: others) []
    match tagNames with
    | [] => Outcome.panic
    | primary :: extra =>
      let path := "/api/v1/timelines/tag/" ++ primary
      let extraQueryParams := extra.map (fun tagName => "any[]=" ++ tagName)
      Outcome.value (Response.packaged
        { Items := items, Path := path, NextMaxIDValue := nextMaxIDValue,
          PrevMinIDValue := prevMinIDValue, Limit := limit,
          ExtraQueryParams := extraQueryParams })

/-- The `for _, tagName := range tagNames` loop of `TagTimelineGet`: the tag IDs, or
the error that ends the call. -/
def tagIDsLoop (env : Env) : List String → List String → List String × Option WithCode
  | [], tagIDs => (tagIDs, none)
  | tagName :: rest, tagIDs =>
    match getTag env tagName with
    | (_, some errWithCode) => ([], some errWithCode)
    | (none, none) =>
      ([], some (WithCode.notFound "tag was not found, or not useable/listable on this instance"))
    | (some tag, none) =>
      if !tag.Useable || !tag.Listable then
        ([], some (WithCode.notFound
          "tag was not found, or not useable/listable on this instance"))
      else tagIDsLoop env rest (tagIDs ++ [tag.ID])

/-- `Processor.TagTimelineGet`. -/
def TagTimelineGet (env : Env) (requestingAcct : Option Account) (tagNames : List String)
    (maxID sinceID minID : String) (limit : Int) : Outcome :=
  match tagIDsLoop env tagNames [] with
  | (_, some errWithCode) => Outcome.error errWithCode
  | (tagIDs, none) =>
    match env.GetTagTimeline tagIDs maxID sinceID minID limit with
    | (statuses, none) => packageTagResponse env requestingAcct statuses limit tagNames
    | (statuses, some err) =>
      if !err.isNoEntries then Outcome.error (WithCode.internalError err)
      else packageTagResponse env requestingAcct statuses limit tagNames

/-- The items the response is to hold: in the order of the statuses, the conversion of
each status for which the visibility filter answers `(true, nil)` and whose conversion
succeeds. -/
def visibleItems (env : Env) (requestingAcct : Option Account) (statuses : List Status) :
    List APIStatus :=
  statuses.filterMap (fun s =>
    if env.StatusTagTimelineable requestingAcct s = (true, none) then
      match env.StatusToAPIStatus s requestingAcct with
      | .ok apiStatus => some apiStatus
      | .error _ => none
    else none)

/-- Sample collaborators: one listable tag `cats`; statuses whose content is `hidden`
are not timelineable, the visibility of `broken` cannot be checked, and `odd` cannot be
converted. -/
def sampleEnv : Env :=
  { NormalizeHashtag := fun name => (name, name != ""),
    GetTagByName := fun name =>
      if name = "cats" then
        (some { ID := "01TAG", Name := "cats", Useable := true, Listable := true }, none)
      else (none, some Err.noEntries),
    GetTagTimeline := fun _ _ _ _ _ =>
      ([{ ID := "05", Content := "one" }, { ID := "04", Content := "hidden" },
        { ID := "03", Content := "broken" }, { ID := "02", Content := "odd" },
        { ID := "01", Content := "two" }], none),
    StatusTagTimelineable := fun _ s =>
      if s.Content = "broken" then (false, some (Err.other "db down"))
      else (s.Content != "hidden", none),
    StatusToAPIStatus := fun s _ =>
      if s.Content = "odd" then .error (Err.other "cannot convert")
      else .ok { ID := s.ID, Content := s.Content } }

end Timeline

namespace Bundb

/-! ## Theorems -/

section Theorems

variable (Punify : String → String × Option Err)

/-- A query leaves the rows of both tables as they are and appends itself to the log. -/
theorem DB.exec_frame (db : DB) (q : Query) :
    (db.exec q).2.domainAllows = db.domainAllows
      ∧ (db.exec q).2.domainBlocks = db.domainBlocks
      ∧ (db.exec q).2.log = db.log ++ [q] := by
  unfold DB.exec
  split_ifs <;> simp

/-- The allow lookup, hit or miss, leaves the rows of both tables as they are. -/
theorem Cache.matches_scanDomainAllows_frame (c c' : Cache) (n : String) (db db1 : DB)
    (r : Bool × Option Err)
    (h : c.Matches n DB.scanDomainAllows db = (r, c', db1)) :
    db1.domainAllows = db.domainAllows ∧ db1.domainBlocks = db.domainBlocks := by
  have hf := DB.exec_frame db (Query.selectDomains Table.domain_allows)
  unfold Cache.Matches DB.scanDomainAllows at h
  rcases hent : c.entries with _ | l
  · rcases hx : db.exec (Query.selectDomains Table.domain_allows) with ⟨_ | e, dbx⟩
    all_goals
      rw [hx] at hf
      simp only [hent, hx, Prod.mk.injEq] at h
      obtain ⟨-, -, rfl⟩ := h
      exact ⟨hf.1, hf.2.1⟩
  · simp only [hent, Prod.mk.injEq] at h
    obtain ⟨-, -, rfl⟩ := h
    exact ⟨rfl, rfl⟩

/-- An error result of `IsDomainBlocked` always carries the boolean `false`. -/
theorem isDomainBlocked_error_false (s : State) (domain : String) (err : Err)
    (h : (IsDomainBlocked Punify s domain).1.2 = some err) :
    (IsDomainBlocked Punify s domain).1.1 = false := by
  revert h
  unfold IsDomainBlocked
  rcases Punify domain with ⟨n, _ | e⟩ <;> simp only
  · split
    · simp
    · rcases s.caches.DomainAllow.Matches n DB.scanDomainAllows s.db
        with ⟨⟨a, _ | e⟩, c, db⟩ <;> simp only
      · rcases s.caches.DomainBlock.Matches n DB.scanDomainBlocks db
          with ⟨⟨b, _ | e⟩, c', db'⟩ <;> simp only
        · split_ifs <;> simp
        · simp
      · simp
  · simp

/-- C1. Under the blocklist federation mode, for a domain that normalises to a
non-self form and with both set lookups succeeding, `IsDomainBlocked` returns exactly
`!(explicitAllow || !explicitBlock)` with no error, which is
`explicitBlock && !explicitAllow`; neither entry present gives not blocked and both
entries present give not blocked. -/
theorem isDomainBlocked_blocklist (s : State) (domain n : String)
    (explicitAllow explicitBlock : Bool) (cA cB : Cache) (db1 db2 : DB)
    (hmode : s.config.InstanceFederationMode = InstanceFederationModeBlocklist)
    (hpuny : Punify domain = (n, none))
    (hempty : n ≠ "") (hacct : n ≠ s.config.AccountDomain) (hhost : n ≠ s.config.Host)
    (hallow : s.caches.DomainAllow.Matches n DB.scanDomainAllows s.db
      = ((explicitAllow, none), cA, db1))
    (hblock : s.caches.DomainBlock.Matches n DB.scanDomainBlocks db1
      = ((explicitBlock, none), cB, db2)) :
    IsDomainBlocked Punify s domain
        = ((!(explicitAllow || !explicitBlock), none),
            { config := s.config, db := db2, caches := { DomainAllow := cA, DomainBlock := cB } })
      ∧ (!(explicitAllow || !explicitBlock)) = (explicitBlock && !explicitAllow)
      ∧ (explicitAllow = false → explicitBlock = false →
          (IsDomainBlocked Punify s domain).1 = (false, none))
      ∧ (explicitAllow = true → explicitBlock = true →
          (IsDomainBlocked Punify s domain).1 = (false, none)) := by
  have key : IsDomainBlocked Punify s domain
        = ((!(explicitAllow || !explicitBlock), none),
            { config := s.config, db := db2,
              caches := { DomainAllow := cA, DomainBlock := cB } }) := by
    unfold IsDomainBlocked
    simp [hpuny, hempty, hacct, hhost, hallow, hblock, hmode]
  refine ⟨key, ?_, ?_, ?_⟩
  · cases explicitAllow <;> cases explicitBlock <;> rfl
  · intro ha hb; rw [key, ha, hb]; rfl
  · intro ha hb; rw [key, ha, hb]; rfl

/-- Witness for C1: `evil.example`, blocked and not allowed, on the sample instance. -/
theorem isDomainBlocked_blocklist_witness :
    IsDomainBlocked PunifyASCII sampleBlocked "Evil.Example"
        = ((!(false || !true), none),
            { config := sampleBlocked.config,
              db := sampleBlocked.db,
              caches := { DomainAllow := { entries := some [], lookups := 2 },
                          DomainBlock := { entries := some ["evil.example"], lookups := 2 } } })
      ∧ (!(false || !true)) = (true && !false)
      ∧ (false = false → true = false →
          (IsDomainBlocked PunifyASCII sampleBlocked "Evil.Example").1 = (false, none))
      ∧ (false = true → true = true →
          (IsDomainBlocked PunifyASCII sampleBlocked "Evil.Example").1 = (false, none)) :=
  isDomainBlocked_blocklist PunifyASCII sampleBlocked "Evil.Example" "evil.example"
    false true { entries := some [], lookups := 2 }
    { entries := some ["evil.example"], lookups := 2 } sampleBlocked.db sampleBlocked.db
    (by decide) (by decide) (by decide) (by decide) (by decide) (by decide) (by decide)

/-- C2. Under the allowlist federation mode, for a domain that normalises to a
non-self form and with both set lookups succeeding, `IsDomainBlocked` returns exactly
`explicitBlock || !explicitAllow` with no error: not blocked only when explicitly
allowed and not explicitly blocked; neither entry present gives blocked and both
entries present give blocked. -/
theorem isDomainBlocked_allowlist (s : State) (domain n : String)
    (explicitAllow explicitBlock : Bool) (cA cB : Cache) (db1 db2 : DB)
    (hmode : s.config.InstanceFederationMode = InstanceFederationModeAllowlist)
    (hpuny : Punify domain = (n, none))
    (hempty : n ≠ "") (hacct : n ≠ s.config.AccountDomain) (hhost : n ≠ s.config.Host)
    (hallow : s.caches.DomainAllow.Matches n DB.scanDomainAllows s.db
      = ((explicitAllow, none), cA, db1))
    (hblock : s.caches.DomainBlock.Matches n DB.scanDomainBlocks db1
      = ((explicitBlock, none), cB, db2)) :
    IsDomainBlocked Punify s domain
        = ((explicitBlock || !explicitAllow, none),
            { config := s.config, db := db2, caches := { DomainAllow := cA, DomainBlock := cB } })
      ∧ ((explicitBlock || !explicitAllow) = false ↔
          (explicitAllow = true ∧ explicitBlock = false))
      ∧ (explicitAllow = false → explicitBlock = false →
          (IsDomainBlocked Punify s domain).1 = (true, none))
      ∧ (explicitAllow = true → explicitBlock = true →
          (IsDomainBlocked Punify s domain).1 = (true, none)) := by
  have hne : InstanceFederationModeAllowlist ≠ InstanceFederationModeBlocklist := by decide
  have key : IsDomainBlocked Punify s domain
        = ((explicitBlock || !explicitAllow, none),
            { config := s.config, db := db2,
              caches := { DomainAllow := cA, DomainBlock := cB } }) := by
    unfold IsDomainBlocked
    simp [hpuny, hempty, hacct, hhost, hallow, hblock, hmode, hne]
  refine ⟨key, ?_, ?_, ?_⟩
  · cases explicitAllow <;> cases explicitBlock <;> simp
  · intro ha hb; rw [key, ha, hb]; rfl
  · intro ha hb; rw [key, ha, hb]; rfl

/-- Witness for C2: an unlisted domain on the sample instance in allowlist mode. -/
theorem isDomainBlocked_allowlist_witness :
    IsDomainBlocked PunifyASCII sampleAllowlist "Other.Example"
        = ((false || !false, none),
            { config := sampleAllowlist.config,
              db := { domainAllows := [], domainBlocks := [], faults := [],
                      log := [Query.selectDomains Table.domain_allows,
                              Query.selectDomains Table.domain_blocks] },
              caches := { DomainAllow := { entries := some [], lookups := 1 },
                          DomainBlock := { entries := some [], lookups := 1 } } })
      ∧ ((false || !false) = false ↔ (false = true ∧ false = false))
      ∧ (false = false → false = false →
          (IsDomainBlocked PunifyASCII sampleAllowlist "Other.Example").1 = (true, none))
      ∧ (false = true → false = true →
          (IsDomainBlocked PunifyASCII sampleAllowlist "Other.Example").1 = (true, none)) :=
  isDomainBlocked_allowlist PunifyASCII sampleAllowlist "Other.Example" "other.example"
    false false { entries := some [], lookups := 1 } { entries := some [], lookups := 1 }
    { domainAllows := [], domainBlocks := [], faults := [],
      log := [Query.selectDomains Table.domain_allows] }
    { domainAllows := [], domainBlocks := [], faults := [],
      log := [Query.selectDomains Table.domain_allows, Query.selectDomains Table.domain_blocks] }
    (by decide) (by decide) (by decide) (by decide) (by decide) (by decide) (by decide)

/-- C3. Self-domain immunity: when the normalised form of the input is empty, the
account domain or the instance host, `IsDomainBlocked` returns `(false, nil)` for every
state of the tables and caches, and returns the state untouched: no `Matches` lookup is
counted on either cache and no query reaches storage. -/
theorem isDomainBlocked_self (s : State) (domain n : String)
    (hpuny : Punify domain = (n, none))
    (hself : n = "" ∨ n = s.config.Host ∨ n = s.config.AccountDomain) :
    IsDomainBlocked Punify s domain = ((false, none), s)
      ∧ (IsDomainBlocked Punify s domain).2.caches.DomainAllow.lookups
          = s.caches.DomainAllow.lookups
      ∧ (IsDomainBlocked Punify s domain).2.caches.DomainBlock.lookups
          = s.caches.DomainBlock.lookups
      ∧ (IsDomainBlocked Punify s domain).2.db.log = s.db.log := by
  have hself' : n = "" ∨ n = s.config.AccountDomain ∨ n = s.config.Host := by tauto
  have key : IsDomainBlocked Punify s domain = ((false, none), s) := by
    unfold IsDomainBlocked
    simp [hpuny, hself']
  refine ⟨key, ?_, ?_, ?_⟩ <;> rw [key]

/-- Witness for C3: the instance host, although a block row and the hydrated block cache
name it and the next storage query would fail. -/
theorem isDomainBlocked_self_witness :
    IsDomainBlocked PunifyASCII sampleSelfBlocked "LOCAL.example"
        = ((false, none), sampleSelfBlocked)
      ∧ (IsDomainBlocked PunifyASCII sampleSelfBlocked "LOCAL.example").2.caches.DomainAllow.lookups
          = sampleSelfBlocked.caches.DomainAllow.lookups
      ∧ (IsDomainBlocked PunifyASCII sampleSelfBlocked "LOCAL.example").2.caches.DomainBlock.lookups
          = sampleSelfBlocked.caches.DomainBlock.lookups
      ∧ (IsDomainBlocked PunifyASCII sampleSelfBlocked "LOCAL.example").2.db.log
          = sampleSelfBlocked.db.log :=
  isDomainBlocked_self PunifyASCII sampleSelfBlocked "LOCAL.example" "local.example"
    (by decide) (by decide)

/-- C4. A domain that fails normalisation makes `IsDomainBlocked` return that error
(with the boolean `false`, never `(false, nil)`), and makes `CreateDomainBlock`,
`DeleteDomainBlock`, `CreateDomainAllow` and `DeleteDomainAllow` return it too; each of
the five calls returns the state (tables, query log, failure schedule, both caches)
exactly as it received it. -/
theorem punify_error_is_returned (s : State) (domain : String) (err : Err)
    (block : DomainBlock) (allow : DomainAllow)
    (hpuny : (Punify domain).2 = some err)
    (hblock : block.Domain = domain) (hallow : allow.Domain = domain) :
    IsDomainBlocked Punify s domain = ((false, some err), s)
      ∧ (IsDomainBlocked Punify s domain).1 ≠ (false, none)
      ∧ (CreateDomainBlock Punify s block).1 = some err
      ∧ (CreateDomainBlock Punify s block).2.2 = s
      ∧ DeleteDomainBlock Punify s domain = (some err, s)
      ∧ (CreateDomainAllow Punify s allow).1 = some err
      ∧ (CreateDomainAllow Punify s allow).2.2 = s
      ∧ DeleteDomainAllow Punify s domain = (some err, s) := by
  have key : IsDomainBlocked Punify s domain = ((false, some err), s) := by
    unfold IsDomainBlocked
    rcases hP : Punify domain with ⟨n, _ | e⟩
    · rw [hP] at hpuny; simp at hpuny
    · rw [hP] at hpuny; simp at hpuny; simp [hpuny]
  refine ⟨key, ?_, ?_, ?_, ?_, ?_, ?_, ?_⟩
  · rw [key]; simp
  · unfold CreateDomainBlock; simp [hblock, hpuny]
  · unfold CreateDomainBlock; simp [hblock, hpuny]
  · unfold DeleteDomainBlock
    rcases hP : Punify domain with ⟨n, _ | e⟩
    · rw [hP] at hpuny; simp at hpuny
    · rw [hP] at hpuny; simp at hpuny; simp [hpuny]
  · unfold CreateDomainAllow; simp [hallow, hpuny]
  · unfold CreateDomainAllow; simp [hallow, hpuny]
  · unfold DeleteDomainAllow
    rcases hP : Punify domain with ⟨n, _ | e⟩
    · rw [hP] at hpuny; simp at hpuny
    · rw [hP] at hpuny; simp at hpuny; simp [hpuny]

/-- Witness for C4: a domain with a blank in it, on the sample instance with a blocked
domain and hydrated caches. -/
theorem punify_error_is_returned_witness :
    IsDomainBlocked PunifyASCII sampleBlocked "evil example"
        = ((false, some (Err.invalidDomain "evil example")), sampleBlocked)
      ∧ (IsDomainBlocked PunifyASCII sampleBlocked "evil example").1 ≠ (false, none)
      ∧ (CreateDomainBlock PunifyASCII sampleBlocked { ID := "03", Domain := "evil example" }).1
          = some (Err.invalidDomain "evil example")
      ∧ (CreateDomainBlock PunifyASCII sampleBlocked { ID := "03", Domain := "evil example" }).2.2
          = sampleBlocked
      ∧ DeleteDomainBlock PunifyASCII sampleBlocked "evil example"
          = (some (Err.invalidDomain "evil example"), sampleBlocked)
      ∧ (CreateDomainAllow PunifyASCII sampleBlocked { ID := "04", Domain := "evil example" }).1
          = some (Err.invalidDomain "evil example")
      ∧ (CreateDomainAllow PunifyASCII sampleBlocked { ID := "04", Domain := "evil example" }).2.2
          = sampleBlocked
      ∧ DeleteDomainAllow PunifyASCII sampleBlocked "evil example"
          = (some (Err.invalidDomain "evil example"), sampleBlocked) :=
  punify_error_is_returned PunifyASCII sampleBlocked "evil example"
    (Err.invalidDomain "evil example") { ID := "03", Domain := "evil example" }
    { ID := "04", Domain := "evil example" } (by decide) rfl rfl

/-- C5. For a domain that normalises to a non-self form, with both set lookups
succeeding and a federation mode that is neither blocklist nor allowlist,
`IsDomainBlocked` returns the non-nil `unrecognized federation mode` error naming the
configured value, so the result is neither `(false, nil)` nor `(true, nil)`. -/
theorem isDomainBlocked_unrecognized_mode (s : State) (domain n : String)
    (explicitAllow explicitBlock : Bool) (cA cB : Cache) (db1 db2 : DB)
    (hnotblock : s.config.InstanceFederationMode ≠ InstanceFederationModeBlocklist)
    (hnotallow : s.config.InstanceFederationMode ≠ InstanceFederationModeAllowlist)
    (hpuny : Punify domain = (n, none))
    (hempty : n ≠ "") (hacct : n ≠ s.config.AccountDomain) (hhost : n ≠ s.config.Host)
    (hallow : s.caches.DomainAllow.Matches n DB.scanDomainAllows s.db
      = ((explicitAllow, none), cA, db1))
    (hblock : s.caches.DomainBlock.Matches n DB.scanDomainBlocks db1
      = ((explicitBlock, none), cB, db2)) :
    (IsDomainBlocked Punify s domain).1
        = (false, some (Err.unrecognizedMode s.config.InstanceFederationMode))
      ∧ (IsDomainBlocked Punify s domain).1.2 ≠ none
      ∧ ∀ decision : Bool, (IsDomainBlocked Punify s domain).1 ≠ (decision, none) := by
  have key : (IsDomainBlocked Punify s domain).1
        = (false, some (Err.unrecognizedMode s.config.InstanceFederationMode)) := by
    unfold IsDomainBlocked
    simp [hpuny, hempty, hacct, hhost, hallow, hblock, hnotblock, hnotallow]
  refine ⟨key, ?_, ?_⟩
  · rw [key]; simp
  · intro decision; rw [key]; simp

/-- Witness for C5: the sample instance configured with the mode `open`. -/
theorem isDomainBlocked_unrecognized_mode_witness :
    (IsDomainBlocked PunifyASCII sampleBadMode "evil.example").1
        = (false, some (Err.unrecognizedMode sampleBadMode.config.InstanceFederationMode))
      ∧ (IsDomainBlocked PunifyASCII sampleBadMode "evil.example").1.2 ≠ none
      ∧ ∀ decision : Bool,
          (IsDomainBlocked PunifyASCII sampleBadMode "evil.example").1 ≠ (decision, none) :=
  isDomainBlocked_unrecognized_mode PunifyASCII sampleBadMode "evil.example" "evil.example"
    false false { entries := some [], lookups := 1 } { entries := some [], lookups := 1 }
    { domainAllows := [], domainBlocks := [], faults := [],
      log := [Query.selectDomains Table.domain_allows] }
    { domainAllows := [], domainBlocks := [], faults := [],
      log := [Query.selectDomains Table.domain_allows, Query.selectDomains Table.domain_blocks] }
    (by decide) (by decide) (by decide) (by decide) (by decide) (by decide) (by decide)
    (by decide)

/-- C6. Spelling invariance: two spellings with the same successful normalisation get
the same result from `IsDomainBlocked` in the same state: same boolean, same error,
same resulting state. -/
theorem isDomainBlocked_spelling_invariant (s : State) (D1 D2 n : String)
    (h1 : Punify D1 = (n, none)) (h2 : Punify D2 = (n, none)) :
    IsDomainBlocked Punify s D1 = IsDomainBlocked Punify s D2 := by
  unfold IsDomainBlocked
  rw [h1, h2]

/-- Witness for C6: after blocking `Example.COM`, checking `Example.COM` and checking
`example.com` agree (both are blocked). -/
theorem isDomainBlocked_spelling_invariant_witness :
    IsDomainBlocked PunifyASCII sampleExampleBlocked "Example.COM"
        = IsDomainBlocked PunifyASCII sampleExampleBlocked "example.com"
      ∧ (IsDomainBlocked PunifyASCII sampleExampleBlocked "example.com").1 = (true, none) :=
  ⟨isDomainBlocked_spelling_invariant PunifyASCII sampleExampleBlocked
      "Example.COM" "example.com" "example.com" (by decide) (by decide),
    by decide⟩

/-- C7. Cache coherence: when `CreateDomainBlock` returns without error, the block-set
cache is left cleared, whatever it held before. The next `IsDomainBlocked` on the same
domain (non-self, blocklist mode, allow lookup answering `false`) therefore issues the
block-set query against storage and never answers `(false, nil)`; when that query
succeeds the block lookup answers `true` and the call returns `(true, nil)`. -/
theorem createDomainBlock_then_isDomainBlocked (s s' : State) (block block' : DomainBlock)
    (cA : Cache) (db1 : DB)
    (hcreate : CreateDomainBlock Punify s block = (none, block', s'))
    (hmode : s.config.InstanceFederationMode = InstanceFederationModeBlocklist)
    (hempty : (Punify block.Domain).1 ≠ "")
    (hacct : (Punify block.Domain).1 ≠ s.config.AccountDomain)
    (hhost : (Punify block.Domain).1 ≠ s.config.Host)
    (hallow : s'.caches.DomainAllow.Matches (Punify block.Domain).1 DB.scanDomainAllows s'.db
      = ((false, none), cA, db1)) :
    s'.caches.DomainBlock.entries = none
      ∧ (IsDomainBlocked Punify s' block.Domain).2.db.log
          = db1.log ++ [Query.selectDomains Table.domain_blocks]
      ∧ (IsDomainBlocked Punify s' block.Domain).1 ≠ (false, none)
      ∧ ((DB.scanDomainBlocks db1).1.2 = none →
          (s'.caches.DomainBlock.Matches (Punify block.Domain).1 DB.scanDomainBlocks db1).1
              = (true, none)
            ∧ (IsDomainBlocked Punify s' block.Domain).1 = (true, none)) := by
  -- what a successful create leaves behind
  rcases hP : Punify block.Domain with ⟨n, _ | e⟩
  swap
  · unfold CreateDomainBlock at hcreate
    simp [hP] at hcreate
  rw [hP] at hempty hacct hhost hallow
  simp only at hempty hacct hhost hallow
  unfold CreateDomainBlock at hcreate
  simp only [hP] at hcreate
  unfold DB.insertDomainBlock at hcreate
  rcases hx : s.db.exec (Query.insert Table.domain_blocks n) with ⟨_ | e, dbx⟩
  swap
  · simp [hx] at hcreate
  simp only [hx, Prod.mk.injEq, true_and] at hcreate
  obtain ⟨-, rfl⟩ := hcreate
  simp only at hallow
  have hfA := Cache.matches_scanDomainAllows_frame _ _ _ _ _ _ hallow
  simp only at hfA
  have hmem : n ∈ db1.domainBlocks.map (fun b => b.Domain) := by
    rw [hfA.2]
    simp
  have hfB := DB.exec_frame db1 (Query.selectDomains Table.domain_blocks)
  refine ⟨rfl, ?_⟩
  unfold IsDomainBlocked
  simp only [hP, hempty, hacct, hhost, or_self, if_false, hallow]
  unfold Cache.Matches Cache.Clear DB.scanDomainBlocks
  simp only [hmode]
  rcases hy : db1.exec (Query.selectDomains Table.domain_blocks) with ⟨_ | e, dby⟩
  · rw [hy] at hfB
    simp only at hfB
    have hmem' : n ∈ dby.domainBlocks.map (fun b => b.Domain) := by
      rw [hfB.2.1]; exact hmem
    have hex : ∃ x ∈ dby.domainBlocks, x.Domain = n := by
      simpa using hmem'
    simp [hfB.2.2, hex]
  · rw [hy] at hfB
    simp only at hfB
    simp [hfB.2.2]

/-- Witness for C7: blocking `evil.example` while the block cache is hydrated with an
empty list; the next check reloads and returns `(true, nil)`. -/
theorem createDomainBlock_then_isDomainBlocked_witness :
    (CreateDomainBlock PunifyASCII sampleHydrated
        { ID := "06", Domain := "evil.example" }).2.2.caches.DomainBlock.entries = none
      ∧ (IsDomainBlocked PunifyASCII
            (CreateDomainBlock PunifyASCII sampleHydrated
              { ID := "06", Domain := "evil.example" }).2.2 "evil.example").2.db.log
          = (CreateDomainBlock PunifyASCII sampleHydrated
              { ID := "06", Domain := "evil.example" }).2.2.db.log
              ++ [Query.selectDomains Table.domain_blocks]
      ∧ (IsDomainBlocked PunifyASCII
            (CreateDomainBlock PunifyASCII sampleHydrated
              { ID := "06", Domain := "evil.example" }).2.2 "evil.example").1 ≠ (false, none)
      ∧ (IsDomainBlocked PunifyASCII
            (CreateDomainBlock PunifyASCII sampleHydrated
              { ID := "06", Domain := "evil.example" }).2.2 "evil.example").1 = (true, none) :=
  have h := createDomainBlock_then_isDomainBlocked PunifyASCII sampleHydrated
    (CreateDomainBlock PunifyASCII sampleHydrated { ID := "06", Domain := "evil.example" }).2.2
    { ID := "06", Domain := "evil.example" } { ID := "06", Domain := "evil.example" }
    { entries := some [], lookups := 2 }
    (CreateDomainBlock PunifyASCII sampleHydrated { ID := "06", Domain := "evil.example" }).2.2.db
    (by decide) (by decide) (by decide) (by decide) (by decide) (by decide)
  ⟨h.1, h.2.1, h.2.2.1, (h.2.2.2 (by decide)).2⟩

/-- C8. Each write-side operation whose domain normalises and whose storage mutation is
performed (the insert or delete query does not fail) returns no error, leaves storage as
the mutation left it, and leaves its own set cache cleared: the block cache for
`CreateDomainBlock` and `DeleteDomainBlock`, the allow cache for `CreateDomainAllow` and
`DeleteDomainAllow`. A delete that matches no row still clears the cache while the
table keeps its rows. -/
theorem write_ops_clear_cache (s : State) (block : DomainBlock) (allow : DomainAllow)
    (domain n : String) :
    ((Punify block.Domain).2 = none →
      (s.db.insertDomainBlock { block with Domain := (Punify block.Domain).1 }).1 = none →
        (CreateDomainBlock Punify s block).1 = none
          ∧ (CreateDomainBlock Punify s block).2.2.db
              = (s.db.insertDomainBlock { block with Domain := (Punify block.Domain).1 }).2
          ∧ (CreateDomainBlock Punify s block).2.2.caches.DomainBlock
              = s.caches.DomainBlock.Clear
          ∧ (CreateDomainBlock Punify s block).2.2.caches.DomainBlock.entries = none)
      ∧ (Punify domain = (n, none) → (s.db.deleteDomainBlock n).1 = none →
        (DeleteDomainBlock Punify s domain).1 = none
          ∧ (DeleteDomainBlock Punify s domain).2.db = (s.db.deleteDomainBlock n).2
          ∧ (DeleteDomainBlock Punify s domain).2.caches.DomainBlock
              = s.caches.DomainBlock.Clear
          ∧ (DeleteDomainBlock Punify s domain).2.caches.DomainBlock.entries = none
          ∧ ((∀ b ∈ s.db.domainBlocks, b.Domain ≠ n) →
              (DeleteDomainBlock Punify s domain).2.db.domainBlocks = s.db.domainBlocks))
      ∧ ((Punify allow.Domain).2 = none →
      (s.db.insertDomainAllow { allow with Domain := (Punify allow.Domain).1 }).1 = none →
        (CreateDomainAllow Punify s allow).1 = none
          ∧ (CreateDomainAllow Punify s allow).2.2.db
              = (s.db.insertDomainAllow { allow with Domain := (Punify allow.Domain).1 }).2
          ∧ (CreateDomainAllow Punify s allow).2.2.caches.DomainAllow
              = s.caches.DomainAllow.Clear
          ∧ (CreateDomainAllow Punify s allow).2.2.caches.DomainAllow.entries = none)
      ∧ (Punify domain = (n, none) → (s.db.deleteDomainAllow n).1 = none →
        (DeleteDomainAllow Punify s domain).1 = none
          ∧ (DeleteDomainAllow Punify s domain).2.db = (s.db.deleteDomainAllow n).2
          ∧ (DeleteDomainAllow Punify s domain).2.caches.DomainAllow
              = s.caches.DomainAllow.Clear
          ∧ (DeleteDomainAllow Punify s domain).2.caches.DomainAllow.entries = none
          ∧ ((∀ a ∈ s.db.domainAllows, a.Domain ≠ n) →
              (DeleteDomainAllow Punify s domain).2.db.domainAllows = s.db.domainAllows)) := by
  refine ⟨?_, ?_, ?_, ?_⟩
  · intro hp hi
    unfold CreateDomainBlock
    rcases hx : s.db.insertDomainBlock { block with Domain := (Punify block.Domain).1 }
      with ⟨_ | e, dbx⟩
    · simp [hp, hx, Cache.Clear]
    · rw [hx] at hi; simp at hi
  · intro hp hd
    unfold DeleteDomainBlock
    rcases hx : s.db.deleteDomainBlock n with ⟨_ | e, dbx⟩
    · refine ⟨by simp [hp, hx], by simp [hp, hx], by simp [hp, hx], by simp [hp, hx, Cache.Clear], ?_⟩
      intro hnone
      have hrows : dbx.domainBlocks = s.db.domainBlocks := by
        have hf := DB.exec_frame s.db (Query.delete Table.domain_blocks n)
        have hx' := hx
        unfold DB.deleteDomainBlock at hx'
        rcases hy : s.db.exec (Query.delete Table.domain_blocks n) with ⟨_ | e, dby⟩
        · rw [hy] at hf
          simp only [hy, Prod.mk.injEq, true_and] at hx'
          subst hx'
          simp only
          rw [show dby.domainBlocks = s.db.domainBlocks from hf.2.1]
          apply List.filter_eq_self.mpr
          intro b hb
          simpa using hnone b hb
        · simp [hy] at hx'
      simp [hp, hx, hrows]
    · rw [hx] at hd; simp at hd
  · intro hp hi
    unfold CreateDomainAllow
    rcases hx : s.db.insertDomainAllow { allow with Domain := (Punify allow.Domain).1 }
      with ⟨_ | e, dbx⟩
    · simp [hp, hx, Cache.Clear]
    · rw [hx] at hi; simp at hi
  · intro hp hd
    unfold DeleteDomainAllow
    rcases hx : s.db.deleteDomainAllow n with ⟨_ | e, dbx⟩
    · refine ⟨by simp [hp, hx], by simp [hp, hx], by simp [hp, hx], by simp [hp, hx, Cache.Clear], ?_⟩
      intro hnone
      have hrows : dbx.domainAllows = s.db.domainAllows := by
        have hf := DB.exec_frame s.db (Query.delete Table.domain_allows n)
        have hx' := hx
        unfold DB.deleteDomainAllow at hx'
        rcases hy : s.db.exec (Query.delete Table.domain_allows n) with ⟨_ | e, dby⟩
        · rw [hy] at hf
          simp only [hy, Prod.mk.injEq, true_and] at hx'
          subst hx'
          simp only
          rw [show dby.domainAllows = s.db.domainAllows from hf.1]
          apply List.filter_eq_self.mpr
          intro a ha
          simpa using hnone a ha
        · simp [hy] at hx'
      simp [hp, hx, hrows]
    · rw [hx] at hd; simp at hd

/-- Witness for C8: on the sample instance with `evil.example` blocked and both caches
hydrated, a second block, a delete of a domain without a block row, an allow and a
delete of a domain without an allow row each leave their cache cleared. -/
theorem write_ops_clear_cache_witness :
    (CreateDomainBlock PunifyASCII sampleBlocked
        { ID := "07", Domain := "Spam.Example" }).2.2.caches.DomainBlock.entries = none
      ∧ ((DeleteDomainBlock PunifyASCII sampleBlocked "Absent.Example").2.caches.DomainBlock.entries
            = none
          ∧ (DeleteDomainBlock PunifyASCII sampleBlocked "Absent.Example").2.db.domainBlocks
            = sampleBlocked.db.domainBlocks)
      ∧ (CreateDomainAllow PunifyASCII sampleBlocked
          { ID := "08", Domain := "Good.Example" }).2.2.caches.DomainAllow.entries = none
      ∧ ((DeleteDomainAllow PunifyASCII sampleBlocked "Absent.Example").2.caches.DomainAllow.entries
            = none
          ∧ (DeleteDomainAllow PunifyASCII sampleBlocked "Absent.Example").2.db.domainAllows
            = sampleBlocked.db.domainAllows) :=
  have h := write_ops_clear_cache PunifyASCII sampleBlocked
    { ID := "07", Domain := "Spam.Example" } { ID := "08", Domain := "Good.Example" }
    "Absent.Example" "absent.example"
  ⟨(h.1 (by decide) (by decide)).2.2.2,
    ⟨(h.2.1 (by decide) (by decide)).2.2.2.1,
      (h.2.1 (by decide) (by decide)).2.2.2.2 (by decide)⟩,
    (h.2.2.1 (by decide) (by decide)).2.2.2,
    ⟨(h.2.2.2 (by decide) (by decide)).2.2.2.1,
      (h.2.2.2 (by decide) (by decide)).2.2.2.2 (by decide)⟩⟩

/-- C9. `AreDomainsBlocked` is a short-circuiting OR: either every domain of the list,
checked in turn, is `(false, nil)` and the result is `(false, nil)`, or the list splits
at its first domain whose check is blocked or an error and the result (boolean, error
and state) is exactly that check's result, so nothing after it is evaluated. The
empty list gives `(false, nil)`. -/
theorem areDomainsBlocked_first_decisive (s : State) (domains : List String) :
    AreDomainsBlocked Punify s [] = ((false, none), s)
      ∧ ((allClear Punify s domains = true
            ∧ AreDomainsBlocked Punify s domains
                = ((false, none), stateAfterChecks Punify s domains))
          ∨ (∃ pre domain post,
              domains = pre ++ domain :: post
                ∧ allClear Punify s pre = true
                ∧ (IsDomainBlocked Punify (stateAfterChecks Punify s pre) domain).1
                    ≠ (false, none)
                ∧ AreDomainsBlocked Punify s domains
                    = IsDomainBlocked Punify (stateAfterChecks Punify s pre) domain)) := by
  refine ⟨rfl, ?_⟩
  induction domains generalizing s with
  | nil => exact Or.inl ⟨rfl, rfl⟩
  | cons d ds ih =>
    rcases hr : IsDomainBlocked Punify s d with ⟨⟨b, _ | e⟩, s'⟩
    · cases b
      · -- not blocked, no error: the loop goes on
        have hstep : AreDomainsBlocked Punify s (d :: ds) = AreDomainsBlocked Punify s' ds := by
          simp [AreDomainsBlocked, hr]
        rcases ih s' with ⟨hclear, hres⟩ | ⟨pre, x, post, hsplit, hclear, hdec, hres⟩
        · left
          refine ⟨by simp [allClear, hr, hclear], ?_⟩
          rw [hstep, hres]
          simp [stateAfterChecks, hr]
        · right
          refine ⟨d :: pre, x, post, by simp [hsplit], by simp [allClear, hr, hclear], ?_, ?_⟩
          · simpa [stateAfterChecks, hr] using hdec
          · rw [hstep, hres]
            simp [stateAfterChecks, hr]
      · right
        refine ⟨[], d, ds, rfl, rfl, ?_, ?_⟩
        · simp [stateAfterChecks, hr]
        · simp [AreDomainsBlocked, stateAfterChecks, hr]
    · right
      have hb := isDomainBlocked_error_false Punify s d e (by rw [hr])
      rw [hr] at hb
      simp only at hb
      subst hb
      refine ⟨[], d, ds, rfl, rfl, ?_, ?_⟩
      · simp [stateAfterChecks, hr]
      · simp [AreDomainsBlocked, stateAfterChecks, hr]

/-- C10. The URI operations are the domain operations on the host names:
`IsURIBlocked` of a URI is `IsDomainBlocked` of its host name, and `AreURIsBlocked` of a
list is `AreDomainsBlocked` of the list of host names, with the same boolean, the same
error and the same resulting state (hence the same lookups and queries). -/
theorem uri_ops_are_domain_ops {URL : Type} (Hostname : URL → String) (s : State) :
    (∀ uri : URL, IsURIBlocked Punify Hostname s uri = IsDomainBlocked Punify s (Hostname uri))
      ∧ (∀ uris : List URL,
          AreURIsBlocked Punify Hostname s uris
            = AreDomainsBlocked Punify s (uris.map Hostname)) := by
  refine ⟨fun _ => rfl, ?_⟩
  intro uris
  induction uris generalizing s with
  | nil => rfl
  | cons u us ih =>
    simp only [AreURIsBlocked, List.map_cons, AreDomainsBlocked]
    rcases IsDomainBlocked Punify s (Hostname u) with ⟨⟨b, _ | e⟩, s'⟩
    · cases b
      · simpa using ih s'
      · simp
    · simp

/-- C30. A write-side operation that returns an error, from normalisation or from the
insert or delete, leaves its own set cache exactly as it was; and none of the four
operations changes the other set's cache, whatever it returns. -/
theorem write_failure_keeps_cache (s : State) (block : DomainBlock) (allow : DomainAllow)
    (domain : String) :
    ((CreateDomainBlock Punify s block).1 ≠ none →
        (CreateDomainBlock Punify s block).2.2.caches.DomainBlock = s.caches.DomainBlock)
      ∧ ((DeleteDomainBlock Punify s domain).1 ≠ none →
        (DeleteDomainBlock Punify s domain).2.caches.DomainBlock = s.caches.DomainBlock)
      ∧ ((CreateDomainAllow Punify s allow).1 ≠ none →
        (CreateDomainAllow Punify s allow).2.2.caches.DomainAllow = s.caches.DomainAllow)
      ∧ ((DeleteDomainAllow Punify s domain).1 ≠ none →
        (DeleteDomainAllow Punify s domain).2.caches.DomainAllow = s.caches.DomainAllow)
      ∧ (CreateDomainBlock Punify s block).2.2.caches.DomainAllow = s.caches.DomainAllow
      ∧ (DeleteDomainBlock Punify s domain).2.caches.DomainAllow = s.caches.DomainAllow
      ∧ (CreateDomainAllow Punify s allow).2.2.caches.DomainBlock = s.caches.DomainBlock
      ∧ (DeleteDomainAllow Punify s domain).2.caches.DomainBlock = s.caches.DomainBlock := by
  refine ⟨?_, ?_, ?_, ?_, ?_, ?_, ?_, ?_⟩
  · unfold CreateDomainBlock
    rcases (Punify block.Domain) with ⟨n, _ | e⟩
    · simp only
      rcases (DB.insertDomainBlock s.db { block with Domain := n }) with ⟨_ | e, db'⟩ <;> simp
    · simp
  · unfold DeleteDomainBlock
    rcases (Punify domain) with ⟨n, _ | e⟩
    · simp only
      rcases (DB.deleteDomainBlock s.db n) with ⟨_ | e, db'⟩ <;> simp
    · simp
  · unfold CreateDomainAllow
    rcases (Punify allow.Domain) with ⟨n, _ | e⟩
    · simp only
      rcases (DB.insertDomainAllow s.db { allow with Domain := n }) with ⟨_ | e, db'⟩ <;> simp
    · simp
  · unfold DeleteDomainAllow
    rcases (Punify domain) with ⟨n, _ | e⟩
    · simp only
      rcases (DB.deleteDomainAllow s.db n) with ⟨_ | e, db'⟩ <;> simp
    · simp
  · unfold CreateDomainBlock
    rcases (Punify block.Domain) with ⟨n, _ | e⟩
    · simp only
      rcases (DB.insertDomainBlock s.db { block with Domain := n }) with ⟨_ | e, db'⟩ <;> simp
    · simp
  · unfold DeleteDomainBlock
    rcases (Punify domain) with ⟨n, _ | e⟩
    · simp only
      rcases (DB.deleteDomainBlock s.db n) with ⟨_ | e, db'⟩ <;> simp
    · simp
  · unfold CreateDomainAllow
    rcases (Punify allow.Domain) with ⟨n, _ | e⟩
    · simp only
      rcases (DB.insertDomainAllow s.db { allow with Domain := n }) with ⟨_ | e, db'⟩ <;> simp
    · simp
  · unfold DeleteDomainAllow
    rcases (Punify domain) with ⟨n, _ | e⟩
    · simp only
      rcases (DB.deleteDomainAllow s.db n) with ⟨_ | e, db'⟩ <;> simp
    · simp

/-- Witness for C30: on the sample instance with a hydrated block cache whose next
query fails, a block and a delete fail in storage, and an allow and a delete of an
allow fail in normalisation; each cache keeps its state. -/
theorem write_failure_keeps_cache_witness :
    (CreateDomainBlock PunifyASCII sampleSelfBlocked
        { ID := "09", Domain := "Spam.Example" }).2.2.caches.DomainBlock
        = sampleSelfBlocked.caches.DomainBlock
      ∧ (DeleteDomainBlock PunifyASCII sampleSelfBlocked "Spam.Example").2.caches.DomainBlock
        = sampleSelfBlocked.caches.DomainBlock
      ∧ (CreateDomainAllow PunifyASCII sampleBlocked
          { ID := "10", Domain := "good example" }).2.2.caches.DomainAllow
        = sampleBlocked.caches.DomainAllow
      ∧ (DeleteDomainAllow PunifyASCII sampleBlocked "good example").2.caches.DomainAllow
        = sampleBlocked.caches.DomainAllow :=
  ⟨(write_failure_keeps_cache PunifyASCII sampleSelfBlocked
      { ID := "09", Domain := "Spam.Example" } { ID := "10", Domain := "good example" }
      "Spam.Example").1 (by decide),
    (write_failure_keeps_cache PunifyASCII sampleSelfBlocked
      { ID := "09", Domain := "Spam.Example" } { ID := "10", Domain := "good example" }
      "Spam.Example").2.1 (by decide),
    (write_failure_keeps_cache PunifyASCII sampleBlocked
      { ID := "09", Domain := "Spam.Example" } { ID := "10", Domain := "good example" }
      "good example").2.2.1 (by decide),
    (write_failure_keeps_cache PunifyASCII sampleBlocked
      { ID := "09", Domain := "Spam.Example" } { ID := "10", Domain := "good example" }
      "good example").2.2.2.1 (by decide)⟩

/-- The loop over the IDs gathers, behind what it starts with, the records whose lookup
succeeds. -/
theorem loadEach_fst {α : Type} (load : PermStore → String → Except Err α × PermStore)
    (st : PermStore) (ids : List String) (acc : List α) :
    (loadEach load st ids acc).1 = acc ++ loadedRecords load st ids := by
  induction ids generalizing st acc with
  | nil => simp [loadEach, loadedRecords]
  | cons id rest ih =>
    unfold loadEach loadedRecords
    rcases load st id with ⟨e | v, st'⟩
    · simp [ih]
    · simp [ih]

/-- The IDs whose lookup succeeds are a sublist of the IDs gone through. -/
theorem succeededIDs_sublist {α : Type} (load : PermStore → String → Except Err α × PermStore)
    (st : PermStore) (ids : List String) :
    (succeededIDs load st ids).Sublist ids := by
  induction ids generalizing st with
  | nil => simp [succeededIDs]
  | cons id rest ih =>
    unfold succeededIDs
    rcases load st id with ⟨e | v, st'⟩
    · exact (ih st').cons id
    · exact (ih st').cons₂ id

/-- When a successful lookup returns the record with the ID asked for, the IDs of the
records gathered are the IDs whose lookup succeeded. -/
theorem loadedRecords_ids {α : Type} (idOf : α → String)
    (load : PermStore → String → Except Err α × PermStore)
    (hid : ∀ st id v st', load st id = (Except.ok v, st') → idOf v = id)
    (st : PermStore) (ids : List String) :
    (loadedRecords load st ids).map idOf = succeededIDs load st ids := by
  induction ids generalizing st with
  | nil => simp [loadedRecords, succeededIDs]
  | cons id rest ih =>
    unfold loadedRecords succeededIDs
    rcases h : load st id with ⟨e | v, st'⟩
    · simpa using ih st'
    · simp [ih st', hid st id v st' h]

/-- A cache hit for the lookup `ID` is a record with the ID asked for. -/
theorem cacheLookup_id {α : Type} (idOf : α → String) (cache : List α) (id : String) (v : α)
    (h : cacheLookup idOf cache "ID" [id] = some v) : idOf v = id := by
  unfold cacheLookup at h
  simp only [if_true] at h
  have := List.find?_some h
  simpa using this

/-- `GetDomainPermissionDraftByID` returns a draft with the ID asked for. -/
theorem draftByID_id (GetAccountByID : String → Except Err Account) (barebones : Bool)
    (st st' : PermStore) (id : String) (d : DomainPermissionDraft)
    (h : GetDomainPermissionDraftByID GetAccountByID barebones st id = (Except.ok d, st')) :
    d.ID = id := by
  have hload : ∀ (x : DomainPermissionDraft) (sx : PermStore),
      st.draftLoadOne "ID" (PermStore.selectDraftByID id) [id] = (Except.ok x, sx) →
      x.ID = id := by
    intro x sx hx
    unfold PermStore.draftLoadOne at hx
    rcases hc : cacheLookup (fun d : DomainPermissionDraft => d.ID) st.draftCache "ID" [id]
      with _ | c
    · rw [hc] at hx
      simp only at hx
      unfold PermStore.selectDraftByID at hx
      rcases hq : st.exec (Query.selectByID Table.domain_permission_drafts id) with ⟨_ | e, sq⟩
      · rw [hq] at hx
        simp only at hx
        rcases hf : sq.domainPermissionDrafts.find? (fun d => d.ID == id) with _ | row
        · rw [hf] at hx
          simp at hx
        · rw [hf] at hx
          simp only [Prod.mk.injEq, Except.ok.injEq] at hx
          obtain ⟨rfl, -⟩ := hx
          have := List.find?_some hf
          simpa using this
      · rw [hq] at hx
        simp at hx
    · rw [hc] at hx
      simp only [Prod.mk.injEq, Except.ok.injEq] at hx
      obtain ⟨rfl, -⟩ := hx
      exact cacheLookup_id _ _ _ _ hc
  unfold GetDomainPermissionDraftByID getDomainPermissionDraft at h
  rcases hL : st.draftLoadOne "ID" (PermStore.selectDraftByID id) [id] with ⟨e | x, sx⟩
  · rw [hL] at h
    simp at h
  · have hx := hload x sx hL
    rw [hL] at h
    simp only at h
    cases barebones
    · simp only [Bool.false_eq_true, if_false] at h
      rcases hacc : x.CreatedByAccount with _ | a
      · rw [hacc] at h
        simp only at h
        rcases hg : GetAccountByID x.CreatedByAccountID with e | acct
        · rw [hg] at h
          simp at h
        · rw [hg] at h
          simp only [Prod.mk.injEq, Except.ok.injEq] at h
          obtain ⟨rfl, -⟩ := h
          exact hx
      · rw [hacc] at h
        simp only [Prod.mk.injEq, Except.ok.injEq] at h
        obtain ⟨rfl, -⟩ := h
        exact hx
    · simp only [if_true, Prod.mk.injEq, Except.ok.injEq] at h
      obtain ⟨rfl, -⟩ := h
      exact hx

/-- `GetDomainPermissionSubscriptionByID` returns a subscription with the ID asked for. -/
theorem subscriptionByID_id (GetAccountByID : String → Except Err Account) (barebones : Bool)
    (st st' : PermStore) (id : String) (d : DomainPermissionSubscription)
    (h : GetDomainPermissionSubscriptionByID GetAccountByID barebones st id
      = (Except.ok d, st')) :
    d.ID = id := by
  have hload : ∀ (x : DomainPermissionSubscription) (sx : PermStore),
      st.subscriptionLoadOne "ID" (PermStore.selectSubscriptionByID id) [id]
        = (Except.ok x, sx) →
      x.ID = id := by
    intro x sx hx
    unfold PermStore.subscriptionLoadOne at hx
    rcases hc : cacheLookup (fun d : DomainPermissionSubscription => d.ID)
      st.subscriptionCache "ID" [id] with _ | c
    · rw [hc] at hx
      simp only at hx
      unfold PermStore.selectSubscriptionByID at hx
      rcases hq : st.exec (Query.selectByID Table.domain_permission_subscriptions id)
        with ⟨_ | e, sq⟩
      · rw [hq] at hx
        simp only at hx
        rcases hf : sq.domainPermissionSubscriptions.find? (fun d => d.ID == id) with _ | row
        · rw [hf] at hx
          simp at hx
        · rw [hf] at hx
          simp only [Prod.mk.injEq, Except.ok.injEq] at hx
          obtain ⟨rfl, -⟩ := hx
          have := List.find?_some hf
          simpa using this
      · rw [hq] at hx
        simp at hx
    · rw [hc] at hx
      simp only [Prod.mk.injEq, Except.ok.injEq] at hx
      obtain ⟨rfl, -⟩ := hx
      exact cacheLookup_id _ _ _ _ hc
  unfold GetDomainPermissionSubscriptionByID getDomainPermissionSubscription at h
  rcases hL : st.subscriptionLoadOne "ID" (PermStore.selectSubscriptionByID id) [id]
    with ⟨e | x, sx⟩
  · rw [hL] at h
    simp at h
  · have hx := hload x sx hL
    rw [hL] at h
    simp only at h
    cases barebones
    · simp only [Bool.false_eq_true, if_false] at h
      rcases hacc : x.CreatedByAccount with _ | a
      · rw [hacc] at h
        simp only at h
        rcases hg : GetAccountByID x.CreatedByAccountID with e | acct
        · rw [hg] at h
          simp at h
        · rw [hg] at h
          simp only [Prod.mk.injEq, Except.ok.injEq] at h
          obtain ⟨rfl, -⟩ := h
          exact hx
      · rw [hacc] at h
        simp only [Prod.mk.injEq, Except.ok.injEq] at h
        obtain ⟨rfl, -⟩ := h
        exact hx
    · simp only [if_true, Prod.mk.injEq, Except.ok.injEq] at h
      obtain ⟨rfl, -⟩ := h
      exact hx

/-- C27. `GetDomainPermissionDrafts` and `GetDomainPermissionSubscriptions`, once the
select of IDs has answered: with no ID they return `db.ErrNoEntries`; otherwise they
return no error and, in order, the records whose by-ID lookup succeeds along the list
of IDs taken in descending order (the answer of storage, reversed when paging up, each
lookup made in the state the lookups before it left). The IDs of the records returned
are a sublist of that list, so they are at most as many as the IDs, and when storage
answered in the order asked for they are sorted by ID descending, for both paging
directions. -/
theorem paged_lists_descending (GetAccountByID : String → Except Err Account)
    (scanIDs : PermStore → IDSelect → List String) (barebones : Bool) (st : PermStore)
    (permType : Option String) (permSubID domain : String) (page : Page) :
    (∀ (n : String) (st1 : PermStore),
        (if domain ≠ "" then Punify domain else (domain, none)) = (n, none) →
        st.exec (Query.selectIDs Table.domain_permission_drafts) = (none, st1) →
          (scanIDs st1 (draftIDSelect permType permSubID n page) = [] →
              (GetDomainPermissionDrafts Punify GetAccountByID scanIDs barebones st permType
                permSubID domain page).1 = ([], some Err.noEntries))
            ∧ (scanIDs st1 (draftIDSelect permType permSubID n page) ≠ [] →
              (GetDomainPermissionDrafts Punify GetAccountByID scanIDs barebones st permType
                  permSubID domain page).1
                  = (loadedRecords (GetDomainPermissionDraftByID GetAccountByID barebones) st1
                      (descendingIDs page
                        (scanIDs st1 (draftIDSelect permType permSubID n page))), none)
                ∧ ((GetDomainPermissionDrafts Punify GetAccountByID scanIDs barebones st
                    permType permSubID domain page).1.1.map (fun d => d.ID)).Sublist
                    (descendingIDs page
                      (scanIDs st1 (draftIDSelect permType permSubID n page)))
                ∧ (GetDomainPermissionDrafts Punify GetAccountByID scanIDs barebones st
                    permType permSubID domain page).1.1.length
                    ≤ (scanIDs st1 (draftIDSelect permType permSubID n page)).length
                ∧ (inRequestedOrder page
                      (scanIDs st1 (draftIDSelect permType permSubID n page)) →
                    ((GetDomainPermissionDrafts Punify GetAccountByID scanIDs barebones st
                      permType permSubID domain page).1.1.map (fun d => d.ID)).Pairwise
                      (fun a b => b ≤ a))))
      ∧ (∀ st1 : PermStore,
        st.exec (Query.selectIDs Table.domain_permission_subscriptions) = (none, st1) →
          (scanIDs st1 (subscriptionIDSelect permType page) = [] →
              (GetDomainPermissionSubscriptions GetAccountByID scanIDs barebones st permType
                page).1 = ([], some Err.noEntries))
            ∧ (scanIDs st1 (subscriptionIDSelect permType page) ≠ [] →
              (GetDomainPermissionSubscriptions GetAccountByID scanIDs barebones st permType
                  page).1
                  = (loadedRecords (GetDomainPermissionSubscriptionByID GetAccountByID barebones)
                      st1 (descendingIDs page (scanIDs st1 (subscriptionIDSelect permType page))),
                      none)
                ∧ ((GetDomainPermissionSubscriptions GetAccountByID scanIDs barebones st
                    permType page).1.1.map (fun d => d.ID)).Sublist
                    (descendingIDs page (scanIDs st1 (subscriptionIDSelect permType page)))
                ∧ (GetDomainPermissionSubscriptions GetAccountByID scanIDs barebones st
                    permType page).1.1.length
                    ≤ (scanIDs st1 (subscriptionIDSelect permType page)).length
                ∧ (inRequestedOrder page (scanIDs st1 (subscriptionIDSelect permType page)) →
                    ((GetDomainPermissionSubscriptions GetAccountByID scanIDs barebones st
                      permType page).1.1.map (fun d => d.ID)).Pairwise
                      (fun a b => b ≤ a)))) := by
  -- facts common to both functions
  have hdesc : ∀ ids : List String, inRequestedOrder page ids →
      (descendingIDs page ids).Pairwise (fun a b => b ≤ a) := by
    intro ids hord
    unfold inRequestedOrder at hord
    unfold descendingIDs
    by_cases hasc : page.Order = Order.OrderAscending
    · rw [if_pos hasc] at hord ⊢
      exact List.pairwise_reverse.mpr hord
    · rw [if_neg hasc] at hord ⊢
      exact hord
  have hlen : ∀ ids : List String, (descendingIDs page ids).length = ids.length := by
    intro ids
    unfold descendingIDs
    split_ifs <;> simp
  constructor
  · intro n st1 hp hexec
    have hids := loadedRecords_ids (fun d : DomainPermissionDraft => d.ID)
      (GetDomainPermissionDraftByID GetAccountByID barebones)
      (fun a b c d h => draftByID_id GetAccountByID barebones a d b c h) st1
      (descendingIDs page (scanIDs st1 (draftIDSelect permType permSubID n page)))
    have hsub := succeededIDs_sublist (GetDomainPermissionDraftByID GetAccountByID barebones)
      st1 (descendingIDs page (scanIDs st1 (draftIDSelect permType permSubID n page)))
    constructor
    · intro hempty
      unfold GetDomainPermissionDrafts
      simp only [hp, hexec]
      unfold draftIDSelect at hempty
      simp [hempty]
    · intro hne
      have hres : (GetDomainPermissionDrafts Punify GetAccountByID scanIDs barebones st permType
          permSubID domain page).1
          = (loadedRecords (GetDomainPermissionDraftByID GetAccountByID barebones) st1
              (descendingIDs page
                (scanIDs st1 (draftIDSelect permType permSubID n page))), none) := by
        unfold GetDomainPermissionDrafts
        simp only [hp, hexec]
        unfold draftIDSelect descendingIDs at *
        have hl : (scanIDs st1
            { table := Table.domain_permission_drafts, maxID := page.Max, minID := page.Min,
              permType := permType, permSubID := permSubID, domain := n,
              limit := page.Limit,
              ascending := decide (page.Order = Order.OrderAscending) }).length ≠ 0 := by
          simpa using hne
        simp only [hl, if_false, loadEach_fst, List.nil_append]
      rw [hres]
      simp only
      rw [hids]
      refine ⟨trivial, hsub, ?_, ?_⟩
      · have h1 := congrArg List.length hids
        simp only [List.length_map] at h1
        rw [h1]
        exact le_trans hsub.length_le (le_of_eq (hlen _))
      · intro hord
        exact (hdesc _ hord).sublist hsub
  · intro st1 hexec
    have hids := loadedRecords_ids (fun d : DomainPermissionSubscription => d.ID)
      (GetDomainPermissionSubscriptionByID GetAccountByID barebones)
      (fun a b c d h => subscriptionByID_id GetAccountByID barebones a d b c h) st1
      (descendingIDs page (scanIDs st1 (subscriptionIDSelect permType page)))
    have hsub := succeededIDs_sublist
      (GetDomainPermissionSubscriptionByID GetAccountByID barebones)
      st1 (descendingIDs page (scanIDs st1 (subscriptionIDSelect permType page)))
    constructor
    · intro hempty
      unfold GetDomainPermissionSubscriptions
      simp only [hexec]
      unfold subscriptionIDSelect at hempty
      simp [hempty]
    · intro hne
      have hres : (GetDomainPermissionSubscriptions GetAccountByID scanIDs barebones st permType
          page).1
          = (loadedRecords (GetDomainPermissionSubscriptionByID GetAccountByID barebones) st1
              (descendingIDs page (scanIDs st1 (subscriptionIDSelect permType page))),
              none) := by
        unfold GetDomainPermissionSubscriptions
        simp only [hexec]
        unfold subscriptionIDSelect descendingIDs at *
        have hl : (scanIDs st1
            { table := Table.domain_permission_subscriptions, maxID := page.Max,
              minID := page.Min, permType := permType, permSubID := "", domain := "",
              limit := page.Limit,
              ascending := decide (page.Order = Order.OrderAscending) }).length ≠ 0 := by
          simpa using hne
        simp only [hl, if_false, loadEach_fst, List.nil_append]
      rw [hres]
      simp only
      rw [hids]
      refine ⟨trivial, hsub, ?_, ?_⟩
      · have h1 := congrArg List.length hids
        simp only [List.length_map] at h1
        rw [h1]
        exact le_trans hsub.length_le (le_of_eq (hlen _))
      · intro hord
        exact (hdesc _ hord).sublist hsub

/-- Witness for C27: the three sample drafts paged up (the lookup of `01A` fails in
storage) and the sample subscription paged down; the IDs returned are in descending
order. -/
theorem paged_lists_descending_witness :
    (((GetDomainPermissionDrafts PunifyASCII sampleGetAccountByID sampleScanIDs false
          samplePermStore none "" "" pageUp).1.1.map (fun d => d.ID)).Sublist
          (descendingIDs pageUp ["01A", "01B", "01C"])
        ∧ ((GetDomainPermissionDrafts PunifyASCII sampleGetAccountByID sampleScanIDs false
          samplePermStore none "" "" pageUp).1.1.map (fun d => d.ID)).Pairwise
            (fun a b => b ≤ a))
      ∧ ((GetDomainPermissionSubscriptions sampleGetAccountByID sampleScanIDs false
          samplePermStore none pageDown).1.1.map (fun d => d.ID)).Pairwise
            (fun a b => b ≤ a) :=
  ⟨⟨((((paged_lists_descending PunifyASCII sampleGetAccountByID sampleScanIDs false
          samplePermStore none "" "" pageUp).1 ""
          (samplePermStore.exec (Query.selectIDs Table.domain_permission_drafts)).2
          (by decide) (by decide)).2 (by decide)).2.1),
      ((((paged_lists_descending PunifyASCII sampleGetAccountByID sampleScanIDs false
          samplePermStore none "" "" pageUp).1 ""
          (samplePermStore.exec (Query.selectIDs Table.domain_permission_drafts)).2
          (by decide) (by decide)).2 (by decide)).2.2.2
          (by
            show inRequestedOrder pageUp ["01A", "01B", "01C"]
            unfold inRequestedOrder
            rw [if_pos (by decide)]
            simp only [String.le_iff_toList_le]
            decide))⟩,
    ((((paged_lists_descending PunifyASCII sampleGetAccountByID sampleScanIDs false
          samplePermStore none "" "" pageDown).2
          (samplePermStore.exec (Query.selectIDs Table.domain_permission_subscriptions)).2
          (by decide)).2 (by decide)).2.2.2
          (by
            show inRequestedOrder pageDown ["01S"]
            unfold inRequestedOrder
            rw [if_neg (by decide)]
            simp))⟩

/-- An insert into `domain_blocks` logs the domain of its row and adds at most that row. -/
theorem DB.insertDomainBlock_frame (db : DB) (block : DomainBlock) :
    (db.insertDomainBlock block).2.log
        = db.log ++ [Query.insert Table.domain_blocks block.Domain]
      ∧ ∀ row ∈ (db.insertDomainBlock block).2.domainBlocks,
          row ∈ db.domainBlocks ∨ row = block := by
  have hf := DB.exec_frame db (Query.insert Table.domain_blocks block.Domain)
  unfold DB.insertDomainBlock
  rcases hx : db.exec (Query.insert Table.domain_blocks block.Domain) with ⟨_ | e, db'⟩
  · rw [hx] at hf
    simp only at hf ⊢
    refine ⟨hf.2.2, ?_⟩
    intro row hrow
    rw [hf.2.1] at hrow
    simpa using hrow
  · rw [hx] at hf
    simp only at hf ⊢
    refine ⟨hf.2.2, ?_⟩
    intro row hrow
    rw [hf.2.1] at hrow
    exact Or.inl hrow

/-- An insert into `domain_allows` logs the domain of its row and adds at most that row. -/
theorem DB.insertDomainAllow_frame (db : DB) (allow : DomainAllow) :
    (db.insertDomainAllow allow).2.log
        = db.log ++ [Query.insert Table.domain_allows allow.Domain]
      ∧ ∀ row ∈ (db.insertDomainAllow allow).2.domainAllows,
          row ∈ db.domainAllows ∨ row = allow := by
  have hf := DB.exec_frame db (Query.insert Table.domain_allows allow.Domain)
  unfold DB.insertDomainAllow
  rcases hx : db.exec (Query.insert Table.domain_allows allow.Domain) with ⟨_ | e, db'⟩
  · rw [hx] at hf
    simp only at hf ⊢
    refine ⟨hf.2.2, ?_⟩
    intro row hrow
    rw [hf.1] at hrow
    simpa using hrow
  · rw [hx] at hf
    simp only at hf ⊢
    refine ⟨hf.2.2, ?_⟩
    intro row hrow
    rw [hf.1] at hrow
    exact Or.inl hrow

/-- The select by domain on `domain_blocks` logs its query and returns only a row with
that domain. -/
theorem DB.selectDomainBlock_frame (db : DB) (n : String) :
    (db.selectDomainBlock n).2.log
        = db.log ++ [Query.selectByDomain Table.domain_blocks n]
      ∧ ∀ b : DomainBlock, (db.selectDomainBlock n).1 = Except.ok b → b.Domain = n := by
  have hf := DB.exec_frame db (Query.selectByDomain Table.domain_blocks n)
  unfold DB.selectDomainBlock
  rcases hx : db.exec (Query.selectByDomain Table.domain_blocks n) with ⟨_ | e, db'⟩
  · rw [hx] at hf
    simp only at hf ⊢
    split
    · rename_i row hfind
      refine ⟨hf.2.2, ?_⟩
      intro b hb
      simp only [Except.ok.injEq] at hb
      subst hb
      have := List.find?_some hfind
      simpa using this
    · refine ⟨hf.2.2, ?_⟩
      intro b hb
      cases hb
  · rw [hx] at hf
    refine ⟨hf.2.2, ?_⟩
    intro b hb
    cases hb

/-- The select by domain on `domain_allows` logs its query and returns only a row with
that domain. -/
theorem DB.selectDomainAllow_frame (db : DB) (n : String) :
    (db.selectDomainAllow n).2.log
        = db.log ++ [Query.selectByDomain Table.domain_allows n]
      ∧ ∀ a : DomainAllow, (db.selectDomainAllow n).1 = Except.ok a → a.Domain = n := by
  have hf := DB.exec_frame db (Query.selectByDomain Table.domain_allows n)
  unfold DB.selectDomainAllow
  rcases hx : db.exec (Query.selectByDomain Table.domain_allows n) with ⟨_ | e, db'⟩
  · rw [hx] at hf
    simp only at hf ⊢
    split
    · rename_i row hfind
      refine ⟨hf.2.2, ?_⟩
      intro a ha
      simp only [Except.ok.injEq] at ha
      subst ha
      have := List.find?_some hfind
      simpa using this
    · refine ⟨hf.2.2, ?_⟩
      intro a ha
      cases ha
  · rw [hx] at hf
    refine ⟨hf.2.2, ?_⟩
    intro a ha
    cases ha

/-- C26. Stored domains are normalised. When the caller's domain normalises to `n`:
`CreateDomainBlock`, `CreateDomainAllow` and `PutDomainPermissionDraft` leave `n` in the
caller's record, issue their insert for `n`, and add to the table at most the record
with `Domain = n`; `DeleteDomainBlock` and `DeleteDomainAllow` are the delete of `n`;
`GetDomainBlock` and `GetDomainAllow` issue at most the select for `n` and return only
a row whose domain is `n`. Hence two spellings with the same normalisation give each of
these calls the same result and the same storage. -/
theorem stored_domains_normalised (s : State) (st : PermStore) (block : DomainBlock)
    (allow : DomainAllow) (permDraft : DomainPermissionDraft) (domain n D1 D2 : String) :
    (Punify block.Domain = (n, none) →
        (CreateDomainBlock Punify s block).2.1 = { block with Domain := n }
          ∧ (CreateDomainBlock Punify s block).2.2.db.log
              = s.db.log ++ [Query.insert Table.domain_blocks n]
          ∧ ∀ row ∈ (CreateDomainBlock Punify s block).2.2.db.domainBlocks,
              row ∈ s.db.domainBlocks ∨ row = { block with Domain := n })
      ∧ (Punify allow.Domain = (n, none) →
        (CreateDomainAllow Punify s allow).2.1 = { allow with Domain := n }
          ∧ (CreateDomainAllow Punify s allow).2.2.db.log
              = s.db.log ++ [Query.insert Table.domain_allows n]
          ∧ ∀ row ∈ (CreateDomainAllow Punify s allow).2.2.db.domainAllows,
              row ∈ s.db.domainAllows ∨ row = { allow with Domain := n })
      ∧ (Punify permDraft.Domain = (n, none) →
        (PutDomainPermissionDraft Punify st permDraft).2.1 = { permDraft with Domain := n }
          ∧ (PutDomainPermissionDraft Punify st permDraft).2.2.state.db.log
              = st.state.db.log ++ [Query.insert Table.domain_permission_drafts n]
          ∧ ∀ row ∈ (PutDomainPermissionDraft Punify st permDraft).2.2.domainPermissionDrafts,
              row ∈ st.domainPermissionDrafts ∨ row = { permDraft with Domain := n })
      ∧ (Punify domain = (n, none) →
        (DeleteDomainBlock Punify s domain).1 = (s.db.deleteDomainBlock n).1
          ∧ (DeleteDomainBlock Punify s domain).2.db = (s.db.deleteDomainBlock n).2
          ∧ (DeleteDomainBlock Punify s domain).2.db.log
              = s.db.log ++ [Query.delete Table.domain_blocks n]
          ∧ (DeleteDomainAllow Punify s domain).1 = (s.db.deleteDomainAllow n).1
          ∧ (DeleteDomainAllow Punify s domain).2.db = (s.db.deleteDomainAllow n).2
          ∧ (DeleteDomainAllow Punify s domain).2.db.log
              = s.db.log ++ [Query.delete Table.domain_allows n])
      ∧ (Punify domain = (n, none) →
        ((GetDomainBlock Punify s domain).2.db.log = s.db.log
            ∨ (GetDomainBlock Punify s domain).2.db.log
              = s.db.log ++ [Query.selectByDomain Table.domain_blocks n])
          ∧ (∀ b : DomainBlock, (GetDomainBlock Punify s domain).1 = Except.ok b →
              b.Domain = n)
          ∧ ((GetDomainAllow Punify s domain).2.db.log = s.db.log
            ∨ (GetDomainAllow Punify s domain).2.db.log
              = s.db.log ++ [Query.selectByDomain Table.domain_allows n])
          ∧ (∀ a : DomainAllow, (GetDomainAllow Punify s domain).1 = Except.ok a →
              a.Domain = n))
      ∧ (Punify D1 = (n, none) → Punify D2 = (n, none) →
        CreateDomainBlock Punify s { block with Domain := D1 }
            = CreateDomainBlock Punify s { block with Domain := D2 }
          ∧ CreateDomainAllow Punify s { allow with Domain := D1 }
            = CreateDomainAllow Punify s { allow with Domain := D2 }
          ∧ PutDomainPermissionDraft Punify st { permDraft with Domain := D1 }
            = PutDomainPermissionDraft Punify st { permDraft with Domain := D2 }
          ∧ DeleteDomainBlock Punify s D1 = DeleteDomainBlock Punify s D2
          ∧ DeleteDomainAllow Punify s D1 = DeleteDomainAllow Punify s D2
          ∧ GetDomainBlock Punify s D1 = GetDomainBlock Punify s D2
          ∧ GetDomainAllow Punify s D1 = GetDomainAllow Punify s D2) := by
  refine ⟨?_, ?_, ?_, ?_, ?_, ?_⟩
  · intro hp
    have hf := DB.insertDomainBlock_frame s.db { block with Domain := n }
    unfold CreateDomainBlock
    simp only [hp]
    rcases hx : s.db.insertDomainBlock { block with Domain := n } with ⟨_ | e, db'⟩
    · rw [hx] at hf
      exact ⟨rfl, hf.1, hf.2⟩
    · rw [hx] at hf
      exact ⟨rfl, hf.1, hf.2⟩
  · intro hp
    have hf := DB.insertDomainAllow_frame s.db { allow with Domain := n }
    unfold CreateDomainAllow
    simp only [hp]
    rcases hx : s.db.insertDomainAllow { allow with Domain := n } with ⟨_ | e, db'⟩
    · rw [hx] at hf
      exact ⟨rfl, hf.1, hf.2⟩
    · rw [hx] at hf
      exact ⟨rfl, hf.1, hf.2⟩
  · intro hp
    have hf := DB.exec_frame st.state.db (Query.insert Table.domain_permission_drafts n)
    unfold PutDomainPermissionDraft PermStore.exec
    simp only [hp]
    rcases hx : st.state.db.exec (Query.insert Table.domain_permission_drafts n)
      with ⟨_ | e, db'⟩
    · rw [hx] at hf
      simp only at hf ⊢
      refine ⟨trivial, hf.2.2, ?_⟩
      intro row hrow
      simpa using hrow
    · rw [hx] at hf
      simp only at hf ⊢
      refine ⟨trivial, hf.2.2, ?_⟩
      intro row hrow
      exact Or.inl hrow
  · intro hp
    have hb := DB.exec_frame s.db (Query.delete Table.domain_blocks n)
    have ha := DB.exec_frame s.db (Query.delete Table.domain_allows n)
    unfold DeleteDomainBlock DeleteDomainAllow
    simp only [hp]
    refine ⟨?_, ?_, ?_, ?_, ?_, ?_⟩
    · rcases s.db.deleteDomainBlock n with ⟨_ | e, db'⟩ <;> rfl
    · rcases s.db.deleteDomainBlock n with ⟨_ | e, db'⟩ <;> rfl
    · unfold DB.deleteDomainBlock
      rcases hx : s.db.exec (Query.delete Table.domain_blocks n) with ⟨_ | e, db'⟩
      · rw [hx] at hb
        simpa using hb.2.2
      · rw [hx] at hb
        simpa using hb.2.2
    · rcases s.db.deleteDomainAllow n with ⟨_ | e, db'⟩ <;> rfl
    · rcases s.db.deleteDomainAllow n with ⟨_ | e, db'⟩ <;> rfl
    · unfold DB.deleteDomainAllow
      rcases hx : s.db.exec (Query.delete Table.domain_allows n) with ⟨_ | e, db'⟩
      · rw [hx] at ha
        simpa using ha.2.2
      · rw [hx] at ha
        simpa using ha.2.2
  · intro hp
    have hb := DB.selectDomainBlock_frame s.db n
    have ha := DB.selectDomainAllow_frame s.db n
    unfold GetDomainBlock GetDomainAllow
    simp only [hp]
    by_cases hself : n = "" ∨ n = s.config.AccountDomain ∨ n = s.config.Host
    · rw [if_pos hself, if_pos hself]
      refine ⟨Or.inl rfl, ?_, Or.inl rfl, ?_⟩
      · intro b hb'
        cases hb'
      · intro a ha'
        cases ha'
    · rw [if_neg hself, if_neg hself]
      exact ⟨Or.inr hb.1, hb.2, Or.inr ha.1, ha.2⟩
  · intro h1 h2
    refine ⟨?_, ?_, ?_, ?_, ?_, ?_, ?_⟩
    · unfold CreateDomainBlock
      simp only [h1, h2]
    · unfold CreateDomainAllow
      simp only [h1, h2]
    · unfold PutDomainPermissionDraft
      simp only [h1, h2]
    · unfold DeleteDomainBlock
      simp only [h1, h2]
    · unfold DeleteDomainAllow
      simp only [h1, h2]
    · unfold GetDomainBlock
      simp only [h1, h2]
    · unfold GetDomainAllow
      simp only [h1, h2]

/-- Witness for C26: with the ASCII normaliser, `Example.COM` normalises to
`example.com`. The three writes store `example.com`, the two deletes delete
`example.com`, the two reads return the stored `example.com` row, and the spellings
`Example.COM` and `EXAMPLE.com` give every operation the same result. -/
theorem stored_domains_normalised_witness :
    ((CreateDomainBlock PunifyASCII sampleState { ID := "06", Domain := "Example.COM" }).2.1
          = { ID := "06", Domain := "example.com" }
        ∧ (CreateDomainBlock PunifyASCII sampleState
              { ID := "06", Domain := "Example.COM" }).2.2.db.domainBlocks
          = [{ ID := "06", Domain := "example.com" }])
      ∧ ((CreateDomainAllow PunifyASCII sampleState { ID := "07", Domain := "Example.COM" }).2.1
          = { ID := "07", Domain := "example.com" }
        ∧ (CreateDomainAllow PunifyASCII sampleState
              { ID := "07", Domain := "Example.COM" }).2.2.db.log
          = [Query.insert Table.domain_allows "example.com"])
      ∧ ((PutDomainPermissionDraft PunifyASCII samplePermStore
              { ID := "01D", PermissionType := "block", Domain := "Example.COM",
                CreatedByAccountID := "01ADMIN", CreatedByAccount := none,
                SubscriptionID := "" }).2.1.Domain = "example.com"
        ∧ (PutDomainPermissionDraft PunifyASCII samplePermStore
              { ID := "01D", PermissionType := "block", Domain := "Example.COM",
                CreatedByAccountID := "01ADMIN", CreatedByAccount := none,
                SubscriptionID := "" }).2.2.state.db.log
          = [Query.insert Table.domain_permission_drafts "example.com"])
      ∧ ((DeleteDomainBlock PunifyASCII sampleExampleBlocked "Example.COM").2.db.domainBlocks = []
        ∧ (DeleteDomainBlock PunifyASCII sampleExampleBlocked "Example.COM").2.db.log
          = sampleExampleBlocked.db.log ++ [Query.delete Table.domain_blocks "example.com"])
      ∧ ((GetDomainBlock PunifyASCII sampleExampleBlocked "Example.COM").1
          = Except.ok { ID := "05", Domain := "example.com" }
        ∧ ∀ b : DomainBlock,
            (GetDomainBlock PunifyASCII sampleExampleBlocked "Example.COM").1 = Except.ok b →
              b.Domain = "example.com")
      ∧ (GetDomainBlock PunifyASCII sampleExampleBlocked "Example.COM"
            = GetDomainBlock PunifyASCII sampleExampleBlocked "EXAMPLE.com"
        ∧ DeleteDomainAllow PunifyASCII sampleExampleBlocked "Example.COM"
            = DeleteDomainAllow PunifyASCII sampleExampleBlocked "EXAMPLE.com") :=
  have h := stored_domains_normalised PunifyASCII sampleExampleBlocked samplePermStore
    { ID := "06", Domain := "Example.COM" } { ID := "07", Domain := "Example.COM" }
    { ID := "01D", PermissionType := "block", Domain := "Example.COM",
      CreatedByAccountID := "01ADMIN", CreatedByAccount := none, SubscriptionID := "" }
    "Example.COM" "example.com" "Example.COM" "EXAMPLE.com"
  have h0 := stored_domains_normalised PunifyASCII sampleState samplePermStore
    { ID := "06", Domain := "Example.COM" } { ID := "07", Domain := "Example.COM" }
    { ID := "01D", PermissionType := "block", Domain := "Example.COM",
      CreatedByAccountID := "01ADMIN", CreatedByAccount := none, SubscriptionID := "" }
    "Example.COM" "example.com" "Example.COM" "EXAMPLE.com"
  ⟨⟨(h0.1 (by decide)).1, by decide⟩,
    ⟨(h0.2.1 (by decide)).1, (h0.2.1 (by decide)).2.1⟩,
    ⟨congrArg DomainPermissionDraft.Domain (h.2.2.1 (by decide)).1,
      (h.2.2.1 (by decide)).2.1⟩,
    ⟨by decide, (h.2.2.2.1 (by decide)).2.2.1⟩,
    ⟨rfl, (h.2.2.2.2.1 (by decide)).2.1⟩,
    ⟨(h.2.2.2.2.2 (by decide) (by decide)).2.2.2.2.2.1,
      (h.2.2.2.2.2 (by decide) (by decide)).2.2.2.2.1⟩⟩

end Theorems

end Bundb

namespace Federatingdb

/-! ## Theorems about the dispatcher -/

section Theorems

/-- `forward` is `true` exactly when no entry is an IRI equal to the requesting
account's URI. -/
theorem forward_eq_true_iff (requestingAccount : Account) (entries : List AttributedToEntry) :
    forward requestingAccount entries = true
      ↔ ∀ u : URL, AttributedToEntry.iri u ∈ entries → u.str ≠ requestingAccount.URI := by
  induction entries with
  | nil => simp [forward]
  | cons e rest ih =>
    cases e with
    | iri u =>
      by_cases hu : u.str = requestingAccount.URI
      · simp only [forward, AttributedToEntry.IsIRI, AttributedToEntry.GetIRI, hu]
        simp only [Bool.not_true, Bool.false_eq_true, if_false, if_true, false_iff]
        intro h
        exact h u (List.mem_cons_self _ _) hu
      · simp only [forward, AttributedToEntry.IsIRI, AttributedToEntry.GetIRI, hu]
        simp only [Bool.not_true, Bool.false_eq_true, if_false, ih]
        constructor
        · intro h v hv
          rcases List.mem_cons.mp hv with hv | hv
          · cases hv; exact hu
          · exact h v hv
        · intro h v hv
          exact h v (List.mem_cons_of_mem _ hv)
    | object t =>
      simp only [forward, AttributedToEntry.IsIRI, Bool.not_false, if_true, ih]
      constructor
      · intro h v hv
        rcases List.mem_cons.mp hv with hv | hv
        · cases hv
        · exact h v hv
      · intro h v hv
        exact h v (List.mem_cons_of_mem _ hv)

/-- Counterexample to C11: with the log level at debug and a `marshalItem` that fails,
`Create` returns an error although no receiving account is present. -/
theorem create_without_receiver_returns_marshal_error :
    Create sampleDebugEnv emptyState internalCtx (Activity.follow sampleFollow)
      = Outcome.returned (some (Error.new "marshal failed")) emptyState := by
  decide

/-- C11 (amended). With no receiving account on the context, `Block` returns nil and
`Create` returns nil unless the log level is debug and marshalling the activity for the
trace entry fails, in which case `Create` returns that error; in every case the state
is returned untouched: no conversion, no storage write, no message enqueued. -/
theorem create_block_without_receiver (env : Env) (s : State) (requestingAccount : Account)
    (asType : Activity) (block : ASBlock) :
    Create env s { receivingAccount := none, requestingAccount := requestingAccount } asType
        = Outcome.returned (if env.debug then env.marshalItem asType else none) s
      ∧ (Create env s { receivingAccount := none, requestingAccount := requestingAccount }
          asType).state = s
      ∧ Block env s { receivingAccount := none, requestingAccount := requestingAccount } block
        = (none, s) := by
  have key : Create env s { receivingAccount := none, requestingAccount := requestingAccount }
      asType = Outcome.returned (if env.debug then env.marshalItem asType else none) s := by
    unfold Create
    rcases h : (if env.debug then env.marshalItem asType else none) with _ | e <;> simp
  refine ⟨key, ?_, rfl⟩
  rw [key]
  rfl

/-- C12. For a Note with an `attributedTo` property, `createNote` takes the forwarded
path exactly when no entry of the property is an IRI whose string form equals
`requestingAccount.URI`: the type converter is called only on the other path. Entries
that are not IRIs are skipped, and one matching IRI anywhere in the list makes the Note
not forwarded. -/
theorem createNote_forward_iff (env : Env) (s : State) (note : Note)
    (entries : List AttributedToEntry) (receivingAccount requestingAccount : Account) :
    (forward requestingAccount entries = true
        ↔ ∀ u : URL, AttributedToEntry.iri u ∈ entries → u.str ≠ requestingAccount.URI)
      ∧ (createNote env s { note with attributedTo := some entries }
            receivingAccount requestingAccount).state.conversions
          = (if forward requestingAccount entries then s.conversions else s.conversions + 1)
      ∧ forward requestingAccount entries
          = forward requestingAccount (entries.filter AttributedToEntry.IsIRI)
      ∧ (∀ before after : List AttributedToEntry,
          forward requestingAccount
            (before ++ AttributedToEntry.iri { str := requestingAccount.URI } :: after) = false) := by
  refine ⟨forward_eq_true_iff requestingAccount entries, ?_, ?_, ?_⟩
  · unfold createNote
    simp only
    by_cases hf : forward requestingAccount entries = true
    · simp only [hf, if_true]
      rcases note.id with _ | id
      · rfl
      · simp only
        split_ifs <;> simp [State.EnqueueFederator]
    · simp only [hf, if_false, Bool.false_eq_true]
      rcases env.ASStatusToStatus { note with attributedTo := some entries } with e | status
      · simp
      · simp only
        rcases env.NewULIDFromTime status.CreatedAt with e | statusID
        · simp
        · simp only
          rcases (DB.PutStatus s.db { status with ID := statusID }) with ⟨_ | err, db'⟩
          · simp [State.EnqueueFederator]
          · simp only
            split_ifs <;> simp
  · induction entries with
    | nil => rfl
    | cons e rest ih =>
      cases e with
      | iri u =>
        by_cases hu : u.str = requestingAccount.URI
        · simp [forward, AttributedToEntry.IsIRI, AttributedToEntry.GetIRI, hu]
        · simp [forward, AttributedToEntry.IsIRI, AttributedToEntry.GetIRI, hu, ih]
      | object t =>
        simp [forward, AttributedToEntry.IsIRI, ih]
  · intro before after
    have h := (forward_eq_true_iff requestingAccount
      (before ++ AttributedToEntry.iri { str := requestingAccount.URI } :: after)).not
    rw [Bool.not_eq_true] at h
    rw [h]
    intro hall
    exact hall { str := requestingAccount.URI } (by simp) rfl

/-- Counterexample to C13: a forwarded Note whose `id` property is not an IRI makes
`createNote` return nil without enqueuing any message. -/
theorem createNote_forwarded_without_iri_enqueues_nothing :
    forward alice [AttributedToEntry.iri { str := "https://other.example/users/carol" }] = true
      ∧ createNote sampleEnv emptyState forwardedNoteWithoutIRI bob alice
          = Outcome.returned none emptyState
      ∧ (createNote sampleEnv emptyState forwardedNoteWithoutIRI bob alice).state.queue = [] := by
  decide

/-- C13 (amended). For a Note treated as forwarded that has an `id` property,
`createNote` returns nil, calls no converter and leaves storage as it is; when the id
is an IRI it enqueues exactly one message (object type Note, activity type Create, the
receiving account, `APIri` the Note's id, wire-object and internal-model fields empty),
and when the id is not an IRI it enqueues nothing. -/
theorem createNote_forwarded (env : Env) (s : State) (id : JSONLDIdProperty)
    (entries : List AttributedToEntry) (content : String)
    (receivingAccount requestingAccount : Account)
    (hforward : forward requestingAccount entries = true) :
    createNote env s { id := some id, attributedTo := some entries, content := content }
        receivingAccount requestingAccount
      = Outcome.returned none
          (match id.GetIRI with
          | none => s
          | some iri =>
            { s with queue := s.queue ++
                [{ APObjectType := ObjectNote, APActivityType := ActivityCreate,
                   APIri := some iri, APObjectModel := none, GTSModel := none,
                   ReceivingAccount := receivingAccount }] })
      ∧ (createNote env s { id := some id, attributedTo := some entries, content := content }
          receivingAccount requestingAccount).state.conversions = s.conversions
      ∧ (createNote env s { id := some id, attributedTo := some entries, content := content }
          receivingAccount requestingAccount).state.db = s.db := by
  unfold createNote
  simp only [hforward, if_true]
  rcases id with ⟨_ | iri⟩ <;>
    simp [State.EnqueueFederator, JSONLDIdProperty.IsIRI, JSONLDIdProperty.GetIRI]

/-- Witness for C13: a Note by `carol` delivered by `alice`. -/
theorem createNote_forwarded_witness :
    createNote sampleEnv emptyState
        { id := some { iri := some { str := "https://other.example/statuses/7" } },
          attributedTo := some [AttributedToEntry.iri { str := "https://other.example/users/carol" }],
          content := "relayed" } bob alice
      = Outcome.returned none
          (match JSONLDIdProperty.GetIRI
              { iri := some { str := "https://other.example/statuses/7" } } with
          | none => emptyState
          | some iri =>
            { emptyState with queue := emptyState.queue ++
                [{ APObjectType := ObjectNote, APActivityType := ActivityCreate,
                   APIri := some iri, APObjectModel := none, GTSModel := none,
                   ReceivingAccount := bob }] })
      ∧ (createNote sampleEnv emptyState
          { id := some { iri := some { str := "https://other.example/statuses/7" } },
            attributedTo := some [AttributedToEntry.iri { str := "https://other.example/users/carol" }],
            content := "relayed" } bob alice).state.conversions = emptyState.conversions
      ∧ (createNote sampleEnv emptyState
          { id := some { iri := some { str := "https://other.example/statuses/7" } },
            attributedTo := some [AttributedToEntry.iri { str := "https://other.example/users/carol" }],
            content := "relayed" } bob alice).state.db = emptyState.db :=
  createNote_forwarded sampleEnv emptyState
    { iri := some { str := "https://other.example/statuses/7" } }
    [AttributedToEntry.iri { str := "https://other.example/users/carol" }] "relayed" bob alice
    (by decide)

/-- A put that the schedule does not fail stores a row whose identity is new. -/
theorem putRow_fresh {α : Type} (key : α → String) (rows : List α) (row : α)
    (hfresh : ∀ r ∈ rows, key r ≠ key row) :
    putRow key rows row [] = (none, rows ++ [row], []) := by
  have hany : rows.any (fun r => key r == key row) = false := by
    rw [List.any_eq_false]
    intro r hr
    simpa using hfresh r hr
  simp [putRow, hany]

/-- A put that the schedule does not fail reports `ErrAlreadyExists` for a row whose
identity is already stored. -/
theorem putRow_duplicate {α : Type} (key : α → String) (rows : List α) (row old : α)
    (hold : old ∈ rows) (hkey : key old = key row) :
    putRow key rows row [] = (some ErrAlreadyExists, rows, []) := by
  have hany : rows.any (fun r => key r == key row) = true := by
    rw [List.any_eq_true]
    exact ⟨old, hold, by simpa using hkey⟩
  simp [putRow, hany]

/-- Counterexample to C14: the sample Note by `alice`, not forwarded, delivered twice to
`bob` on empty storage. With the log level at debug and a `marshalItem` that fails,
with a converter that fails, and with an identifier generator that fails, both
deliveries return an error and no Status is stored. -/
theorem replay_without_conversion_stores_nothing :
    forward sampleCtx.requestingAccount
        [AttributedToEntry.iri { str := "https://remote.example/users/alice" }] = false
      ∧ Create sampleDebugEnv emptyState sampleCtx
          (Activity.create { object := some [ObjectEntry.note sampleNote] })
        = Outcome.returned (some (Error.new "marshal failed")) emptyState
      ∧ Create sampleDebugEnv
          (Create sampleDebugEnv emptyState sampleCtx
            (Activity.create { object := some [ObjectEntry.note sampleNote] })).state
          sampleCtx (Activity.create { object := some [ObjectEntry.note sampleNote] })
        = Outcome.returned (some (Error.new "marshal failed")) emptyState
      ∧ (Create sampleFailingEnv emptyState sampleCtx
          (Activity.create { object := some [ObjectEntry.note sampleNote] })).returns
        = some (some (Error.wrap "activityCreate: one or more errors while processing activity"
            (Error.multi [Error.wrap "createNote: error converting note to status"
              (Error.new "bad note")])))
      ∧ (Create sampleFailingEnv
          (Create sampleFailingEnv emptyState sampleCtx
            (Activity.create { object := some [ObjectEntry.note sampleNote] })).state
          sampleCtx (Activity.create { object := some [ObjectEntry.note sampleNote] })).returns
        = some (some (Error.wrap "activityCreate: one or more errors while processing activity"
            (Error.multi [Error.wrap "createNote: error converting note to status"
              (Error.new "bad note")])))
      ∧ (Create sampleFailingEnv
          (Create sampleFailingEnv emptyState sampleCtx
            (Activity.create { object := some [ObjectEntry.note sampleNote] })).state
          sampleCtx
          (Activity.create { object := some [ObjectEntry.note sampleNote] })).state.db.statuses
        = []
      ∧ (Create { sampleEnv with NewULIDFromTime := fun _ => .error (Error.new "time out of range") }
          emptyState sampleCtx
          (Activity.create { object := some [ObjectEntry.note sampleNote] })).returns
        = some (some (Error.wrap "activityCreate: one or more errors while processing activity"
            (Error.multi [Error.wrap "createNote: error creating id for note"
              (Error.new "time out of range")])))
      ∧ (Create { sampleEnv with NewULIDFromTime := fun _ => .error (Error.new "time out of range") }
          emptyState sampleCtx
          (Activity.create { object := some [ObjectEntry.note sampleNote] })).state.db.statuses
        = [] := by
  decide

/-- C14 (amended). Idempotent replay. On storage that fails no put and holds no Status
with the identity of the Note's Status, delivering twice the same Create of one
non-forwarded Note, marshalled without error for the trace entry when the log level is
debug and with a conversion and an identifier generation that succeed, returns nil both
times, leaves exactly one Status with that identity in storage, stored by the first
delivery, and exactly one message on the queue in total. -/
theorem create_note_replay (env : Env) (s : State) (ctx : Context) (receivingAccount : Account)
    (note : Note) (entries : List AttributedToEntry) (status : gtsmodel.Status)
    (statusID : String)
    (hlog : (if env.debug then
        env.marshalItem (Activity.create { object := some [ObjectEntry.note note] })
      else none) = none)
    (hrecv : ctx.receivingAccount = some receivingAccount)
    (hattr : note.attributedTo = some entries)
    (hforward : forward ctx.requestingAccount entries = false)
    (hconv : env.ASStatusToStatus note = Except.ok status)
    (hid : env.NewULIDFromTime status.CreatedAt = Except.ok statusID)
    (hfaults : s.db.faults = [])
    (hfresh : ∀ r ∈ s.db.statuses, r.URI ≠ status.URI) :
    (Create env s ctx
        (Activity.create { object := some [ObjectEntry.note note] })).returns = some none
      ∧ (Create env
          (Create env s ctx (Activity.create { object := some [ObjectEntry.note note] })).state
          ctx (Activity.create { object := some [ObjectEntry.note note] })).returns = some none
      ∧ (Create env
          (Create env s ctx (Activity.create { object := some [ObjectEntry.note note] })).state
          ctx (Activity.create { object := some [ObjectEntry.note note] })).state.db.statuses
          = s.db.statuses ++ [{ status with ID := statusID }]
      ∧ ((Create env
          (Create env s ctx (Activity.create { object := some [ObjectEntry.note note] })).state
          ctx
          (Activity.create { object := some [ObjectEntry.note note] })).state.db.statuses.filter
            (fun r => r.URI == status.URI)).length = 1
      ∧ (Create env
          (Create env s ctx (Activity.create { object := some [ObjectEntry.note note] })).state
          ctx (Activity.create { object := some [ObjectEntry.note note] })).state.queue
          = s.queue ++ [statusMessage note { status with ID := statusID } receivingAccount] := by
  have hput1 := putRow_fresh (fun r : gtsmodel.Status => r.URI) s.db.statuses
    { status with ID := statusID } (by simpa using hfresh)
  have hput2 := putRow_duplicate (fun r : gtsmodel.Status => r.URI)
    (s.db.statuses ++ [{ status with ID := statusID }]) { status with ID := statusID }
    { status with ID := statusID } (by simp) rfl
  have hIs : errorsIs ErrAlreadyExists ErrAlreadyExists = true := by decide
  have h1 : Create env s ctx (Activity.create { object := some [ObjectEntry.note note] })
      = Outcome.returned none
          { db := { s.db with statuses := s.db.statuses ++ [{ status with ID := statusID }],
                              faults := [] },
            queue := s.queue ++ [statusMessage note { status with ID := statusID } receivingAccount],
            conversions := s.conversions + 1,
            ulids := s.ulids } := by
    unfold Create
    simp only [hlog, hrecv, Activity.GetTypeName, if_true]
    simp [activityCreate, activityCreateLoop, createNote, hattr, hforward, hconv, hid,
      DB.PutStatus, hfaults, hput1, State.EnqueueFederator, statusMessage]
  have h2 : Create env
      { db := { s.db with statuses := s.db.statuses ++ [{ status with ID := statusID }],
                          faults := [] },
        queue := s.queue ++ [statusMessage note { status with ID := statusID } receivingAccount],
        conversions := s.conversions + 1,
        ulids := s.ulids }
      ctx (Activity.create { object := some [ObjectEntry.note note] })
      = Outcome.returned none
          { db := { s.db with statuses := s.db.statuses ++ [{ status with ID := statusID }],
                              faults := [] },
            queue := s.queue ++ [statusMessage note { status with ID := statusID } receivingAccount],
            conversions := s.conversions + 1 + 1,
            ulids := s.ulids } := by
    unfold Create
    simp only [hlog, hrecv, Activity.GetTypeName, if_true]
    simp [activityCreate, activityCreateLoop, createNote, hattr, hforward, hconv, hid,
      DB.PutStatus, hput2, hIs]
  rw [h1]
  simp only [Outcome.state]
  rw [h2]
  have hnone : s.db.statuses.filter (fun r => r.URI == status.URI) = [] := by
    rw [List.filter_eq_nil_iff]
    intro r hr
    simpa using hfresh r hr
  refine ⟨?_, ?_, ?_, ?_, ?_⟩
  · rfl
  · rfl
  · rfl
  · simp [List.filter_append, hnone]
  · rfl

/-- Witness for C14: the sample Note by `alice`, delivered twice to `bob` on empty
storage. -/
theorem create_note_replay_witness :
    (Create sampleEnv emptyState sampleCtx
        (Activity.create { object := some [ObjectEntry.note sampleNote] })).returns = some none
      ∧ (Create sampleEnv
          (Create sampleEnv emptyState sampleCtx
            (Activity.create { object := some [ObjectEntry.note sampleNote] })).state
          sampleCtx
          (Activity.create { object := some [ObjectEntry.note sampleNote] })).returns = some none
      ∧ (Create sampleEnv
          (Create sampleEnv emptyState sampleCtx
            (Activity.create { object := some [ObjectEntry.note sampleNote] })).state
          sampleCtx
          (Activity.create { object := some [ObjectEntry.note sampleNote] })).state.db.statuses
          = emptyState.db.statuses
              ++ [{ ID := "01HF7YAT00", URI := "https://remote.example/statuses/1",
                    CreatedAt := 1700000000, Content := "hello" }]
      ∧ ((Create sampleEnv
          (Create sampleEnv emptyState sampleCtx
            (Activity.create { object := some [ObjectEntry.note sampleNote] })).state
          sampleCtx
          (Activity.create { object := some [ObjectEntry.note sampleNote] })).state.db.statuses.filter
            (fun r => r.URI == "https://remote.example/statuses/1")).length = 1
      ∧ (Create sampleEnv
          (Create sampleEnv emptyState sampleCtx
            (Activity.create { object := some [ObjectEntry.note sampleNote] })).state
          sampleCtx
          (Activity.create { object := some [ObjectEntry.note sampleNote] })).state.queue
          = emptyState.queue
              ++ [statusMessage sampleNote
                    { ID := "01HF7YAT00", URI := "https://remote.example/statuses/1",
                      CreatedAt := 1700000000, Content := "hello" } bob] :=
  create_note_replay sampleEnv emptyState sampleCtx bob sampleNote
    [AttributedToEntry.iri { str := "https://remote.example/users/alice" }]
    { ID := "", URI := "https://remote.example/statuses/1", CreatedAt := 1700000000,
      Content := "hello" }
    "01HF7YAT00" (by decide) (by decide) (by decide) (by decide) rfl rfl (by decide)
    (by decide)

/-- C15. When the put returns an error matching `ErrAlreadyExists` (by `errors.Is`),
`activityLike` and, for a non-forwarded Note, `createNote` return nil and enqueue no
message. -/
theorem alreadyExists_is_success_for_like_and_note (env : Env) (s : State)
    (receivingAccount requestingAccount : Account)
    (like : ASLike) (fave : gtsmodel.StatusFave)
    (note : Note) (entries : List AttributedToEntry) (status : gtsmodel.Status)
    (statusID : String) (err : Error) :
    (env.ASLikeToFave like = Except.ok fave →
      (s.db.PutStatusFave { fave with ID := env.NewULID s.ulids }).1 = some err →
      errorsIs ErrAlreadyExists err = true →
        (activityLike env s (Activity.like like) receivingAccount requestingAccount).1 = none
          ∧ (activityLike env s (Activity.like like) receivingAccount requestingAccount).2.queue
              = s.queue)
      ∧ (note.attributedTo = some entries →
        forward requestingAccount entries = false →
        env.ASStatusToStatus note = Except.ok status →
        env.NewULIDFromTime status.CreatedAt = Except.ok statusID →
        (s.db.PutStatus { status with ID := statusID }).1 = some err →
        errorsIs ErrAlreadyExists err = true →
          (createNote env s note receivingAccount requestingAccount).returns = some none
            ∧ (createNote env s note receivingAccount requestingAccount).state.queue
                = s.queue) := by
  constructor
  · intro hconv hput his
    unfold activityLike
    simp only [hconv]
    rcases hx : s.db.PutStatusFave { fave with ID := env.NewULID s.ulids } with ⟨_ | e, db'⟩
    · rw [hx] at hput; simp at hput
    · rw [hx] at hput
      simp only [Option.some.injEq] at hput
      subst hput
      simp [his]
  · intro hattr hforward hconv hid hput his
    unfold createNote
    simp only [hattr, hforward, hconv, hid]
    rcases hx : s.db.PutStatus { status with ID := statusID } with ⟨_ | e, db'⟩
    · rw [hx] at hput; simp at hput
    · rw [hx] at hput
      simp only [Option.some.injEq] at hput
      subst hput
      simp [his]

/-- Witness for C15: the sample Like and the sample Note, on storage that already holds
their records. -/
theorem alreadyExists_is_success_for_like_and_note_witness :
    ((activityLike sampleEnv replayState (Activity.like sampleLike) bob alice).1 = none
        ∧ (activityLike sampleEnv replayState (Activity.like sampleLike) bob alice).2.queue
            = replayState.queue)
      ∧ ((createNote sampleEnv replayState sampleNote bob alice).returns = some none
        ∧ (createNote sampleEnv replayState sampleNote bob alice).state.queue
            = replayState.queue) :=
  have h := alreadyExists_is_success_for_like_and_note sampleEnv replayState bob alice
    sampleLike { ID := "", URI := "https://remote.example/likes/1" }
    sampleNote [AttributedToEntry.iri { str := "https://remote.example/users/alice" }]
    { ID := "", URI := "https://remote.example/statuses/1", CreatedAt := 1700000000,
      Content := "hello" }
    "01HF7YAT00" ErrAlreadyExists
  ⟨h.1 rfl (by decide) (by decide),
    h.2 (by decide) (by decide) rfl rfl (by decide) (by decide)⟩

/-- C16 (the code at the failing input). On storage that already holds the record of
the delivered Follow, Flag or Block, the put reports `ErrAlreadyExists` and
`activityFollow`, `activityFlag`, `activityBlock` and `Block` return a non-nil error
built from it; nothing is enqueued. -/
theorem alreadyExists_is_error_for_follow_flag_block :
    (activityFollow sampleEnv replayState (Activity.follow sampleFollow) bob alice).1
        = some (Error.text "activityFollow: database error inserting follow request"
            ErrAlreadyExists)
      ∧ (activityFlag sampleEnv replayState (Activity.flag sampleFlag) bob alice).1
        = some (Error.wrap "activityFlag: database error inserting report" ErrAlreadyExists)
      ∧ (activityBlock sampleEnv replayState (Activity.block sampleASBlock) bob alice).1
        = some (Error.text "activityBlock: database error inserting block" ErrAlreadyExists)
      ∧ (Block sampleEnv replayState sampleCtx sampleASBlock).1
        = some (Error.text "Block: database error inserting block" ErrAlreadyExists)
      ∧ (activityFollow sampleEnv replayState (Activity.follow sampleFollow) bob alice).2.queue
        = []
      ∧ (activityFlag sampleEnv replayState (Activity.flag sampleFlag) bob alice).2.queue = []
      ∧ (activityBlock sampleEnv replayState (Activity.block sampleASBlock) bob alice).2.queue
        = []
      ∧ (Block sampleEnv replayState sampleCtx sampleASBlock).2.queue = [] := by
  decide

/-- C17. In each handler that persists a record, a failed conversion and a failed put
(for Like and Note: with an error that does not match `ErrAlreadyExists`) make the
handler return a non-nil error and enqueue no message. This holds for `activityBlock`,
`Block`, `createNote` on a non-forwarded Note, `activityFollow`, `activityLike` and
`activityFlag`. -/
theorem conversion_or_put_failure_is_fatal (env : Env) (s : State) (ctx : Context)
    (receivingAccount requestingAccount : Account) (err : Error)
    (asBlock : ASBlock) (block : gtsmodel.Block)
    (note : Note) (entries : List AttributedToEntry) (status : gtsmodel.Status)
    (statusID : String)
    (follow : ASFollow) (followRequest : gtsmodel.FollowRequest)
    (like : ASLike) (fave : gtsmodel.StatusFave)
    (flag : ASFlag) (report : gtsmodel.Report) :
    -- Block, conversion
    (env.ASBlockToBlock asBlock = Except.error err →
        ((activityBlock env s (Activity.block asBlock) receivingAccount requestingAccount).1
            ≠ none
          ∧ (activityBlock env s (Activity.block asBlock) receivingAccount
              requestingAccount).2.queue = s.queue)
        ∧ (ctx.receivingAccount = some receivingAccount →
            (Block env s ctx asBlock).1 ≠ none ∧ (Block env s ctx asBlock).2.queue = s.queue))
      -- Block, put
      ∧ (env.ASBlockToBlock asBlock = Except.ok block →
        (s.db.PutBlock { block with ID := env.NewULID s.ulids }).1 = some err →
        ((activityBlock env s (Activity.block asBlock) receivingAccount requestingAccount).1
            ≠ none
          ∧ (activityBlock env s (Activity.block asBlock) receivingAccount
              requestingAccount).2.queue = s.queue)
        ∧ (ctx.receivingAccount = some receivingAccount →
            (Block env s ctx asBlock).1 ≠ none ∧ (Block env s ctx asBlock).2.queue = s.queue))
      -- Note, conversion
      ∧ (note.attributedTo = some entries → forward requestingAccount entries = false →
        env.ASStatusToStatus note = Except.error err →
        (∃ e : Error,
            (createNote env s note receivingAccount requestingAccount).returns = some (some e))
          ∧ (createNote env s note receivingAccount requestingAccount).state.queue = s.queue)
      -- Note, put
      ∧ (note.attributedTo = some entries → forward requestingAccount entries = false →
        env.ASStatusToStatus note = Except.ok status →
        env.NewULIDFromTime status.CreatedAt = Except.ok statusID →
        (s.db.PutStatus { status with ID := statusID }).1 = some err →
        errorsIs ErrAlreadyExists err = false →
        (∃ e : Error,
            (createNote env s note receivingAccount requestingAccount).returns = some (some e))
          ∧ (createNote env s note receivingAccount requestingAccount).state.queue = s.queue)
      -- Follow, conversion
      ∧ (env.ASFollowToFollowRequest follow = Except.error err →
        (activityFollow env s (Activity.follow follow) receivingAccount requestingAccount).1
            ≠ none
          ∧ (activityFollow env s (Activity.follow follow) receivingAccount
              requestingAccount).2.queue = s.queue)
      -- Follow, put
      ∧ (env.ASFollowToFollowRequest follow = Except.ok followRequest →
        (s.db.PutFollowRequest { followRequest with ID := env.NewULID s.ulids }).1 = some err →
        (activityFollow env s (Activity.follow follow) receivingAccount requestingAccount).1
            ≠ none
          ∧ (activityFollow env s (Activity.follow follow) receivingAccount
              requestingAccount).2.queue = s.queue)
      -- Like, conversion
      ∧ (env.ASLikeToFave like = Except.error err →
        (activityLike env s (Activity.like like) receivingAccount requestingAccount).1 ≠ none
          ∧ (activityLike env s (Activity.like like) receivingAccount
              requestingAccount).2.queue = s.queue)
      -- Like, put
      ∧ (env.ASLikeToFave like = Except.ok fave →
        (s.db.PutStatusFave { fave with ID := env.NewULID s.ulids }).1 = some err →
        errorsIs ErrAlreadyExists err = false →
        (activityLike env s (Activity.like like) receivingAccount requestingAccount).1 ≠ none
          ∧ (activityLike env s (Activity.like like) receivingAccount
              requestingAccount).2.queue = s.queue)
      -- Flag, conversion
      ∧ (env.ASFlagToReport flag = Except.error err →
        (activityFlag env s (Activity.flag flag) receivingAccount requestingAccount).1 ≠ none
          ∧ (activityFlag env s (Activity.flag flag) receivingAccount
              requestingAccount).2.queue = s.queue)
      -- Flag, put
      ∧ (env.ASFlagToReport flag = Except.ok report →
        (s.db.PutReport { report with ID := env.NewULID s.ulids }).1 = some err →
        (activityFlag env s (Activity.flag flag) receivingAccount requestingAccount).1 ≠ none
          ∧ (activityFlag env s (Activity.flag flag) receivingAccount
              requestingAccount).2.queue = s.queue) := by
  refine ⟨?_, ?_, ?_, ?_, ?_, ?_, ?_, ?_, ?_, ?_⟩
  · intro hconv
    refine ⟨by simp [activityBlock, hconv], ?_⟩
    intro hrecv
    simp [Block, hrecv, hconv]
  · intro hconv hput
    rcases hx : s.db.PutBlock { block with ID := env.NewULID s.ulids } with ⟨_ | e, db'⟩
    · rw [hx] at hput; simp at hput
    · refine ⟨by simp [activityBlock, hconv, hx], ?_⟩
      intro hrecv
      simp [Block, hrecv, hconv, hx]
  · intro hattr hforward hconv
    simp [createNote, hattr, hforward, hconv]
  · intro hattr hforward hconv hid hput his
    rcases hx : s.db.PutStatus { status with ID := statusID } with ⟨_ | e, db'⟩
    · rw [hx] at hput; simp at hput
    · rw [hx] at hput
      simp only [Option.some.injEq] at hput
      subst hput
      simp [createNote, hattr, hforward, hconv, hid, hx, his]
  · intro hconv
    simp [activityFollow, hconv]
  · intro hconv hput
    rcases hx : s.db.PutFollowRequest { followRequest with ID := env.NewULID s.ulids }
      with ⟨_ | e, db'⟩
    · rw [hx] at hput; simp at hput
    · simp [activityFollow, hconv, hx]
  · intro hconv
    simp [activityLike, hconv]
  · intro hconv hput his
    rcases hx : s.db.PutStatusFave { fave with ID := env.NewULID s.ulids } with ⟨_ | e, db'⟩
    · rw [hx] at hput; simp at hput
    · rw [hx] at hput
      simp only [Option.some.injEq] at hput
      subst hput
      simp [activityLike, hconv, hx, his]
  · intro hconv
    simp [activityFlag, hconv]
  · intro hconv hput
    rcases hx : s.db.PutReport { report with ID := env.NewULID s.ulids } with ⟨_ | e, db'⟩
    · rw [hx] at hput; simp at hput
    · simp [activityFlag, hconv, hx]

/-- Witness for C17: converters that fail, and storage whose next put fails with a
connection error. -/
theorem conversion_or_put_failure_is_fatal_witness :
    ((activityBlock sampleFailingEnv emptyState (Activity.block sampleASBlock) bob alice).1
          ≠ none
        ∧ (Block sampleFailingEnv emptyState sampleCtx sampleASBlock).1 ≠ none)
      ∧ ((activityBlock sampleEnv failingState (Activity.block sampleASBlock) bob alice).1
          ≠ none
        ∧ (Block sampleEnv failingState sampleCtx sampleASBlock).2.queue = failingState.queue)
      ∧ (∃ e : Error,
          (createNote sampleFailingEnv emptyState sampleNote bob alice).returns = some (some e))
      ∧ ((∃ e : Error,
          (createNote sampleEnv failingState sampleNote bob alice).returns = some (some e))
        ∧ (createNote sampleEnv failingState sampleNote bob alice).state.queue
            = failingState.queue)
      ∧ (activityFollow sampleFailingEnv emptyState (Activity.follow sampleFollow) bob alice).1
          ≠ none
      ∧ (activityFollow sampleEnv failingState (Activity.follow sampleFollow) bob alice).1
          ≠ none
      ∧ (activityLike sampleFailingEnv emptyState (Activity.like sampleLike) bob alice).1
          ≠ none
      ∧ (activityLike sampleEnv failingState (Activity.like sampleLike) bob alice).1 ≠ none
      ∧ (activityFlag sampleFailingEnv emptyState (Activity.flag sampleFlag) bob alice).1
          ≠ none
      ∧ (activityFlag sampleEnv failingState (Activity.flag sampleFlag) bob alice).1 ≠ none :=
  have hconv := conversion_or_put_failure_is_fatal sampleFailingEnv emptyState sampleCtx
    bob alice (Error.new "bad block") sampleASBlock { ID := "", URI := "" }
    sampleNote [AttributedToEntry.iri { str := "https://remote.example/users/alice" }]
    { ID := "", URI := "", CreatedAt := 0, Content := "" } ""
    sampleFollow { ID := "", URI := "" } sampleLike { ID := "", URI := "" }
    sampleFlag { ID := "", URI := "" }
  have hnote := conversion_or_put_failure_is_fatal sampleFailingEnv emptyState sampleCtx
    bob alice (Error.new "bad note") sampleASBlock { ID := "", URI := "" }
    sampleNote [AttributedToEntry.iri { str := "https://remote.example/users/alice" }]
    { ID := "", URI := "", CreatedAt := 0, Content := "" } ""
    sampleFollow { ID := "", URI := "" } sampleLike { ID := "", URI := "" }
    sampleFlag { ID := "", URI := "" }
  have hfollow := conversion_or_put_failure_is_fatal sampleFailingEnv emptyState sampleCtx
    bob alice (Error.new "bad follow") sampleASBlock { ID := "", URI := "" }
    sampleNote [AttributedToEntry.iri { str := "https://remote.example/users/alice" }]
    { ID := "", URI := "", CreatedAt := 0, Content := "" } ""
    sampleFollow { ID := "", URI := "" } sampleLike { ID := "", URI := "" }
    sampleFlag { ID := "", URI := "" }
  have hlike := conversion_or_put_failure_is_fatal sampleFailingEnv emptyState sampleCtx
    bob alice (Error.new "bad like") sampleASBlock { ID := "", URI := "" }
    sampleNote [AttributedToEntry.iri { str := "https://remote.example/users/alice" }]
    { ID := "", URI := "", CreatedAt := 0, Content := "" } ""
    sampleFollow { ID := "", URI := "" } sampleLike { ID := "", URI := "" }
    sampleFlag { ID := "", URI := "" }
  have hflag := conversion_or_put_failure_is_fatal sampleFailingEnv emptyState sampleCtx
    bob alice (Error.new "bad flag") sampleASBlock { ID := "", URI := "" }
    sampleNote [AttributedToEntry.iri { str := "https://remote.example/users/alice" }]
    { ID := "", URI := "", CreatedAt := 0, Content := "" } ""
    sampleFollow { ID := "", URI := "" } sampleLike { ID := "", URI := "" }
    sampleFlag { ID := "", URI := "" }
  have hput := conversion_or_put_failure_is_fatal sampleEnv failingState sampleCtx
    bob alice (Error.new "connection lost") sampleASBlock
    { ID := "", URI := "https://remote.example/blocks/1" }
    sampleNote [AttributedToEntry.iri { str := "https://remote.example/users/alice" }]
    { ID := "", URI := "https://remote.example/statuses/1", CreatedAt := 1700000000,
      Content := "hello" } "01HF7YAT00"
    sampleFollow { ID := "", URI := "https://remote.example/follows/1" }
    sampleLike { ID := "", URI := "https://remote.example/likes/1" }
    sampleFlag { ID := "", URI := "https://remote.example/flags/1" }
  ⟨⟨(hconv.1 rfl).1.1, ((hconv.1 rfl).2 rfl).1⟩,
    ⟨(hput.2.1 rfl (by decide)).1.1, ((hput.2.1 rfl (by decide)).2 rfl).2⟩,
    (hnote.2.2.1 (by decide) (by decide) rfl).1,
    hput.2.2.2.1 (by decide) (by decide) rfl rfl (by decide) (by decide),
    (hfollow.2.2.2.2.1 rfl).1,
    (hput.2.2.2.2.2.1 rfl (by decide)).1,
    (hlike.2.2.2.2.2.2.1 rfl).1,
    (hput.2.2.2.2.2.2.2.1 rfl (by decide) (by decide)).1,
    (hflag.2.2.2.2.2.2.2.2.1 rfl).1,
    (hput.2.2.2.2.2.2.2.2.2 rfl (by decide)).1⟩

/-- A handler that leaves the queue as it is enqueues only what one likes. -/
theorem enqueuesOnly_of_queue_eq (p : FromFederator → Bool) (s s' : State)
    (h : s'.queue = s.queue) : enqueuesOnly p s s' :=
  ⟨[], by simp [h], by simp⟩

/-- A handler that appends one message satisfying `p` enqueues only such messages. -/
theorem enqueuesOnly_single (p : FromFederator → Bool) (s s' : State) (m : FromFederator)
    (h : s'.queue = s.queue ++ [m]) (hp : p m = true) : enqueuesOnly p s s' :=
  ⟨[m], h, by simpa using hp⟩

/-- Enqueuing only messages satisfying `p` composes. -/
theorem enqueuesOnly_trans (p : FromFederator → Bool) (s₁ s₂ s₃ : State)
    (h₁ : enqueuesOnly p s₁ s₂) (h₂ : enqueuesOnly p s₂ s₃) : enqueuesOnly p s₁ s₃ := by
  obtain ⟨a, ha, hpa⟩ := h₁
  obtain ⟨b, hb, hpb⟩ := h₂
  refine ⟨a ++ b, by rw [hb, ha, List.append_assoc], ?_⟩
  intro m hm
  rcases List.mem_append.mp hm with hm | hm
  · exact hpa m hm
  · exact hpb m hm

/-- Enqueuing only messages satisfying `p` is enqueuing only messages satisfying what
`p` implies. -/
theorem enqueuesOnly_mono (p q : FromFederator → Bool) (s s' : State)
    (hpq : ∀ m, p m = true → q m = true) (h : enqueuesOnly p s s') : enqueuesOnly q s s' := by
  obtain ⟨a, ha, hpa⟩ := h
  exact ⟨a, ha, fun m hm => hpq m (hpa m hm)⟩

/-- C18 (the code at the failing input). A Create bundling a forwarded Note without an
`id` property and the valid sample Note: `createNote` panics on the first object, so
`activityCreate` (and `Create`) panic and return nothing, and the second Note, which
is stored and enqueued when delivered alone, is never attempted. For comparison, a
Create whose first two objects fail with an error: both errors are gathered, and the
Note behind them is stored and enqueued. -/
theorem activityCreate_panics_on_forwarded_note_without_id :
    createNote sampleEnv emptyState forwardedNoteWithoutId bob alice
        = Outcome.panicked emptyState
      ∧ activityCreate sampleEnv emptyState batchWithoutId bob alice
        = Outcome.panicked emptyState
      ∧ (activityCreate sampleEnv emptyState batchWithoutId bob alice).returns = none
      ∧ (activityCreate sampleEnv emptyState batchWithoutId bob alice).state.db.statuses = []
      ∧ (activityCreate sampleEnv emptyState
          (Activity.create { object := some [ObjectEntry.note sampleNote] })
          bob alice).returns = some none
      ∧ (activityCreate sampleEnv emptyState
          (Activity.create { object := some [ObjectEntry.note sampleNote] })
          bob alice).state.db.statuses
        = [{ ID := "01HF7YAT00", URI := "https://remote.example/statuses/1",
             CreatedAt := 1700000000, Content := "hello" }]
      ∧ Create sampleEnv emptyState sampleCtx batchWithoutId = Outcome.panicked emptyState
      ∧ (activityCreate sampleEnv emptyState batchWithFailures bob alice).returns
        = some (some (Error.wrap "activityCreate: one or more errors while processing activity"
            (Error.multi [Error.new "object of Create was not a Type",
                          Error.new "createNote: note had no attributedTo"])))
      ∧ (activityCreate sampleEnv emptyState batchWithFailures bob alice).state.db.statuses
        = [{ ID := "01HF7YAT00", URI := "https://remote.example/statuses/1",
             CreatedAt := 1700000000, Content := "hello" }]
      ∧ (activityCreate sampleEnv emptyState batchWithFailures bob alice).state.queue
        = [statusMessage sampleNote
            { ID := "01HF7YAT00", URI := "https://remote.example/statuses/1",
              CreatedAt := 1700000000, Content := "hello" } bob] := by
  decide

/-- Counterexample to C19: a Create bundling the valid sample Note and a typed object
of the unhandled type `Article` stores the Note, enqueues its message and returns nil:
no error is recorded for the `Article`. -/
theorem create_note_and_unhandled_type_returns_nil :
    (Create sampleEnv emptyState sampleCtx
        (Activity.create
          { object := some [ObjectEntry.note sampleNote, ObjectEntry.other "Article"] })).returns
        = some none
      ∧ (Create sampleEnv emptyState sampleCtx
          (Activity.create
            { object := some [ObjectEntry.note sampleNote, ObjectEntry.other "Article"]
              })).state.queue.length
        = 1 := by
  decide

/-- C19 (amended). A Create bundling one valid Note (non-forwarded, convertible, with a
put that succeeds) and one object that is not a typed object stores the Note's Status,
enqueues its message and returns the wrapped combination of exactly one error, the one
recorded for the untyped object, in either order of the two. When the second object is
instead a typed object of a type other than Note, it is ignored and the call returns
nil. -/
theorem activityCreate_partial_batch (env : Env) (s : State)
    (receivingAccount requestingAccount : Account)
    (note : Note) (entries : List AttributedToEntry) (status : gtsmodel.Status)
    (statusID typeName : String)
    (hattr : note.attributedTo = some entries)
    (hforward : forward requestingAccount entries = false)
    (hconv : env.ASStatusToStatus note = Except.ok status)
    (hid : env.NewULIDFromTime status.CreatedAt = Except.ok statusID)
    (hfault : s.db.faults.headD none = none)
    (hfresh : ∀ r ∈ s.db.statuses, r.URI ≠ status.URI) :
    activityCreate env s
        (Activity.create { object := some [ObjectEntry.note note, ObjectEntry.untyped] })
        receivingAccount requestingAccount
        = Outcome.returned
            (some (Error.wrap "activityCreate: one or more errors while processing activity"
              (Error.multi [Error.new "object of Create was not a Type"])))
            { db := { s.db with statuses := s.db.statuses ++ [{ status with ID := statusID }],
                                faults := s.db.faults.tail },
              queue := s.queue
                ++ [statusMessage note { status with ID := statusID } receivingAccount],
              conversions := s.conversions + 1,
              ulids := s.ulids }
      ∧ activityCreate env s
        (Activity.create { object := some [ObjectEntry.untyped, ObjectEntry.note note] })
        receivingAccount requestingAccount
        = Outcome.returned
            (some (Error.wrap "activityCreate: one or more errors while processing activity"
              (Error.multi [Error.new "object of Create was not a Type"])))
            { db := { s.db with statuses := s.db.statuses ++ [{ status with ID := statusID }],
                                faults := s.db.faults.tail },
              queue := s.queue
                ++ [statusMessage note { status with ID := statusID } receivingAccount],
              conversions := s.conversions + 1,
              ulids := s.ulids }
      ∧ activityCreate env s
        (Activity.create { object := some [ObjectEntry.note note, ObjectEntry.other typeName] })
        receivingAccount requestingAccount
        = Outcome.returned none
            { db := { s.db with statuses := s.db.statuses ++ [{ status with ID := statusID }],
                                faults := s.db.faults.tail },
              queue := s.queue
                ++ [statusMessage note { status with ID := statusID } receivingAccount],
              conversions := s.conversions + 1,
              ulids := s.ulids } := by
  have hany : s.db.statuses.any (fun r => r.URI == status.URI) = false := by
    rw [List.any_eq_false]
    intro r hr
    simpa using hfresh r hr
  have hput : putRow (fun r : gtsmodel.Status => r.URI) s.db.statuses
      { status with ID := statusID } s.db.faults
      = (none, s.db.statuses ++ [{ status with ID := statusID }], s.db.faults.tail) := by
    unfold putRow
    rw [hfault]
    simp only [hany]
    rfl
  have hnote : createNote env s note receivingAccount requestingAccount
      = Outcome.returned none
          { db := { s.db with statuses := s.db.statuses ++ [{ status with ID := statusID }],
                              faults := s.db.faults.tail },
            queue := s.queue
              ++ [statusMessage note { status with ID := statusID } receivingAccount],
            conversions := s.conversions + 1,
            ulids := s.ulids } := by
    simp [createNote, hattr, hforward, hconv, hid, DB.PutStatus, hput,
      State.EnqueueFederator, statusMessage]
  refine ⟨?_, ?_, ?_⟩
  · simp [activityCreate, activityCreateLoop, hnote]
  · simp [activityCreate, activityCreateLoop, hnote]
  · simp [activityCreate, activityCreateLoop, hnote]

/-- Witness for C19: the sample Note by `alice` bundled with an untyped object, on empty
storage. -/
theorem activityCreate_partial_batch_witness :
    (activityCreate sampleEnv emptyState
        (Activity.create { object := some [ObjectEntry.note sampleNote, ObjectEntry.untyped] })
        bob alice).returns
        = some (some (Error.wrap "activityCreate: one or more errors while processing activity"
            (Error.multi [Error.new "object of Create was not a Type"])))
      ∧ (activityCreate sampleEnv emptyState
        (Activity.create { object := some [ObjectEntry.note sampleNote, ObjectEntry.untyped] })
        bob alice).state.db.statuses
        = [{ ID := "01HF7YAT00", URI := "https://remote.example/statuses/1",
             CreatedAt := 1700000000, Content := "hello" }]
      ∧ (activityCreate sampleEnv emptyState
        (Activity.create { object := some [ObjectEntry.note sampleNote, ObjectEntry.untyped] })
        bob alice).state.queue
        = [statusMessage sampleNote
            { ID := "01HF7YAT00", URI := "https://remote.example/statuses/1",
              CreatedAt := 1700000000, Content := "hello" } bob] :=
  have h := (activityCreate_partial_batch sampleEnv emptyState bob alice sampleNote
    [AttributedToEntry.iri { str := "https://remote.example/users/alice" }]
    { ID := "", URI := "https://remote.example/statuses/1", CreatedAt := 1700000000,
      Content := "hello" }
    "01HF7YAT00" "Article" (by decide) (by decide) rfl rfl (by decide) (by decide)).1
  ⟨congrArg Outcome.returns h, congrArg (fun r => r.state.db.statuses) h,
    congrArg (fun r => r.state.queue) h⟩

/-- Every message `activityBlock` enqueues is about a Block record, with only the
`GTSModel` field as payload. -/
theorem activityBlock_enqueuesOnly (env : Env) (s : State) (asType : Activity)
    (receiving requestingAccount : Account) :
    enqueuesOnly (FromFederator.recordMessage ActivityBlock) s
      (activityBlock env s asType receiving requestingAccount).2 := by
  unfold activityBlock
  cases asType with
  | block blockable =>
    simp only
    rcases env.ASBlockToBlock blockable with e | block
    · exact enqueuesOnly_of_queue_eq _ _ _ rfl
    · simp only
      rcases (DB.PutBlock s.db { block with ID := env.NewULID s.ulids }) with ⟨_ | err, db'⟩
      · exact enqueuesOnly_single _ _ _ _ rfl
          (by simp [FromFederator.recordMessage, FromFederator.modelOnly])
      · exact enqueuesOnly_of_queue_eq _ _ _ rfl
  | _ => exact enqueuesOnly_of_queue_eq _ _ _ rfl

/-- Every message `activityFollow` enqueues is about a Follow record, with only the
`GTSModel` field as payload. -/
theorem activityFollow_enqueuesOnly (env : Env) (s : State) (asType : Activity)
    (receivingAccount requestingAccount : Account) :
    enqueuesOnly (FromFederator.recordMessage ActivityFollow) s
      (activityFollow env s asType receivingAccount requestingAccount).2 := by
  unfold activityFollow
  cases asType with
  | follow follow =>
    simp only
    rcases env.ASFollowToFollowRequest follow with e | followRequest
    · exact enqueuesOnly_of_queue_eq _ _ _ rfl
    · simp only
      rcases (DB.PutFollowRequest s.db { followRequest with ID := env.NewULID s.ulids })
        with ⟨_ | err, db'⟩
      · exact enqueuesOnly_single _ _ _ _ rfl
          (by simp [FromFederator.recordMessage, FromFederator.modelOnly])
      · exact enqueuesOnly_of_queue_eq _ _ _ rfl
  | _ => exact enqueuesOnly_of_queue_eq _ _ _ rfl

/-- Every message `activityLike` enqueues is about a Like record, with only the
`GTSModel` field as payload. -/
theorem activityLike_enqueuesOnly (env : Env) (s : State) (asType : Activity)
    (receivingAccount requestingAccount : Account) :
    enqueuesOnly (FromFederator.recordMessage ActivityLike) s
      (activityLike env s asType receivingAccount requestingAccount).2 := by
  unfold activityLike
  cases asType with
  | like like =>
    simp only
    rcases env.ASLikeToFave like with e | fave
    · exact enqueuesOnly_of_queue_eq _ _ _ rfl
    · simp only
      rcases (DB.PutStatusFave s.db { fave with ID := env.NewULID s.ulids })
        with ⟨_ | err, db'⟩
      · exact enqueuesOnly_single _ _ _ _ rfl
          (by simp [FromFederator.recordMessage, FromFederator.modelOnly])
      · simp only
        split_ifs
        · exact enqueuesOnly_of_queue_eq _ _ _ rfl
        · exact enqueuesOnly_of_queue_eq _ _ _ rfl
  | _ => exact enqueuesOnly_of_queue_eq _ _ _ rfl

/-- Every message `activityFlag` enqueues is about a Flag record, with only the
`GTSModel` field as payload. -/
theorem activityFlag_enqueuesOnly (env : Env) (s : State) (asType : Activity)
    (receivingAccount requestingAccount : Account) :
    enqueuesOnly (FromFederator.recordMessage ActivityFlag) s
      (activityFlag env s asType receivingAccount requestingAccount).2 := by
  unfold activityFlag
  cases asType with
  | flag flag =>
    simp only
    rcases env.ASFlagToReport flag with e | report
    · exact enqueuesOnly_of_queue_eq _ _ _ rfl
    · simp only
      rcases (DB.PutReport s.db { report with ID := env.NewULID s.ulids }) with ⟨_ | err, db'⟩
      · exact enqueuesOnly_single _ _ _ _ rfl
          (by simp [FromFederator.recordMessage, FromFederator.modelOnly])
      · exact enqueuesOnly_of_queue_eq _ _ _ rfl
  | _ => exact enqueuesOnly_of_queue_eq _ _ _ rfl

/-- Every message `Block` enqueues is about a Block record, with only the `GTSModel`
field as payload. -/
theorem block_enqueuesOnly (env : Env) (s : State) (ctx : Context) (block : ASBlock) :
    enqueuesOnly (FromFederator.recordMessage ActivityBlock) s (Block env s ctx block).2 := by
  unfold Block
  rcases ctx.receivingAccount with _ | receivingAccount
  · exact enqueuesOnly_of_queue_eq _ _ _ rfl
  · simp only
    rcases env.ASBlockToBlock block with e | gtsBlock
    · exact enqueuesOnly_of_queue_eq _ _ _ rfl
    · simp only
      rcases (DB.PutBlock s.db { gtsBlock with ID := env.NewULID s.ulids }) with ⟨_ | err, db'⟩
      · exact enqueuesOnly_single _ _ _ _ rfl
          (by simp [FromFederator.recordMessage, FromFederator.modelOnly])
      · exact enqueuesOnly_of_queue_eq _ _ _ rfl

/-- Every message `createNote` enqueues for a Note with the given `attributedTo` is
about a Note; its payload is only the IRI when the Note is treated as forwarded, and
the wire object together with the internal model otherwise. -/
theorem createNote_enqueuesOnly_by_path (env : Env) (s : State) (note : Note)
    (entries : List AttributedToEntry) (receivingAccount requestingAccount : Account) :
    enqueuesOnly
      (fun m => m.noteMessage
        && (if forward requestingAccount entries then m.iriOnly else m.wireAndModel)) s
      (createNote env s { note with attributedTo := some entries }
        receivingAccount requestingAccount).state := by
  unfold createNote
  simp only
  by_cases hf : forward requestingAccount entries = true
  · simp only [hf, if_true]
    rcases note.id with _ | id
    · exact enqueuesOnly_of_queue_eq _ _ _ rfl
    · simp only
      rcases id with ⟨_ | iri⟩
      · exact enqueuesOnly_of_queue_eq _ _ _ rfl
      · exact enqueuesOnly_single _ _ _ _ rfl
          (by simp [FromFederator.noteMessage, FromFederator.iriOnly,
            JSONLDIdProperty.GetIRI])
  · simp only [hf, if_false, Bool.false_eq_true]
    rcases env.ASStatusToStatus { note with attributedTo := some entries } with e | status
    · exact enqueuesOnly_of_queue_eq _ _ _ rfl
    · simp only
      rcases env.NewULIDFromTime status.CreatedAt with e | statusID
      · exact enqueuesOnly_of_queue_eq _ _ _ rfl
      · simp only
        rcases (DB.PutStatus s.db { status with ID := statusID }) with ⟨_ | err, db'⟩
        · exact enqueuesOnly_single _ _ _ _ rfl
            (by simp [FromFederator.noteMessage, FromFederator.wireAndModel,
              FromFederator.iriOnly])
        · simp only
          split_ifs
          · exact enqueuesOnly_of_queue_eq _ _ _ rfl
          · exact enqueuesOnly_of_queue_eq _ _ _ rfl

/-- Every message `createNote` enqueues is about a Note. -/
theorem createNote_enqueuesOnly (env : Env) (s : State) (note : Note)
    (receivingAccount requestingAccount : Account) :
    enqueuesOnly FromFederator.noteMessage s
      (createNote env s note receivingAccount requestingAccount).state := by
  rcases hattr : note.attributedTo with _ | entries
  · unfold createNote
    rw [hattr]
    exact enqueuesOnly_of_queue_eq _ _ _ rfl
  · have hnote : note = { note with attributedTo := some entries } := by
      rcases note with ⟨id, attributedTo, content⟩
      simp only at hattr
      rw [hattr]
    rw [hnote]
    refine enqueuesOnly_mono _ _ _ _ ?_
      (createNote_enqueuesOnly_by_path env s note entries receivingAccount requestingAccount)
    intro m hm
    simp only [Bool.and_eq_true] at hm
    exact hm.1

/-- Every message the loop of `activityCreate` enqueues is about a Note. -/
theorem activityCreateLoop_enqueuesOnly (env : Env)
    (receivingAccount requestingAccount : Account)
    (s : State) (objects : List ObjectEntry) (errs : List Error) :
    enqueuesOnly FromFederator.noteMessage s
      (activityCreateLoop env receivingAccount requestingAccount s objects errs).state := by
  induction objects generalizing s errs with
  | nil =>
    unfold activityCreateLoop
    split_ifs <;> exact enqueuesOnly_of_queue_eq _ _ _ rfl
  | cons entry rest ih =>
    cases entry with
    | untyped =>
      unfold activityCreateLoop
      exact ih s _
    | note n =>
      have hn := createNote_enqueuesOnly env s n receivingAccount requestingAccount
      unfold activityCreateLoop
      rcases hc : createNote env s n receivingAccount requestingAccount with ⟨_ | err, s'⟩ | s'
      · rw [hc] at hn
        exact enqueuesOnly_trans _ _ _ _ hn (ih s' _)
      · rw [hc] at hn
        exact enqueuesOnly_trans _ _ _ _ hn (ih s' _)
      · rw [hc] at hn
        exact hn
    | other t =>
      unfold activityCreateLoop
      exact ih s _

/-- Every message `activityCreate` enqueues is about a Note. -/
theorem activityCreate_enqueuesOnly (env : Env) (s : State) (asType : Activity)
    (receivingAccount requestingAccount : Account) :
    enqueuesOnly FromFederator.noteMessage s
      (activityCreate env s asType receivingAccount requestingAccount).state := by
  unfold activityCreate
  cases asType with
  | create create =>
    simp only
    rcases create.object with _ | objects
    · exact enqueuesOnly_of_queue_eq _ _ _ rfl
    · exact activityCreateLoop_enqueuesOnly env receivingAccount requestingAccount s objects []
  | _ => exact enqueuesOnly_of_queue_eq _ _ _ rfl

/-- Every message `Create` enqueues is the one of the handler the type name of the
activity selects. -/
theorem create_enqueuesOnly (env : Env) (s : State) (ctx : Context) (asType : Activity) :
    enqueuesOnly (FromFederator.messageOf asType.GetTypeName) s
      (Create env s ctx asType).state := by
  have hcf : ActivityFollow ≠ ActivityCreate := by decide
  have hcl : ActivityLike ≠ ActivityCreate := by decide
  have hcg : ActivityFlag ≠ ActivityCreate := by decide
  have hfl : ActivityLike ≠ ActivityFollow := by decide
  have hfg : ActivityFlag ≠ ActivityFollow := by decide
  have hlg : ActivityFlag ≠ ActivityLike := by decide
  unfold Create
  rcases (if env.debug then env.marshalItem asType else none) with _ | err
  · simp only
    rcases ctx.receivingAccount with _ | receivingAccount
    · exact enqueuesOnly_of_queue_eq _ _ _ rfl
    · simp only
      split_ifs with h1 h2 h3 h4
      · refine enqueuesOnly_mono _ _ _ _ ?_
          (activityCreate_enqueuesOnly env s asType receivingAccount ctx.requestingAccount)
        intro m hm
        simpa [FromFederator.messageOf, h1] using hm
      · refine enqueuesOnly_mono _ _ _ _ ?_
          (activityFollow_enqueuesOnly env s asType receivingAccount ctx.requestingAccount)
        intro m hm
        simpa [FromFederator.messageOf, h2, hcf] using hm
      · refine enqueuesOnly_mono _ _ _ _ ?_
          (activityLike_enqueuesOnly env s asType receivingAccount ctx.requestingAccount)
        intro m hm
        simpa [FromFederator.messageOf, h3, hcl, hfl] using hm
      · refine enqueuesOnly_mono _ _ _ _ ?_
          (activityFlag_enqueuesOnly env s asType receivingAccount ctx.requestingAccount)
        intro m hm
        simpa [FromFederator.messageOf, h4, hcg, hfg, hlg] using hm
      · exact enqueuesOnly_of_queue_eq _ _ _ rfl
  · exact enqueuesOnly_of_queue_eq _ _ _ rfl

/-- Counterexample to C20: the message `createNote` enqueues for the non-forwarded sample
Note has two payload fields populated, the wire object and the internal model. -/
theorem createNote_message_has_two_payloads :
    (createNote sampleEnv emptyState sampleNote bob alice).state.queue.map
        (fun m => (m.APIri.isSome, m.APObjectModel.isSome, m.GTSModel.isSome,
          m.payloadCount))
      = [(false, true, true, 2)] := by
  decide

/-- C20 (amended). The payload of every message enqueued is fixed by the handler that
builds it. `Block`, `activityBlock`, `activityFollow`, `activityLike` and `activityFlag`
enqueue only messages of their own object type whose payload is the internal-model
field alone. `createNote` enqueues only messages about a Note: with only the IRI when
the Note is treated as forwarded, with the wire object together with the internal
model (and no IRI) when it is not. `activityCreate` enqueues only messages about a
Note, and `Create` only the messages of the handler the type name selects. So one
payload field is populated, except for the message of a non-forwarded Note, which has
two. -/
theorem enqueued_messages_payload (env : Env) (s : State) (ctx : Context) (asType : Activity)
    (block : ASBlock) (note : Note) (entries : List AttributedToEntry)
    (receivingAccount requestingAccount : Account) :
    enqueuesOnly (FromFederator.recordMessage ActivityBlock) s (Block env s ctx block).2
      ∧ enqueuesOnly (FromFederator.recordMessage ActivityBlock) s
          (activityBlock env s asType receivingAccount requestingAccount).2
      ∧ enqueuesOnly (FromFederator.recordMessage ActivityFollow) s
          (activityFollow env s asType receivingAccount requestingAccount).2
      ∧ enqueuesOnly (FromFederator.recordMessage ActivityLike) s
          (activityLike env s asType receivingAccount requestingAccount).2
      ∧ enqueuesOnly (FromFederator.recordMessage ActivityFlag) s
          (activityFlag env s asType receivingAccount requestingAccount).2
      ∧ enqueuesOnly
          (fun m => m.noteMessage
            && (if forward requestingAccount entries then m.iriOnly else m.wireAndModel)) s
          (createNote env s { note with attributedTo := some entries }
            receivingAccount requestingAccount).state
      ∧ enqueuesOnly FromFederator.noteMessage s
          (createNote env s note receivingAccount requestingAccount).state
      ∧ enqueuesOnly FromFederator.noteMessage s
          (activityCreate env s asType receivingAccount requestingAccount).state
      ∧ enqueuesOnly (FromFederator.messageOf asType.GetTypeName) s
          (Create env s ctx asType).state
      ∧ (∀ m : FromFederator, m.iriOnly = true → m.payloadCount = 1)
      ∧ (∀ m : FromFederator, m.modelOnly = true → m.payloadCount = 1)
      ∧ (∀ m : FromFederator, m.wireAndModel = true → m.payloadCount = 2) := by
  refine ⟨block_enqueuesOnly env s ctx block,
    activityBlock_enqueuesOnly env s asType receivingAccount requestingAccount,
    activityFollow_enqueuesOnly env s asType receivingAccount requestingAccount,
    activityLike_enqueuesOnly env s asType receivingAccount requestingAccount,
    activityFlag_enqueuesOnly env s asType receivingAccount requestingAccount,
    createNote_enqueuesOnly_by_path env s note entries receivingAccount requestingAccount,
    createNote_enqueuesOnly env s note receivingAccount requestingAccount,
    activityCreate_enqueuesOnly env s asType receivingAccount requestingAccount,
    create_enqueuesOnly env s ctx asType, ?_, ?_, ?_⟩
  · intro m hm
    rcases m with ⟨ot, at', iri, om, gm, ra⟩
    cases iri <;> cases om <;> cases gm <;>
      simp_all [FromFederator.iriOnly, FromFederator.payloadCount]
  · intro m hm
    rcases m with ⟨ot, at', iri, om, gm, ra⟩
    cases iri <;> cases om <;> cases gm <;>
      simp_all [FromFederator.modelOnly, FromFederator.payloadCount]
  · intro m hm
    rcases m with ⟨ot, at', iri, om, gm, ra⟩
    cases iri <;> cases om <;> cases gm <;>
      simp_all [FromFederator.wireAndModel, FromFederator.payloadCount]

/-- Witness for C20: the sample Like enqueues only a Like message with the internal model
alone; the message of the forwarded sample Note has one payload field populated and the
message of the non-forwarded sample Note two. -/
theorem enqueued_messages_payload_witness :
    enqueuesOnly (FromFederator.recordMessage ActivityLike) emptyState
        (activityLike sampleEnv emptyState (Activity.like sampleLike) bob alice).2
      ∧ (dereferenceMessage { str := "https://other.example/statuses/7" } bob).payloadCount = 1
      ∧ (statusMessage sampleNote
          { ID := "01HF7YAT00", URI := "https://remote.example/statuses/1",
            CreatedAt := 1700000000, Content := "hello" } bob).payloadCount = 2 :=
  have h := enqueued_messages_payload sampleEnv emptyState sampleCtx (Activity.like sampleLike)
    sampleASBlock sampleNote
    [AttributedToEntry.iri { str := "https://remote.example/users/alice" }] bob alice
  ⟨h.2.2.2.1,
    h.2.2.2.2.2.2.2.2.2.1
      (dereferenceMessage { str := "https://other.example/statuses/7" } bob) (by decide),
    h.2.2.2.2.2.2.2.2.2.2.2
      (statusMessage sampleNote
        { ID := "01HF7YAT00", URI := "https://remote.example/statuses/1",
          CreatedAt := 1700000000, Content := "hello" } bob) (by decide)⟩

/-- A put that returns no error has stored the row behind the others and consumed one
entry of the failure schedule. -/
theorem putRow_of_ok {α : Type} (key : α → String) (rows : List α) (row : α)
    (faults : List (Option Error)) (h : (putRow key rows row faults).1 = none) :
    putRow key rows row faults = (none, rows ++ [row], faults.tail) := by
  unfold putRow at h ⊢
  rcases hf : faults.headD none with _ | err
  · rw [hf] at h
    simp only at h ⊢
    by_cases hany : rows.any (fun r => key r == key row) = true
    · rw [if_pos hany] at h
      simp at h
    · rw [if_neg hany]
  · rw [hf] at h
    simp at h

/-- Counterexample to C21: the sample Follow from `alice` to `bob`, with `bob` as
receiving account, a conversion that succeeds and a put that would succeed. With the
log level at debug and a `marshalItem` that fails, `Create` returns the marshalling
error; no follow request is stored and no message enqueued. -/
theorem follow_under_debug_returns_marshal_error :
    sampleCtx.receivingAccount = some bob
      ∧ sampleDebugEnv.ASFollowToFollowRequest sampleFollow
          = Except.ok { ID := "", URI := "https://remote.example/follows/1" }
      ∧ (emptyState.db.PutFollowRequest
          { ID := sampleDebugEnv.NewULID emptyState.ulids,
            URI := "https://remote.example/follows/1" }).1 = none
      ∧ Create sampleDebugEnv emptyState sampleCtx (Activity.follow sampleFollow)
          = Outcome.returned (some (Error.new "marshal failed")) emptyState
      ∧ (Create sampleDebugEnv emptyState sampleCtx
          (Activity.follow sampleFollow)).state.db.followRequests = []
      ∧ (Create sampleDebugEnv emptyState sampleCtx
          (Activity.follow sampleFollow)).state.queue = [] :=
  ⟨by decide, rfl, by decide, by decide, by decide, by decide⟩

/-- C21 (amended). A Follow delivered through `Create` with a receiving account present,
whose conversion and put succeed. Unless the log level is debug and marshalling the
activity for the trace entry fails, it is handled by `activityFollow`: the call returns
nil; the follow request is stored once, behind the rows already there, carrying the
identifier drawn from `id.NewULID()` before the put; and exactly one message is
appended to the queue, with object type Follow, activity type Create, the receiving
account and the stored follow request as its internal model. When that marshalling
fails, `Create` returns its error and leaves the state untouched. -/
theorem follow_delivery (env : Env) (s : State) (ctx : Context) (receivingAccount : Account)
    (follow : ASFollow) (followRequest : gtsmodel.FollowRequest)
    (hrecv : ctx.receivingAccount = some receivingAccount)
    (hconv : env.ASFollowToFollowRequest follow = Except.ok followRequest)
    (hput : (s.db.PutFollowRequest { followRequest with ID := env.NewULID s.ulids }).1 = none) :
    ((if env.debug then env.marshalItem (Activity.follow follow) else none) = none →
        Create env s ctx (Activity.follow follow)
            = Outcome.ofReturn (activityFollow env s (Activity.follow follow) receivingAccount
                ctx.requestingAccount)
          ∧ Create env s ctx (Activity.follow follow)
            = Outcome.returned none
                { db := { s.db with
                          followRequests := s.db.followRequests
                            ++ [{ followRequest with ID := env.NewULID s.ulids }],
                          faults := s.db.faults.tail },
                  queue := s.queue ++
                    [{ APObjectType := ActivityFollow, APActivityType := ActivityCreate,
                       APIri := none, APObjectModel := none,
                       GTSModel := some (Model.followRequest
                         { followRequest with ID := env.NewULID s.ulids }),
                       ReceivingAccount := receivingAccount }],
                  conversions := s.conversions + 1,
                  ulids := s.ulids + 1 }
          ∧ (Create env s ctx (Activity.follow follow)).returns = some none
          ∧ (Create env s ctx (Activity.follow follow)).state.db.followRequests
              = s.db.followRequests ++ [{ followRequest with ID := env.NewULID s.ulids }]
          ∧ (Create env s ctx (Activity.follow follow)).state.queue
              = s.queue ++
                  [{ APObjectType := ActivityFollow, APActivityType := ActivityCreate,
                     APIri := none, APObjectModel := none,
                     GTSModel := some (Model.followRequest
                       { followRequest with ID := env.NewULID s.ulids }),
                     ReceivingAccount := receivingAccount }]
          ∧ (Create env s ctx (Activity.follow follow)).state.ulids = s.ulids + 1)
      ∧ (∀ err : Error,
          (if env.debug then env.marshalItem (Activity.follow follow) else none) = some err →
            Create env s ctx (Activity.follow follow) = Outcome.returned (some err) s) := by
  constructor
  · intro hlog
    have hroute : Create env s ctx (Activity.follow follow)
        = Outcome.ofReturn (activityFollow env s (Activity.follow follow) receivingAccount
            ctx.requestingAccount) := by
      unfold Create
      simp only [hlog, hrecv, Activity.GetTypeName]
      rw [if_neg (by decide)]
      simp
    have hrow := putRow_of_ok (fun r : gtsmodel.FollowRequest => r.URI) s.db.followRequests
      { followRequest with ID := env.NewULID s.ulids } s.db.faults
      (by simpa [DB.PutFollowRequest] using hput)
    have hres : activityFollow env s (Activity.follow follow) receivingAccount
        ctx.requestingAccount
        = (none,
            { db := { s.db with
                      followRequests := s.db.followRequests
                        ++ [{ followRequest with ID := env.NewULID s.ulids }],
                      faults := s.db.faults.tail },
              queue := s.queue ++
                [{ APObjectType := ActivityFollow, APActivityType := ActivityCreate,
                   APIri := none, APObjectModel := none,
                   GTSModel := some (Model.followRequest
                     { followRequest with ID := env.NewULID s.ulids }),
                   ReceivingAccount := receivingAccount }],
              conversions := s.conversions + 1,
              ulids := s.ulids + 1 }) := by
      simp [activityFollow, hconv, DB.PutFollowRequest, hrow, State.EnqueueFederator]
    refine ⟨hroute, ?_, ?_, ?_, ?_, ?_⟩ <;> rw [hroute, hres] <;> rfl
  · intro err herr
    simp [Create, herr]

/-- Witness for C21: the Follow from `alice` to `bob`, with `bob` as receiving account,
on empty storage; with quiet logging it is stored and its message enqueued, and with
failing debug marshalling the error is returned. -/
theorem follow_delivery_witness :
    (Create sampleEnv emptyState sampleCtx (Activity.follow sampleFollow)
        = Outcome.ofReturn (activityFollow sampleEnv emptyState (Activity.follow sampleFollow)
            bob sampleCtx.requestingAccount)
      ∧ Create sampleEnv emptyState sampleCtx (Activity.follow sampleFollow)
        = Outcome.returned none
            { db := { emptyState.db with
                      followRequests := emptyState.db.followRequests
                        ++ [{ ID := "01H", URI := "https://remote.example/follows/1" }],
                      faults := emptyState.db.faults.tail },
              queue := emptyState.queue ++
                [{ APObjectType := ActivityFollow, APActivityType := ActivityCreate,
                   APIri := none, APObjectModel := none,
                   GTSModel := some (Model.followRequest
                     { ID := "01H", URI := "https://remote.example/follows/1" }),
                   ReceivingAccount := bob }],
              conversions := emptyState.conversions + 1,
              ulids := emptyState.ulids + 1 }
      ∧ (Create sampleEnv emptyState sampleCtx (Activity.follow sampleFollow)).returns
          = some none
      ∧ (Create sampleEnv emptyState sampleCtx
          (Activity.follow sampleFollow)).state.db.followRequests
          = emptyState.db.followRequests
              ++ [{ ID := "01H", URI := "https://remote.example/follows/1" }]
      ∧ (Create sampleEnv emptyState sampleCtx (Activity.follow sampleFollow)).state.queue
          = emptyState.queue ++
              [{ APObjectType := ActivityFollow, APActivityType := ActivityCreate,
                 APIri := none, APObjectModel := none,
                 GTSModel := some (Model.followRequest
                   { ID := "01H", URI := "https://remote.example/follows/1" }),
                 ReceivingAccount := bob }]
      ∧ (Create sampleEnv emptyState sampleCtx (Activity.follow sampleFollow)).state.ulids
          = emptyState.ulids + 1)
      ∧ Create sampleDebugEnv emptyState sampleCtx (Activity.follow sampleFollow)
          = Outcome.returned (some (Error.new "marshal failed")) emptyState :=
  ⟨(follow_delivery sampleEnv emptyState sampleCtx bob sampleFollow
      { ID := "", URI := "https://remote.example/follows/1" }
      (by decide) rfl (by decide)).1 (by decide),
    (follow_delivery sampleDebugEnv emptyState sampleCtx bob sampleFollow
      { ID := "", URI := "https://remote.example/follows/1" }
      (by decide) rfl (by decide)).2 (Error.new "marshal failed") (by decide)⟩

/-- C22. A Block delivered with a receiving account present, whose conversion and put
succeed: `Block` (and likewise `activityBlock`) returns nil, stores the converted
record once with the identifier drawn from `id.NewULID()`, and appends exactly one
message with object type Block, activity type Create and the receiving account; its
payload is the raw wire Block for `Block`, and the stored record for `activityBlock`. -/
theorem block_delivery (env : Env) (s : State) (ctx : Context)
    (receivingAccount requestingAccount : Account)
    (asBlock : ASBlock) (block : gtsmodel.Block)
    (hrecv : ctx.receivingAccount = some receivingAccount)
    (hconv : env.ASBlockToBlock asBlock = Except.ok block)
    (hput : (s.db.PutBlock { block with ID := env.NewULID s.ulids }).1 = none) :
    Block env s ctx asBlock
        = (none,
            { db := { s.db with
                      blocks := s.db.blocks ++ [{ block with ID := env.NewULID s.ulids }],
                      faults := s.db.faults.tail },
              queue := s.queue ++
                [{ APObjectType := ActivityBlock, APActivityType := ActivityCreate,
                   APIri := none, APObjectModel := none,
                   GTSModel := some (Model.wireBlock asBlock),
                   ReceivingAccount := receivingAccount }],
              conversions := s.conversions + 1,
              ulids := s.ulids + 1 })
      ∧ activityBlock env s (Activity.block asBlock) receivingAccount requestingAccount
        = (none,
            { db := { s.db with
                      blocks := s.db.blocks ++ [{ block with ID := env.NewULID s.ulids }],
                      faults := s.db.faults.tail },
              queue := s.queue ++
                [{ APObjectType := ActivityBlock, APActivityType := ActivityCreate,
                   APIri := none, APObjectModel := none,
                   GTSModel := some (Model.block { block with ID := env.NewULID s.ulids }),
                   ReceivingAccount := receivingAccount }],
              conversions := s.conversions + 1,
              ulids := s.ulids + 1 }) := by
  have hrow := putRow_of_ok (fun r : gtsmodel.Block => r.URI) s.db.blocks
    { block with ID := env.NewULID s.ulids } s.db.faults
    (by simpa [DB.PutBlock] using hput)
  constructor
  · simp [Block, hrecv, hconv, DB.PutBlock, hrow, State.EnqueueFederator]
  · simp [activityBlock, hconv, DB.PutBlock, hrow, State.EnqueueFederator]

/-- Witness for C22: the Block of `bob` by `alice`, on empty storage. -/
theorem block_delivery_witness :
    Block sampleEnv emptyState sampleCtx sampleASBlock
        = (none,
            { db := { emptyState.db with
                      blocks := emptyState.db.blocks
                        ++ [{ ID := "01H", URI := "https://remote.example/blocks/1" }],
                      faults := emptyState.db.faults.tail },
              queue := emptyState.queue ++
                [{ APObjectType := ActivityBlock, APActivityType := ActivityCreate,
                   APIri := none, APObjectModel := none,
                   GTSModel := some (Model.wireBlock sampleASBlock),
                   ReceivingAccount := bob }],
              conversions := emptyState.conversions + 1,
              ulids := emptyState.ulids + 1 })
      ∧ activityBlock sampleEnv emptyState (Activity.block sampleASBlock) bob alice
        = (none,
            { db := { emptyState.db with
                      blocks := emptyState.db.blocks
                        ++ [{ ID := "01H", URI := "https://remote.example/blocks/1" }],
                      faults := emptyState.db.faults.tail },
              queue := emptyState.queue ++
                [{ APObjectType := ActivityBlock, APActivityType := ActivityCreate,
                   APIri := none, APObjectModel := none,
                   GTSModel := some (Model.block
                     { ID := "01H", URI := "https://remote.example/blocks/1" }),
                   ReceivingAccount := bob }],
              conversions := emptyState.conversions + 1,
              ulids := emptyState.ulids + 1 }) :=
  block_delivery sampleEnv emptyState sampleCtx bob alice sampleASBlock
    { ID := "", URI := "https://remote.example/blocks/1" } (by decide) rfl (by decide)

/-- C25. `activityCreate` on a Create without an `object` property and `createNote` on a
Note without an `attributedTo` property return a non-nil error and hand the state back
untouched: nothing converted, stored or enqueued. -/
theorem malformed_is_error (env : Env) (s : State) (note : Note)
    (receivingAccount requestingAccount : Account) :
    activityCreate env s (Activity.create { object := none }) receivingAccount requestingAccount
        = Outcome.returned (some (Error.new "Create had no Object")) s
      ∧ (∃ e : Error,
          (activityCreate env s (Activity.create { object := none }) receivingAccount
            requestingAccount).returns = some (some e))
      ∧ createNote env s { note with attributedTo := none } receivingAccount requestingAccount
        = Outcome.returned (some (Error.new "createNote: note had no attributedTo")) s
      ∧ (∃ e : Error,
          (createNote env s { note with attributedTo := none } receivingAccount
            requestingAccount).returns = some (some e)) := by
  refine ⟨rfl, ?_, rfl, ?_⟩
  · exact ⟨_, rfl⟩
  · exact ⟨_, rfl⟩

/-- Counterexample to C24: with a receiving account present, the log level at debug and
a `marshalItem` that fails, `Create` returns an error for an activity of type
`Announce`, a type name that is none of Create, Follow, Like, Flag. -/
theorem create_unhandled_type_returns_marshal_error :
    (Activity.other "Announce").GetTypeName ≠ ActivityCreate
      ∧ (Activity.other "Announce").GetTypeName ≠ ActivityFollow
      ∧ (Activity.other "Announce").GetTypeName ≠ ActivityLike
      ∧ (Activity.other "Announce").GetTypeName ≠ ActivityFlag
      ∧ Create sampleDebugEnv emptyState sampleCtx (Activity.other "Announce")
          = Outcome.returned (some (Error.new "marshal failed")) emptyState := by
  decide

/-- C24 (amended). With a receiving account present, `Create` dispatches on the type
name the activity reports: Create, Follow, Like and Flag go to `activityCreate`,
`activityFollow`, `activityLike` and `activityFlag`, whose result is returned, and any
other type name gives nil with the state untouched. This holds when the debug-level
marshalling of the activity does not fail; when it fails `Create` returns that error
before dispatching, with the state untouched. -/
theorem create_dispatch (env : Env) (s : State)
    (receivingAccount requestingAccount : Account) (asType : Activity) :
    ((if env.debug then env.marshalItem asType else none) = none →
        (asType.GetTypeName = ActivityCreate →
            Create env s { receivingAccount := some receivingAccount,
                           requestingAccount := requestingAccount } asType
              = activityCreate env s asType receivingAccount requestingAccount)
          ∧ (asType.GetTypeName = ActivityFollow →
            Create env s { receivingAccount := some receivingAccount,
                           requestingAccount := requestingAccount } asType
              = Outcome.returned
                  (activityFollow env s asType receivingAccount requestingAccount).1
                  (activityFollow env s asType receivingAccount requestingAccount).2)
          ∧ (asType.GetTypeName = ActivityLike →
            Create env s { receivingAccount := some receivingAccount,
                           requestingAccount := requestingAccount } asType
              = Outcome.returned
                  (activityLike env s asType receivingAccount requestingAccount).1
                  (activityLike env s asType receivingAccount requestingAccount).2)
          ∧ (asType.GetTypeName = ActivityFlag →
            Create env s { receivingAccount := some receivingAccount,
                           requestingAccount := requestingAccount } asType
              = Outcome.returned
                  (activityFlag env s asType receivingAccount requestingAccount).1
                  (activityFlag env s asType receivingAccount requestingAccount).2)
          ∧ (asType.GetTypeName ≠ ActivityCreate → asType.GetTypeName ≠ ActivityFollow →
              asType.GetTypeName ≠ ActivityLike → asType.GetTypeName ≠ ActivityFlag →
            Create env s { receivingAccount := some receivingAccount,
                           requestingAccount := requestingAccount } asType
              = Outcome.returned none s))
      ∧ (∀ err : Error, (if env.debug then env.marshalItem asType else none) = some err →
          Create env s { receivingAccount := some receivingAccount,
                         requestingAccount := requestingAccount } asType
            = Outcome.returned (some err) s) := by
  constructor
  · intro hlog
    have hcf : ActivityFollow ≠ ActivityCreate := by decide
    have hcl : ActivityLike ≠ ActivityCreate := by decide
    have hcg : ActivityFlag ≠ ActivityCreate := by decide
    have hfl : ActivityLike ≠ ActivityFollow := by decide
    have hfg : ActivityFlag ≠ ActivityFollow := by decide
    have hlg : ActivityFlag ≠ ActivityLike := by decide
    refine ⟨?_, ?_, ?_, ?_, ?_⟩
    · intro h
      simp [Create, hlog, h]
    · intro h
      simp [Create, hlog, h, hcf]
    · intro h
      simp [Create, hlog, h, hcl, hfl]
    · intro h
      simp [Create, hlog, h, hcg, hfg, hlg]
    · intro h1 h2 h3 h4
      simp [Create, hlog, h1, h2, h3, h4]
  · intro err herr
    simp [Create, herr]

/-- Witness for C24: the sample Follow is routed to `activityFollow`, an `Announce` is
ignored, and with failing debug marshalling the error is returned. -/
theorem create_dispatch_witness :
    Create sampleEnv emptyState { receivingAccount := some bob, requestingAccount := alice }
        (Activity.follow sampleFollow)
        = Outcome.returned
            (activityFollow sampleEnv emptyState (Activity.follow sampleFollow) bob alice).1
            (activityFollow sampleEnv emptyState (Activity.follow sampleFollow) bob alice).2
      ∧ Create sampleEnv emptyState { receivingAccount := some bob, requestingAccount := alice }
        (Activity.other "Announce") = Outcome.returned none emptyState
      ∧ Create sampleDebugEnv emptyState
        { receivingAccount := some bob, requestingAccount := alice }
        (Activity.other "Announce")
          = Outcome.returned (some (Error.new "marshal failed")) emptyState :=
  ⟨((create_dispatch sampleEnv emptyState bob alice (Activity.follow sampleFollow)).1
      (by decide)).2.1 (by decide),
    ((create_dispatch sampleEnv emptyState bob alice (Activity.other "Announce")).1
      (by decide)).2.2.2.2 (by decide) (by decide) (by decide) (by decide),
    (create_dispatch sampleDebugEnv emptyState bob alice (Activity.other "Announce")).2
      (Error.new "marshal failed") (by decide)⟩

/-- Counterexample to C23: on a queue of capacity one that already holds a message, the
enqueue of the Follow message (and of the Note message) is rejected; `activityFollow`
and `createNote` store their record, return nil, and the message is on no queue. -/
theorem full_queue_drop_returns_nil :
    (activityFollowVia (enqueueBounded 1) sampleEnv busyState (Activity.follow sampleFollow)
        bob alice).1 = none
      ∧ (activityFollowVia (enqueueBounded 1) sampleEnv busyState (Activity.follow sampleFollow)
        bob alice).2.queue = busyState.queue
      ∧ (activityFollowVia (enqueueBounded 1) sampleEnv busyState (Activity.follow sampleFollow)
        bob alice).2.db.followRequests
          = [{ ID := "01H", URI := "https://remote.example/follows/1" }]
      ∧ (createNoteVia (enqueueBounded 1) sampleEnv busyState sampleNote bob alice).returns
          = some none
      ∧ (createNoteVia (enqueueBounded 1) sampleEnv busyState sampleNote bob alice).state.queue
          = busyState.queue
      ∧ (createNoteVia (enqueueBounded 1) sampleEnv busyState sampleNote
          bob alice).state.db.statuses
          = [{ ID := "01HF7YAT00", URI := "https://remote.example/statuses/1",
               CreatedAt := 1700000000, Content := "hello" }] := by
  decide

/-- C23 (amended). Enqueue is fire-and-forget. On every path of a handler that reaches
the enqueue (the conversion and the put have succeeded; for a forwarded Note, its id is
an IRI) the handler hands its message to `EnqueueFederator` and returns nil, whatever
the queue does with the message, and so also when it rejects it. The error a handler
returns is in every case the one it returns when the message is queued. With the
appending queue the handlers of this section are the handlers themselves. -/
theorem handler_error_ignores_enqueue (enqueue : State → FromFederator → State)
    (env : Env) (s : State) (ctx : Context) (asType : Activity) (block : ASBlock)
    (note : Note) (receivingAccount requestingAccount : Account)
    (db' : DB) (gtsBlock : gtsmodel.Block) (follow : ASFollow)
    (followRequest : gtsmodel.FollowRequest) (like : ASLike) (fave : gtsmodel.StatusFave)
    (flag : ASFlag) (report : gtsmodel.Report) (entries : List AttributedToEntry)
    (iri : URL) (status : gtsmodel.Status) (statusID : String) :
    -- the paths that reach the enqueue
    (env.ASBlockToBlock block = Except.ok gtsBlock →
        s.db.PutBlock { gtsBlock with ID := env.NewULID s.ulids } = (none, db') →
        activityBlockVia enqueue env s (Activity.block block) receivingAccount requestingAccount
            = (none, enqueue
                { db := db', queue := s.queue, conversions := s.conversions + 1,
                  ulids := s.ulids + 1 }
                { APObjectType := ActivityBlock, APActivityType := ActivityCreate,
                  APIri := none, APObjectModel := none,
                  GTSModel := some (Model.block { gtsBlock with ID := env.NewULID s.ulids }),
                  ReceivingAccount := receivingAccount })
          ∧ (ctx.receivingAccount = some receivingAccount →
            BlockVia enqueue env s ctx block
              = (none, enqueue
                  { db := db', queue := s.queue, conversions := s.conversions + 1,
                    ulids := s.ulids + 1 }
                  { APObjectType := ActivityBlock, APActivityType := ActivityCreate,
                    APIri := none, APObjectModel := none,
                    GTSModel := some (Model.wireBlock block),
                    ReceivingAccount := receivingAccount })))
      ∧ (env.ASFollowToFollowRequest follow = Except.ok followRequest →
        s.db.PutFollowRequest { followRequest with ID := env.NewULID s.ulids } = (none, db') →
        activityFollowVia enqueue env s (Activity.follow follow) receivingAccount
            requestingAccount
          = (none, enqueue
              { db := db', queue := s.queue, conversions := s.conversions + 1,
                ulids := s.ulids + 1 }
              { APObjectType := ActivityFollow, APActivityType := ActivityCreate,
                APIri := none, APObjectModel := none,
                GTSModel := some (Model.followRequest
                  { followRequest with ID := env.NewULID s.ulids }),
                ReceivingAccount := receivingAccount }))
      ∧ (env.ASLikeToFave like = Except.ok fave →
        s.db.PutStatusFave { fave with ID := env.NewULID s.ulids } = (none, db') →
        activityLikeVia enqueue env s (Activity.like like) receivingAccount requestingAccount
          = (none, enqueue
              { db := db', queue := s.queue, conversions := s.conversions + 1,
                ulids := s.ulids + 1 }
              { APObjectType := ActivityLike, APActivityType := ActivityCreate,
                APIri := none, APObjectModel := none,
                GTSModel := some (Model.fave { fave with ID := env.NewULID s.ulids }),
                ReceivingAccount := receivingAccount }))
      ∧ (env.ASFlagToReport flag = Except.ok report →
        s.db.PutReport { report with ID := env.NewULID s.ulids } = (none, db') →
        activityFlagVia enqueue env s (Activity.flag flag) receivingAccount requestingAccount
          = (none, enqueue
              { db := db', queue := s.queue, conversions := s.conversions + 1,
                ulids := s.ulids + 1 }
              { APObjectType := ActivityFlag, APActivityType := ActivityCreate,
                APIri := none, APObjectModel := none,
                GTSModel := some (Model.report { report with ID := env.NewULID s.ulids }),
                ReceivingAccount := receivingAccount }))
      ∧ (forward requestingAccount entries = true →
        createNoteVia enqueue env s
            { note with id := some { iri := some iri }, attributedTo := some entries }
            receivingAccount requestingAccount
          = Outcome.returned none (enqueue s (dereferenceMessage iri receivingAccount)))
      ∧ (note.attributedTo = some entries → forward requestingAccount entries = false →
        env.ASStatusToStatus note = Except.ok status →
        env.NewULIDFromTime status.CreatedAt = Except.ok statusID →
        s.db.PutStatus { status with ID := statusID } = (none, db') →
        createNoteVia enqueue env s note receivingAccount requestingAccount
          = Outcome.returned none (enqueue
              { db := db', queue := s.queue, conversions := s.conversions + 1,
                ulids := s.ulids }
              (statusMessage note { status with ID := statusID } receivingAccount)))
      -- the returned error does not depend on the queue
      ∧ (activityBlockVia enqueue env s asType receivingAccount requestingAccount).1
        = (activityBlock env s asType receivingAccount requestingAccount).1
      ∧ (createNoteVia enqueue env s note receivingAccount requestingAccount).returns
        = (createNote env s note receivingAccount requestingAccount).returns
      ∧ (activityFollowVia enqueue env s asType receivingAccount requestingAccount).1
        = (activityFollow env s asType receivingAccount requestingAccount).1
      ∧ (activityLikeVia enqueue env s asType receivingAccount requestingAccount).1
        = (activityLike env s asType receivingAccount requestingAccount).1
      ∧ (activityFlagVia enqueue env s asType receivingAccount requestingAccount).1
        = (activityFlag env s asType receivingAccount requestingAccount).1
      ∧ (BlockVia enqueue env s ctx block).1 = (Block env s ctx block).1
      -- with the appending queue, the handlers themselves
      ∧ activityBlockVia State.EnqueueFederator env s asType receivingAccount requestingAccount
        = activityBlock env s asType receivingAccount requestingAccount
      ∧ createNoteVia State.EnqueueFederator env s note receivingAccount requestingAccount
        = createNote env s note receivingAccount requestingAccount
      ∧ activityFollowVia State.EnqueueFederator env s asType receivingAccount requestingAccount
        = activityFollow env s asType receivingAccount requestingAccount
      ∧ activityLikeVia State.EnqueueFederator env s asType receivingAccount requestingAccount
        = activityLike env s asType receivingAccount requestingAccount
      ∧ activityFlagVia State.EnqueueFederator env s asType receivingAccount requestingAccount
        = activityFlag env s asType receivingAccount requestingAccount
      ∧ BlockVia State.EnqueueFederator env s ctx block = Block env s ctx block := by
  refine ⟨?_, ?_, ?_, ?_, ?_, ?_, ?_, ?_, ?_, ?_, ?_, ?_, rfl, rfl, rfl, rfl, rfl, rfl⟩
  · intro hconv hput
    refine ⟨by simp [activityBlockVia, hconv, hput], ?_⟩
    intro hrecv
    simp [BlockVia, hrecv, hconv, hput]
  · intro hconv hput
    simp [activityFollowVia, hconv, hput]
  · intro hconv hput
    simp [activityLikeVia, hconv, hput]
  · intro hconv hput
    simp [activityFlagVia, hconv, hput]
  · intro hforward
    simp [createNoteVia, hforward, JSONLDIdProperty.IsIRI, JSONLDIdProperty.GetIRI,
      dereferenceMessage]
  · intro hattr hforward hconv hid hput
    simp [createNoteVia, hattr, hforward, hconv, hid, hput, statusMessage]
  · unfold activityBlockVia activityBlock
    cases asType with
    | block blockable =>
      simp only
      rcases env.ASBlockToBlock blockable with e | b
      · rfl
      · simp only
        rcases (DB.PutBlock s.db { b with ID := env.NewULID s.ulids }) with ⟨_ | err, db''⟩ <;> rfl
    | _ => rfl
  · unfold createNoteVia createNote
    rcases note.attributedTo with _ | attributedTo
    · rfl
    · simp only
      by_cases hf : forward requestingAccount attributedTo = true
      · simp only [hf, if_true]
        rcases note.id with _ | id
        · rfl
        · simp only
          split_ifs <;> rfl
      · simp only [hf, if_false, Bool.false_eq_true]
        rcases env.ASStatusToStatus note with e | st
        · rfl
        · simp only
          rcases env.NewULIDFromTime st.CreatedAt with e | stID
          · rfl
          · simp only
            rcases (DB.PutStatus s.db { st with ID := stID }) with ⟨_ | err, db''⟩
            · rfl
            · simp only
  · unfold activityFollowVia activityFollow
    cases asType with
    | follow f =>
      simp only
      rcases env.ASFollowToFollowRequest f with e | fr
      · rfl
      · simp only
        rcases (DB.PutFollowRequest s.db { fr with ID := env.NewULID s.ulids })
          with ⟨_ | err, db''⟩ <;> rfl
    | _ => rfl
  · unfold activityLikeVia activityLike
    cases asType with
    | like l =>
      simp only
      rcases env.ASLikeToFave l with e | fv
      · rfl
      · simp only
        rcases (DB.PutStatusFave s.db { fv with ID := env.NewULID s.ulids })
          with ⟨_ | err, db''⟩
        · rfl
        · simp only
    | _ => rfl
  · unfold activityFlagVia activityFlag
    cases asType with
    | flag f =>
      simp only
      rcases env.ASFlagToReport f with e | rp
      · rfl
      · simp only
        rcases (DB.PutReport s.db { rp with ID := env.NewULID s.ulids })
          with ⟨_ | err, db''⟩ <;> rfl
    | _ => rfl
  · unfold BlockVia Block
    rcases ctx.receivingAccount with _ | recv
    · rfl
    · simp only
      rcases env.ASBlockToBlock block with e | b
      · rfl
      · simp only
        rcases (DB.PutBlock s.db { b with ID := env.NewULID s.ulids }) with ⟨_ | err, db''⟩ <;> rfl

/-- Witness for C23: on the queue of capacity one that already holds a message, the
sample Like and the sample Flag are stored and their handlers return nil with the
message handed to the queue, which rejects it; likewise the forwarded sample Note. -/
theorem handler_error_ignores_enqueue_witness :
    (activityLikeVia (enqueueBounded 1) sampleEnv busyState (Activity.like sampleLike) bob alice
        = (none, enqueueBounded 1
            { db := { emptyState.db with
                      statusFaves := [{ ID := "01H", URI := "https://remote.example/likes/1" }] },
              queue := busyState.queue, conversions := busyState.conversions + 1,
              ulids := busyState.ulids + 1 }
            { APObjectType := ActivityLike, APActivityType := ActivityCreate,
              APIri := none, APObjectModel := none,
              GTSModel := some (Model.fave
                { ID := "01H", URI := "https://remote.example/likes/1" }),
              ReceivingAccount := bob })
      ∧ (activityLikeVia (enqueueBounded 1) sampleEnv busyState (Activity.like sampleLike)
          bob alice).2.queue = busyState.queue)
      ∧ activityFlagVia (enqueueBounded 1) sampleEnv busyState (Activity.flag sampleFlag)
          bob alice
        = (none, enqueueBounded 1
            { db := { emptyState.db with
                      reports := [{ ID := "01H", URI := "https://remote.example/flags/1" }] },
              queue := busyState.queue, conversions := busyState.conversions + 1,
              ulids := busyState.ulids + 1 }
            { APObjectType := ActivityFlag, APActivityType := ActivityCreate,
              APIri := none, APObjectModel := none,
              GTSModel := some (Model.report
                { ID := "01H", URI := "https://remote.example/flags/1" }),
              ReceivingAccount := bob })
      ∧ createNoteVia (enqueueBounded 1) sampleEnv busyState
          { sampleNote with
            id := some { iri := some { str := "https://other.example/statuses/7" } },
            attributedTo :=
              some [AttributedToEntry.iri { str := "https://other.example/users/carol" }] }
          bob alice
        = Outcome.returned none (enqueueBounded 1 busyState
            (dereferenceMessage { str := "https://other.example/statuses/7" } bob)) :=
  have hlike := handler_error_ignores_enqueue (enqueueBounded 1) sampleEnv busyState sampleCtx
    (Activity.like sampleLike) sampleASBlock sampleNote bob alice
    { emptyState.db with
      statusFaves := [{ ID := "01H", URI := "https://remote.example/likes/1" }] }
    { ID := "", URI := "https://remote.example/blocks/1" } sampleFollow
    { ID := "", URI := "https://remote.example/follows/1" } sampleLike
    { ID := "", URI := "https://remote.example/likes/1" } sampleFlag
    { ID := "", URI := "https://remote.example/flags/1" }
    [AttributedToEntry.iri { str := "https://other.example/users/carol" }]
    { str := "https://other.example/statuses/7" }
    { ID := "", URI := "https://remote.example/statuses/1", CreatedAt := 1700000000,
      Content := "hello" } "01HF7YAT00"
  have hflag := handler_error_ignores_enqueue (enqueueBounded 1) sampleEnv busyState sampleCtx
    (Activity.flag sampleFlag) sampleASBlock sampleNote bob alice
    { emptyState.db with
      reports := [{ ID := "01H", URI := "https://remote.example/flags/1" }] }
    { ID := "", URI := "https://remote.example/blocks/1" } sampleFollow
    { ID := "", URI := "https://remote.example/follows/1" } sampleLike
    { ID := "", URI := "https://remote.example/likes/1" } sampleFlag
    { ID := "", URI := "https://remote.example/flags/1" }
    [AttributedToEntry.iri { str := "https://other.example/users/carol" }]
    { str := "https://other.example/statuses/7" }
    { ID := "", URI := "https://remote.example/statuses/1", CreatedAt := 1700000000,
      Content := "hello" } "01HF7YAT00"
  ⟨⟨hlike.2.2.1 rfl (by decide), by decide⟩,
    hflag.2.2.2.1 rfl (by decide),
    hlike.2.2.2.2.1 (by decide)⟩

end Theorems

end Federatingdb

namespace MediaFfmpeg

/-! ## Theorems about run counting -/

section Theorems

/-- A count in `[0, 500]` is incremented without wrapping. -/
theorem wrapInt_succ (x : Int) (hlo : 0 ≤ x) (hhi : x ≤ 500) : wrapInt (x + 1) = x + 1 := by
  unfold wrapInt
  omega

/-- The locked section below the threshold: the count is incremented and nothing else
happens. -/
theorem lockedSection_below (m : Compiled) (faults : List Bool)
    (h : ¬ wrapInt (m.runCount + 1) > 500) :
    lockedSection m faults
      = Locked.unlocked none { m with runCount := wrapInt (m.runCount + 1) } faults := by
  unfold lockedSection
  simp only [h, if_false]

/-- The locked section past the threshold on a variable that holds a module, when
neither `Close` nor the compilation fails: one close, one compilation, the count back
at 0. -/
theorem lockedSection_recompiles (m : Compiled) (faults : List Bool)
    (h : wrapInt (m.runCount + 1) > 500) (hloaded : m.loaded = true)
    (hclose : faults.headD false = false) (hcompile : faults.tail.headD false = false) :
    lockedSection m faults
      = Locked.unlocked none
          { loaded := true, runCount := 0, compilations := m.compilations + 1,
            closes := m.closes + 1 }
          faults.tail.tail := by
  unfold lockedSection
  simp only [h, if_true, hloaded, Bool.not_true, Bool.false_eq_true, if_false, close, compile,
    hclose, hcompile]

/-- The locked section past the threshold on a variable that holds no module panics. -/
theorem lockedSection_panics (m : Compiled) (faults : List Bool)
    (h : wrapInt (m.runCount + 1) > 500) (hloaded : m.loaded = false) :
    lockedSection m faults
      = Locked.panicked { m with runCount := wrapInt (m.runCount + 1) } faults := by
  unfold lockedSection
  simp only [h, if_true, hloaded, Bool.not_false]

/-- A locked section that ends without error past the threshold has found a module,
closed it once and compiled once; below the threshold it has only counted. -/
theorem lockedSection_ok (m m' : Compiled) (faults faults' : List Bool)
    (hok : lockedSection m faults = Locked.unlocked none m' faults') :
    (wrapInt (m.runCount + 1) > 500 →
        m.loaded = true
          ∧ m' = { loaded := true, runCount := 0, compilations := m.compilations + 1,
                   closes := m.closes + 1 }
          ∧ faults' = faults.tail.tail)
      ∧ (¬ wrapInt (m.runCount + 1) > 500 →
        m' = { m with runCount := wrapInt (m.runCount + 1) } ∧ faults' = faults) := by
  constructor
  · intro h
    unfold lockedSection at hok
    simp only [h, if_true] at hok
    rcases hl : m.loaded with _ | _
    · rw [hl] at hok
      simp at hok
    · rw [hl] at hok
      simp only [Bool.not_true, Bool.false_eq_true, if_false, close, compile] at hok
      rcases hc : faults.headD false with _ | _
      · rw [hc] at hok
        simp only [Bool.false_eq_true, if_false] at hok
        rcases hc' : faults.tail.headD false with _ | _
        · rw [hc'] at hok
          simp only [Bool.false_eq_true, if_false, Locked.unlocked.injEq, true_and] at hok
          exact ⟨rfl, hok.1.symm, hok.2.symm⟩
        · rw [hc'] at hok
          simp at hok
      · rw [hc] at hok
        simp at hok
  · intro h
    rw [lockedSection_below m faults h] at hok
    simp only [Locked.unlocked.injEq, true_and] at hok
    exact ⟨hok.1.symm, hok.2.symm⟩

/-- One run of the locked section from a count in `[0, 500]`, when it ends without
error: the count goes up by one, or back to `0` from `500` with exactly one close and
one recompilation. -/
theorem lockedSection_step (m m' : Compiled) (faults faults' : List Bool)
    (hlo : 0 ≤ m.runCount) (hhi : m.runCount ≤ 500)
    (hok : lockedSection m faults = Locked.unlocked none m' faults') :
    m'.runCount = (if m.runCount = 500 then 0 else m.runCount + 1)
      ∧ m'.compilations = m.compilations + (if m.runCount = 500 then 1 else 0)
      ∧ m'.closes = m.closes + (if m.runCount = 500 then 1 else 0)
      ∧ (m.loaded = true → m'.loaded = true) := by
  have hw := wrapInt_succ m.runCount hlo hhi
  have h := lockedSection_ok m m' faults faults' hok
  rw [hw] at h
  by_cases h500 : m.runCount = 500
  · obtain ⟨-, hm', -⟩ := h.1 (by omega)
    subst hm'
    simp [h500]
  · obtain ⟨hm', -⟩ := h.2 (by omega)
    subst hm'
    simp [h500]

/-- After `k` error-free runs from a fresh count, the count is `k mod 501` and the module
has been closed and recompiled `k / 501` times more. -/
theorem errorFreeRuns_count (m m' : Compiled) (faults faults' : List Bool)
    (hzero : m.runCount = 0) (k : Nat)
    (hruns : errorFreeRuns m faults k = some (m', faults')) :
    m'.runCount = ((k % 501 : Nat) : Int)
      ∧ m'.compilations = m.compilations + k / 501
      ∧ m'.closes = m.closes + k / 501 := by
  induction k generalizing m' faults' with
  | zero =>
    simp only [errorFreeRuns, Option.some.injEq, Prod.mk.injEq] at hruns
    obtain ⟨rfl, -⟩ := hruns
    simp [hzero]
  | succ k ih =>
    simp only [errorFreeRuns] at hruns
    rcases hk : errorFreeRuns m faults k with _ | ⟨mk, fk⟩
    · rw [hk] at hruns
      simp at hruns
    · rw [hk] at hruns
      simp only at hruns
      have ihk := ih mk fk hk
      rcases hs : lockedSection mk fk with ⟨_ | e, m'', f''⟩ | ⟨m'', f''⟩
      · rw [hs] at hruns
        simp only [Option.some.injEq, Prod.mk.injEq] at hruns
        obtain ⟨rfl, rfl⟩ := hruns
        have hstep := lockedSection_step mk m'' fk f''
          (by rw [ihk.1]; omega) (by rw [ihk.1]; omega) hs
        rw [hstep.1, hstep.2.1, hstep.2.2.1, ihk.1, ihk.2.1, ihk.2.2]
        refine ⟨?_, ?_, ?_⟩
        · split_ifs with h <;> omega
        · split_ifs with h <;> omega
        · split_ifs with h <;> omega
      · rw [hs] at hruns
        simp at hruns
      · rw [hs] at hruns
        simp at hruns

/-- On variables that hold a module, with no failing call, every run of the locked
section ends without error and leaves a module. -/
theorem errorFreeRuns_total (m : Compiled) (hloaded : m.loaded = true) (k : Nat) :
    ∃ m' : Compiled, errorFreeRuns m [] k = some (m', []) ∧ m'.loaded = true := by
  induction k with
  | zero => exact ⟨m, rfl, hloaded⟩
  | succ k ih =>
    obtain ⟨mk, hk, hl⟩ := ih
    simp only [errorFreeRuns, hk]
    by_cases h : wrapInt (mk.runCount + 1) > 500
    · rw [lockedSection_recompiles mk [] h hl rfl rfl]
      exact ⟨_, rfl, rfl⟩
    · rw [lockedSection_below mk [] h]
      exact ⟨_, rfl, hl⟩

/-- C29. Run-count invariant of `Ffmpeg` and `Ffprobe`. Each run that the runner lets
through executes the locked section once on its own variables and leaves the other
binary's alone; an error of the section is returned and a panic of the section is a
panic of the run. The locked section adds one to the count; when the new value does not
exceed 500 it does nothing else; when it does, it closes the module once, compiles once
and resets the count to 0, unless `Close` or the compilation fails (the error is
returned with the count as incremented, and after a failed compilation the variable
holds no module) or the variable holds no module (`Close` panics). From a count in
`[0, 500]`, a run whose locked section ends without error leaves the count in
`[0, 500]`. In an error-free sequence of runs from 0 the count after `k` runs is
`k mod 501`, the module has been closed and recompiled `k / 501` times, and the `k`-th
run closes and recompiles exactly when 501 divides `k`; on variables that hold a module
and with no failing call, every sequence of runs is error-free. -/
theorem run_count_invariant :
    (∀ (s : State) (outcome : Outcome),
        (Ffmpeg s true outcome).state.ffmpeg = (lockedSection s.ffmpeg s.faults).vars
          ∧ (Ffmpeg s true outcome).state.ffprobe = s.ffprobe
          ∧ (Ffprobe s true outcome).state.ffprobe = (lockedSection s.ffprobe s.faults).vars
          ∧ (Ffprobe s true outcome).state.ffmpeg = s.ffmpeg
          ∧ (∀ (m : Compiled) (faults : List Bool),
              lockedSection s.ffmpeg s.faults = Locked.unlocked none m faults →
              Ffmpeg s true outcome
                = Run.returned outcome.result.1 outcome.result.2
                    { s with ffmpeg := m, faults := faults })
          ∧ (∀ (m : Compiled) (faults : List Bool),
              lockedSection s.ffprobe s.faults = Locked.unlocked none m faults →
              Ffprobe s true outcome
                = Run.returned outcome.result.1 outcome.result.2
                    { s with ffprobe := m, faults := faults })
          ∧ (∀ (err : Error) (m : Compiled) (faults : List Bool),
              lockedSection s.ffmpeg s.faults = Locked.unlocked (some err) m faults →
              Ffmpeg s true outcome
                = Run.returned 0 (some err) { s with ffmpeg := m, faults := faults })
          ∧ (∀ (err : Error) (m : Compiled) (faults : List Bool),
              lockedSection s.ffprobe s.faults = Locked.unlocked (some err) m faults →
              Ffprobe s true outcome
                = Run.returned 0 (some err) { s with ffprobe := m, faults := faults })
          ∧ (∀ (m : Compiled) (faults : List Bool),
              lockedSection s.ffmpeg s.faults = Locked.panicked m faults →
              Ffmpeg s true outcome = Run.panicked { s with ffmpeg := m, faults := faults })
          ∧ (∀ (m : Compiled) (faults : List Bool),
              lockedSection s.ffprobe s.faults = Locked.panicked m faults →
              Ffprobe s true outcome
                = Run.panicked { s with ffprobe := m, faults := faults }))
      ∧ (∀ (m : Compiled) (faults : List Bool),
          (¬ wrapInt (m.runCount + 1) > 500 →
              lockedSection m faults
                = Locked.unlocked none { m with runCount := wrapInt (m.runCount + 1) } faults)
            ∧ (wrapInt (m.runCount + 1) > 500 → m.loaded = true →
                faults.headD false = false → faults.tail.headD false = false →
              lockedSection m faults
                = Locked.unlocked none
                    { loaded := true, runCount := 0, compilations := m.compilations + 1,
                      closes := m.closes + 1 }
                    faults.tail.tail)
            ∧ (wrapInt (m.runCount + 1) > 500 → m.loaded = true →
                faults.headD false = true →
              lockedSection m faults
                = Locked.unlocked (some Error.close)
                    { m with runCount := wrapInt (m.runCount + 1) } faults.tail)
            ∧ (wrapInt (m.runCount + 1) > 500 → m.loaded = true →
                faults.headD false = false → faults.tail.headD false = true →
              lockedSection m faults
                = Locked.unlocked (some Error.compile)
                    { loaded := false, runCount := wrapInt (m.runCount + 1),
                      compilations := m.compilations, closes := m.closes + 1 }
                    faults.tail.tail)
            ∧ (wrapInt (m.runCount + 1) > 500 → m.loaded = false →
              lockedSection m faults
                = Locked.panicked { m with runCount := wrapInt (m.runCount + 1) } faults))
      ∧ (∀ (m m' : Compiled) (faults faults' : List Bool),
          0 ≤ m.runCount → m.runCount ≤ 500 →
          lockedSection m faults = Locked.unlocked none m' faults' →
            0 ≤ m'.runCount ∧ m'.runCount ≤ 500
              ∧ m'.runCount = (if m.runCount + 1 > 500 then 0 else m.runCount + 1)
              ∧ m'.compilations = m.compilations + (if m.runCount + 1 > 500 then 1 else 0)
              ∧ m'.closes = m.closes + (if m.runCount + 1 > 500 then 1 else 0))
      ∧ (∀ (m m' : Compiled) (faults faults' : List Bool) (k : Nat), m.runCount = 0 →
          errorFreeRuns m faults k = some (m', faults') →
            m'.runCount = ((k % 501 : Nat) : Int)
              ∧ m'.compilations = m.compilations + k / 501
              ∧ m'.closes = m.closes + k / 501
              ∧ (∀ (m'' : Compiled) (faults'' : List Bool),
                  errorFreeRuns m faults (k + 1) = some (m'', faults'') →
                    m''.compilations
                        = m'.compilations + (if (k + 1) % 501 = 0 then 1 else 0)
                      ∧ m''.closes = m'.closes + (if (k + 1) % 501 = 0 then 1 else 0)))
      ∧ (∀ (m : Compiled) (k : Nat), m.loaded = true →
          ∃ m' : Compiled, errorFreeRuns m [] k = some (m', []) ∧ m'.loaded = true) := by
  refine ⟨?_, ?_, ?_, ?_, ?_⟩
  · intro s outcome
    unfold Ffmpeg Ffprobe
    simp only [if_true]
    refine ⟨?_, ?_, ?_, ?_, ?_, ?_, ?_, ?_, ?_, ?_⟩
    · rcases (lockedSection s.ffmpeg s.faults) with ⟨_ | e, m, f⟩ | ⟨m, f⟩ <;> rfl
    · rcases (lockedSection s.ffmpeg s.faults) with ⟨_ | e, m, f⟩ | ⟨m, f⟩ <;> rfl
    · rcases (lockedSection s.ffprobe s.faults) with ⟨_ | e, m, f⟩ | ⟨m, f⟩ <;> rfl
    · rcases (lockedSection s.ffprobe s.faults) with ⟨_ | e, m, f⟩ | ⟨m, f⟩ <;> rfl
    · intro m faults h
      rw [h]
    · intro m faults h
      rw [h]
    · intro err m faults h
      rw [h]
    · intro err m faults h
      rw [h]
    · intro m faults h
      rw [h]
    · intro m faults h
      rw [h]
  · intro m faults
    refine ⟨lockedSection_below m faults, lockedSection_recompiles m faults, ?_, ?_,
      lockedSection_panics m faults⟩
    · intro h hloaded hclose
      unfold lockedSection
      simp only [h, if_true, hloaded, Bool.not_true, Bool.false_eq_true, if_false, close,
        hclose]
    · intro h hloaded hclose hcompile
      unfold lockedSection
      simp only [h, if_true, hloaded, Bool.not_true, Bool.false_eq_true, if_false, close,
        compile, hclose, hcompile]
  · intro m m' faults faults' hlo hhi hok
    have h := lockedSection_step m m' faults faults' hlo hhi hok
    rw [h.1, h.2.1, h.2.2.1]
    refine ⟨?_, ?_, ?_, ?_, ?_⟩
    · split_ifs <;> omega
    · split_ifs <;> omega
    · split_ifs <;> omega
    · split_ifs <;> omega
    · split_ifs <;> omega
  · intro m m' faults faults' k hzero hruns
    have h1 := errorFreeRuns_count m m' faults faults' hzero k hruns
    refine ⟨h1.1, h1.2.1, h1.2.2, ?_⟩
    intro m'' faults'' hnext
    have h2 := errorFreeRuns_count m m'' faults faults'' hzero (k + 1) hnext
    rw [h2.2.1, h2.2.2, h1.2.1, h1.2.2]
    constructor
    · split_ifs with h <;> omega
    · split_ifs with h <;> omega
  · intro m k hloaded
    exact errorFreeRuns_total m hloaded k

/-- Witness for C29: from the variables as initialised, 501 runs with no failing call
are error-free and end with the count at 0 after one close and one recompilation; from
a count of 500 the locked section closes, recompiles and resets; when that
recompilation fails the variable is left without a module and the count at 501, and
the next run panics with the count at 502. -/
theorem run_count_invariant_witness :
    (∃ m' : Compiled, errorFreeRuns initial [] 501 = some (m', [])
        ∧ m'.runCount = ((501 % 501 : Nat) : Int)
        ∧ m'.compilations = initial.compilations + 501 / 501
        ∧ m'.closes = initial.closes + 501 / 501)
      ∧ lockedSection { loaded := true, runCount := 500, compilations := 3, closes := 3 } []
          = Locked.unlocked none
              { loaded := true, runCount := 0, compilations := 3 + 1, closes := 3 + 1 } []
      ∧ lockedSection { loaded := true, runCount := 500, compilations := 0, closes := 0 }
            [false, true]
          = Locked.unlocked (some Error.compile) afterFailedCompile []
      ∧ lockedSection afterFailedCompile []
          = Locked.panicked
              { loaded := false, runCount := 502, compilations := 0, closes := 1 } []
      ∧ Ffmpeg { ffmpeg := afterFailedCompile, ffprobe := initial, faults := [] } true
            Outcome.done
          = Run.panicked
              { ffmpeg := { loaded := false, runCount := 502, compilations := 0, closes := 1 },
                ffprobe := initial, faults := [] } :=
  ⟨(run_count_invariant.2.2.2.2 initial 501 rfl).elim
      (fun m' h => ⟨m', h.1,
        (run_count_invariant.2.2.2.1 initial m' [] [] 501 rfl h.1).1,
        (run_count_invariant.2.2.2.1 initial m' [] [] 501 rfl h.1).2.1,
        (run_count_invariant.2.2.2.1 initial m' [] [] 501 rfl h.1).2.2.1⟩),
    (run_count_invariant.2.1
      { loaded := true, runCount := 500, compilations := 3, closes := 3 } []).2.1
      (by decide) rfl rfl rfl,
    (run_count_invariant.2.1
      { loaded := true, runCount := 500, compilations := 0, closes := 0 }
      [false, true]).2.2.2.1 (by decide) rfl rfl rfl,
    (run_count_invariant.2.1 afterFailedCompile []).2.2.2.2 (by decide) rfl,
    (run_count_invariant.1 { ffmpeg := afterFailedCompile, ffprobe := initial, faults := [] }
      Outcome.done).2.2.2.2.2.2.2.2.1
      { loaded := false, runCount := 502, compilations := 0, closes := 1 } []
      ((run_count_invariant.2.1 afterFailedCompile []).2.2.2.2 (by decide) rfl)⟩

end Theorems

end MediaFfmpeg

namespace Timeline

/-! ## Theorems about the tag timeline -/

section Theorems

/-- The loop of `packageTagResponse` appends the visible items to the slice it starts
with. -/
theorem itemsLoop_eq (env : Env) (requestingAcct : Option Account) (statuses : List Status)
    (items : List APIStatus) :
    itemsLoop env requestingAcct statuses items
      = items ++ visibleItems env requestingAcct statuses := by
  induction statuses generalizing items with
  | nil => simp [itemsLoop, visibleItems]
  | cons s rest ih =>
    unfold itemsLoop
    rcases hf : env.StatusTagTimelineable requestingAcct s with ⟨b, _ | e⟩
    · cases b
      · simp [ih, visibleItems, hf]
      · rcases hc : env.StatusToAPIStatus s requestingAcct with e | a
        · simp [ih, visibleItems, hf, hc]
        · simp [ih, visibleItems, hf, hc]
    · simp [ih, visibleItems, hf]

/-- C28. For a non-empty list of statuses (and at least one tag name),
`packageTagResponse` answers with a response whose items are, in the order of the list,
the conversions of exactly the statuses for which the visibility filter returns
`(true, nil)` and the conversion succeeds; the next and previous paging values are the
IDs of the last and of the first status of the unfiltered list. `TagTimelineGet` hands
the statuses of storage to it once every tag is found, useable and listable. An empty
list gives the empty response. -/
theorem tag_timeline_items (env : Env) (requestingAcct : Option Account)
    (first : Status) (others : List Status) (limit : Int)
    (primary : String) (extra : List String) (maxID sinceID minID : String) :
    packageTagResponse env requestingAcct (first :: others) limit (primary :: extra)
        = Outcome.value (Response.packaged
            { Items := visibleItems env requestingAcct (first :: others),
              Path := "/api/v1/timelines/tag/" ++ primary,
              NextMaxIDValue :=
                ((first :: others).getLast (List.cons_ne_nil first others)).ID,
              PrevMinIDValue := first.ID,
              Limit := limit,
              ExtraQueryParams := extra.map (fun tagName => "any[]=" ++ tagName) })
      ∧ packageTagResponse env requestingAcct [] limit (primary :: extra)
        = Outcome.value Response.empty
      ∧ (visibleItems env requestingAcct (first :: others)).length ≤ (first :: others).length
      ∧ (∀ tagIDs : List String,
          tagIDsLoop env (primary :: extra) [] = (tagIDs, none) →
          ∀ statuses : List Status,
            env.GetTagTimeline tagIDs maxID sinceID minID limit = (statuses, none) →
            TagTimelineGet env requestingAcct (primary :: extra) maxID sinceID minID limit
              = packageTagResponse env requestingAcct statuses limit (primary :: extra)) := by
  refine ⟨?_, rfl, ?_, ?_⟩
  · simp [packageTagResponse, itemsLoop_eq]
  · exact List.length_filterMap_le _ _
  · intro tagIDs htags statuses hstatuses
    simp [TagTimelineGet, htags, hstatuses]

/-- Witness for C28: five statuses of the tag `cats`, of which one is hidden, one cannot
be checked and one cannot be converted. -/
theorem tag_timeline_items_witness :
    TagTimelineGet sampleEnv none ["cats"] "" "" "" 20
      = Outcome.value (Response.packaged
          { Items := [{ ID := "05", Content := "one" }, { ID := "01", Content := "two" }],
            Path := "/api/v1/timelines/tag/cats",
            NextMaxIDValue := "01",
            PrevMinIDValue := "05",
            Limit := 20,
            ExtraQueryParams := [] }) :=
  ((tag_timeline_items sampleEnv none { ID := "05", Content := "one" }
      [{ ID := "04", Content := "hidden" }, { ID := "03", Content := "broken" },
       { ID := "02", Content := "odd" }, { ID := "01", Content := "two" }]
      20 "cats" [] "" "" "").2.2.2 ["01TAG"] (by decide)
      [{ ID := "05", Content := "one" }, { ID := "04", Content := "hidden" },
       { ID := "03", Content := "broken" }, { ID := "02", Content := "odd" },
       { ID := "01", Content := "two" }] rfl).trans
    ((tag_timeline_items sampleEnv none { ID := "05", Content := "one" }
      [{ ID := "04", Content := "hidden" }, { ID := "03", Content := "broken" },
       { ID := "02", Content := "odd" }, { ID := "01", Content := "two" }]
      20 "cats" [] "" "" "").1.trans (by decide))

end Theorems

end Timeline
